import Mathlib

/-
Verification development for the tactics-driven basketball match engine
(src/match_engine/*.py with shared helpers from src/match_engine_mvp_plus_v08.py).

Modelling conventions:
- Python floats are embedded as exact rationals (ℚ); the transcendental
  probability kernel (sigmoid / logit / Gaussian noise) is embedded over ℝ.
- Python dicts are embedded as insertion-ordered association lists
  (List (String × v)); updating an existing key keeps its position and a
  new key is appended, matching CPython dict semantics.
- The RNG is embedded as a pair of draw streams (uniform rationals in [0,1)
  and standard Gaussian reals) with explicit indices; every stochastic call
  consumes draws in the same order as the Python source.
- Mutation is embedded as explicit state passing.
-/

namespace MatchEngine

/-- Python str.startswith, embedded via character-list prefix testing. -/
def pyStartsWith (s pre : String) : Bool :=
  pre.data.isPrefixOf s.data

/-- Ordered-dict lookup (first match), mirroring Python dict.get. -/
def dictGet {v : Type} (d : List (String × v)) (k : String) (dflt : v) : v :=
  (d.lookup k).getD dflt

/-- Ordered-dict lookup returning an Option, mirroring Python dict.get with None default. -/
def dictFind {v : Type} (d : List (String × v)) (k : String) : Option v :=
  d.lookup k

/-- Ordered-dict membership, mirroring the Python `k in d` test. -/
def dictContains {v : Type} (d : List (String × v)) (k : String) : Bool :=
  (d.lookup k).isSome

/-- Ordered-dict update: replace in place when the key exists (CPython keeps the
slot position), append otherwise. -/
def dictSet {v : Type} : List (String × v) → String → v → List (String × v)
  | [], k, x => [(k, x)]
  | (k0, x0) :: rest, k, x =>
      if k0 = k then (k0, x) :: rest else (k0, x0) :: dictSet rest k x

/-- Sum of the values of an ordered dict (Python sum over d.values()). -/
def dictValsSum {α : Type} [AddCommMonoid α] (d : List (String × α)) : α :=
  (d.map Prod.snd).sum

/-- The numeric guard 1e-12 used by normalize_weights and weighted_choice. -/
def eps12 {α : Type} [DivisionRing α] : α := 1 / 1000000000000

/-- The numeric guard 1e-9 used by prob_from_scores. -/
def eps9 {α : Type} [DivisionRing α] : α := 1 / 1000000000

/-- clamp from the source: lo if x < lo else hi if x > hi else x. -/
def clamp {α : Type} [LinearOrder α] (x lo hi : α) : α :=
  if x < lo then lo else if x > hi then hi else x

/-- Stable insertion of an element into a list sorted under the total preorder
le; x goes after every y with le y x, which models the stability of Python
sorted for tie keys. -/
def pyInsert {α : Type} (le : α → α → Bool) (x : α) : List α → List α
  | [] => [x]
  | y :: ys => if le y x then y :: pyInsert le x ys else x :: y :: ys

/-- Python sorted(...) as a stable insertion sort under the preorder le
(for sorted(key=f) use le a b := f a ≤ f b; for reverse=True use ≥). -/
def pySorted {α : Type} (le : α → α → Bool) (l : List α) : List α :=
  l.foldl (fun acc x => pyInsert le x acc) []

/-- Python max(iterable, key=f): the first element attaining the maximal key;
returns the fallback on an empty list (where Python would raise). -/
def pyMaxBy {α : Type} (f : α → ℚ) (fallback : α) : List α → α
  | [] => fallback
  | x :: xs => xs.foldl (fun best y => if f best < f y then y else best) x

/-- The seeded RNG stream: uniform draws u n ∈ [0,1) and standard Gaussian
draws g n, consumed at explicit indices.  random.Random interleaves both in
one internal state; two indexed streams carry the same determinism content. -/
structure Rng where
  u : ℕ → ℚ
  g : ℕ → ℝ
  iu : ℕ
  ig : ℕ

/-- rng.random(): next uniform draw. -/
def Rng.random (r : Rng) : ℚ × Rng :=
  (r.u r.iu, { r with iu := r.iu + 1 })

/-- rng.gauss(0.0, std): std times the next standard Gaussian draw. -/
noncomputable def Rng.gauss (r : Rng) (std : ℝ) : ℝ × Rng :=
  (std * r.g r.ig, { r with ig := r.ig + 1 })

/-- rng.choice(seq): pick the element indexed by the next uniform draw. -/
def Rng.choice (r : Rng) (xs : List String) : String × Rng :=
  let p := r.random
  (xs.getD (Int.toNat ⌊p.1 * (xs.length : ℚ)⌋) "", p.2)

/-- sigmoid from the source, with its two numerically-motivated branches. -/
noncomputable def sigmoid (x : ℝ) : ℝ :=
  if 0 ≤ x then 1 / (1 + Real.exp (-x)) else Real.exp x / (1 + Real.exp x)

/-- normalize_weights from the source: clip values at 0, divide by their sum;
a (near-)zero-sum nonempty map becomes the uniform distribution over its keys. -/
def normalize_weights {α : Type} [LinearOrderedField α]
    (d : List (String × α)) : List (String × α) :=
  let s : α := (d.map (fun kv => max kv.2 0)).sum
  if s ≤ eps12 then
    if d = [] then [] else d.map (fun kv => (kv.1, 1 / (d.length : α)))
  else
    d.map (fun kv => (kv.1, max kv.2 0 / s))

/-- The scanning loop of weighted_choice: accumulate clipped weights and return
the first key whose cumulative weight reaches the target r. -/
def wcScan {α : Type} [LinearOrderedField α] (r : α) :
    α → List (String × α) → Option String
  | _, [] => none
  | acc, kv :: rest =>
      let acc2 := acc + max kv.2 0
      if r ≤ acc2 then some kv.1 else wcScan r acc2 rest

/-- First key of a weight map (Python next(iter(weights.keys())); empty maps
raise in Python and default to "" here). -/
def headKey {α : Type} (d : List (String × α)) : String :=
  (d.head?.map Prod.fst).getD ""

/-- weighted_choice from the source: if the clipped total is ≤ 1e-12 return the
first key without consuming a draw; otherwise draw u, scan for the first key
whose cumulative clipped weight reaches u·total, with the first key as the
(unreachable for u < 1) fallback. -/
def weighted_choice {α : Type} [LinearOrderedField α]
    (rng : Rng) (weights : List (String × α)) : String × Rng :=
  let total : α := (weights.map (fun kv => max kv.2 0)).sum
  if total ≤ eps12 then (headKey weights, rng)
  else
    let p := rng.random
    let r := (p.1 : α) * total
    match wcScan r 0 weights with
    | some k => (k, p.2)
    | none => (headKey weights, p.2)

/-- dot_profile from the source: Σ over profile entries of value·weight, with
missing values defaulting to 50. -/
def dot_profile (vals profile : List (String × ℚ)) : ℚ :=
  (profile.map (fun kw => dictGet vals kw.1 50 * kw.2)).sum

/-- apply_multipliers from the source: multiply base values by the multiplier
map on the keys already present in base. -/
def apply_multipliers (base mults : List (String × ℚ)) : List (String × ℚ) :=
  mults.foldl
    (fun out km =>
      if dictContains out km.1 then
        dictSet out km.1 (dictGet out km.1 0 * km.2)
      else out)
    base

/-- apply_multipliers_typesafe from the source: same multiply-present-keys rule
(the dict is copied first in Python; explicit state passing subsumes that). -/
def apply_multipliers_typesafe (pri mults : List (String × ℚ)) : List (String × ℚ) :=
  mults.foldl
    (fun out om =>
      if dictContains out om.1 then
        dictSet out om.1 (dictGet out om.1 0 * om.2)
      else out)
    pri

/-! Core data models (src/match_engine/models.py). -/

/-- Default for a missing derived ability key. -/
def DERIVED_DEFAULT : ℚ := 50

/-- Player from the source: id, name, position tag, derived ability map, and a
raw fatigue counter (0 fresh, 100 exhausted). -/
structure Player where
  pid : String
  name : String
  pos : String
  derived : List (String × ℚ)
  fatigue : ℚ

/-- Fallback player standing in for the places where the Python source would
raise on an empty lineup (lineup[0] / max of an empty list). -/
def defaultPlayer : Player :=
  { pid := "", name := "", pos := "G", derived := [], fatigue := 0 }

/-- Player.get from the source: the stored derived value (default 50), scaled
when fatigue_sensitive by the factor clamp(1 − fatigue/560, 0.82, 1.0). -/
def Player.get (p : Player) (key : String) (fatigue_sensitive : Bool) : ℚ :=
  let v := dictGet p.derived key DERIVED_DEFAULT
  if fatigue_sensitive then v * clamp (1 - p.fatigue / 560) (82/100) 1 else v

/-- Player.add_fatigue from the source: gain = cost·(1.12 − ENDURANCE/220),
saturating into [0, 100]. -/
def Player.add_fatigue (p : Player) (cost : ℚ) : Player :=
  let endu := dictGet p.derived "ENDURANCE" DERIVED_DEFAULT
  let gain := cost * (112/100 - endu / 220)
  { p with fatigue := clamp (p.fatigue + gain) 0 100 }

/-- Recognized context options of a TacticsConfig (the validator drops all
unrecognized keys, so the free-form dict is embedded as this record). -/
structure TacticsContext where
  PACE_MULT : ℚ := 1
  ORB_MULT : ℚ := 1
  DRB_MULT : ℚ := 1
  VARIANCE_MULT : ℚ := 1
  ROLE_FIT_STRENGTH : Option ℚ := none
  TRANSITION_EMPHASIS : Bool := false
  HEAVY_PNR : Bool := false

/-- TacticsConfig from the source. -/
structure TacticsConfig where
  offense_scheme : String := "Spread_HeavyPnR"
  defense_scheme : String := "Drop"
  scheme_weight_sharpness : ℚ := 1
  scheme_outcome_strength : ℚ := 1
  def_scheme_weight_sharpness : ℚ := 1
  def_scheme_outcome_strength : ℚ := 1
  action_weight_mult : List (String × ℚ) := []
  outcome_global_mult : List (String × ℚ) := []
  outcome_by_action_mult : List (String × List (String × ℚ)) := []
  def_action_weight_mult : List (String × ℚ) := []
  opp_action_weight_mult : List (String × ℚ) := []
  opp_outcome_global_mult : List (String × ℚ) := []
  opp_outcome_by_action_mult : List (String × List (String × ℚ)) := []
  context : TacticsContext := {}

/-- One entry of the per-possession role-fit debug log. -/
structure RoleFitLogEntry where
  action_family : String
  applied : Bool
  n_roles : ℕ
  fit_eff : ℚ
  grade : String
  role_fit_strength : ℚ
  avg_mult_final : ℚ
  delta_final : ℚ

/-- TeamState from the source: identity, lineup, role map, tactics, the team
counters, histograms, per-player box, shot-zone histogram and role-fit
diagnostics. -/
structure TeamState where
  name : String
  lineup : List Player
  roles : List (String × String)
  tactics : TacticsConfig
  pts : ℕ := 0
  fgm : ℕ := 0
  fga : ℕ := 0
  tpm : ℕ := 0
  tpa : ℕ := 0
  ftm : ℕ := 0
  fta : ℕ := 0
  tov : ℕ := 0
  orb : ℕ := 0
  drb : ℕ := 0
  possessions : ℕ := 0
  off_action_counts : List (String × ℕ) := []
  def_action_counts : List (String × ℕ) := []
  outcome_counts : List (String × ℕ) := []
  player_stats : List (String × List (String × ℕ)) := []
  shot_zones : List (String × ℕ) := []
  role_fit_pos_log : List RoleFitLogEntry := []
  role_fit_role_counts : List (String × ℕ) := []
  role_fit_grade_counts : List (String × ℕ) := []
  role_fit_bad_totals : List (String × ℕ) := []
  role_fit_bad_by_grade : List (String × List (String × ℕ)) := []

/-- TeamState.find_player from the source. -/
def TeamState.find_player (t : TeamState) (pid : String) : Option Player :=
  t.lineup.find? (fun p => p.pid = pid)

/-- The zeroed player box dict created on demand by add_player_stat. -/
def emptyBox : List (String × ℕ) :=
  [("PTS", 0), ("FGM", 0), ("FGA", 0), ("3PM", 0), ("3PA", 0),
   ("FTM", 0), ("FTA", 0), ("TOV", 0), ("ORB", 0), ("DRB", 0)]

/-- TeamState.add_player_stat from the source: create the zeroed box when the
pid is unknown, then add inc onto the stat key. -/
def TeamState.add_player_stat (t : TeamState) (pid key : String) (inc : ℕ) : TeamState :=
  let stats0 := if dictContains t.player_stats pid then t.player_stats
                else dictSet t.player_stats pid emptyBox
  let box := dictGet stats0 pid emptyBox
  { t with player_stats := dictSet stats0 pid (dictSet box key (dictGet box key 0 + inc)) }

/-- The fallback tail of get_role_player: the lineup maximum under the
fallback ranking key when one is given, else the first lineup player. -/
def TeamState.role_player_fallback (t : TeamState) : Option String → Player
  | some key => pyMaxBy (fun x => x.get key true) defaultPlayer t.lineup
  | none => t.lineup.headD defaultPlayer

/-- TeamState.get_role_player from the source: the assigned player when the
role maps to a lineup member, else the fallback selection. -/
def TeamState.get_role_player (t : TeamState) (role : String)
    (fallback_rank_key : Option String) : Player :=
  match dictFind t.roles role with
  | some pid =>
      if pid = "" then t.role_player_fallback fallback_rank_key
      else
        match t.find_player pid with
        | some p => p
        | none => t.role_player_fallback fallback_rank_key
  | none => t.role_player_fallback fallback_rank_key

/-- Minimal role ranking keys for fallbacks (ROLE_FALLBACK_RANK). -/
def ROLE_FALLBACK_RANK : List (String × String) :=
  [("ball_handler", "PNR_READ"), ("secondary_handler", "PASS_CREATE"),
   ("screener", "SHORTROLL_PLAY"), ("post", "POST_SCORE"),
   ("shooter", "SHOT_3_CS"), ("cutter", "FIRST_STEP"),
   ("rim_runner", "FIN_DUNK")]

/-- GameState from the source (src/match_engine/models.py as used by sim.py):
clocks, scores, fouls, normalized freshness (called fatigue there, 1 fresh),
minutes, on-court lists and minute targets. -/
structure GameState where
  quarter : ℕ
  clock_sec : ℚ
  shot_clock_sec : ℚ
  score_home : ℕ
  score_away : ℕ
  possession : ℕ
  team_fouls : List (String × ℕ)
  player_fouls : List (String × ℕ)
  fatigue : List (String × ℚ)
  minutes_played_sec : List (String × ℕ)
  on_court_home : List String
  on_court_away : List String
  targets_sec_home : List (String × ℕ)
  targets_sec_away : List (String × ℕ)

/-! Outcome resolution profiles and tuning tables (profiles.py content, as
carried verbatim in src/match_engine_mvp_plus_v08.py). -/

/-- Offense/defense ability-weight vectors of one outcome. -/
structure OutcomeProfile where
  offense : List (String × ℚ)
  defense : List (String × ℚ)

/-- OUTCOME_PROFILES from the source. -/
def OUTCOME_PROFILES : List (String × OutcomeProfile) :=
  [("SHOT_RIM_LAYUP",
    { offense := [("FIN_RIM", 0.55), ("FIN_CONTACT", 0.15), ("SHOT_TOUCH", 0.10), ("HANDLE_SAFE", 0.10), ("ENDURANCE", 0.10)],
      defense := [("DEF_RIM", 0.45), ("DEF_HELP", 0.25), ("PHYSICAL", 0.15), ("DEF_POA", 0.10), ("ENDURANCE", 0.05)] }),
   ("SHOT_RIM_DUNK",
    { offense := [("FIN_DUNK", 0.55), ("FIN_CONTACT", 0.20), ("FIN_RIM", 0.10), ("HANDLE_SAFE", 0.05), ("ENDURANCE", 0.10)],
      defense := [("DEF_RIM", 0.50), ("PHYSICAL", 0.20), ("DEF_HELP", 0.20), ("ENDURANCE", 0.10)] }),
   ("SHOT_RIM_CONTACT",
    { offense := [("FIN_CONTACT", 0.55), ("FIN_RIM", 0.20), ("SHOT_TOUCH", 0.10), ("PHYSICAL", 0.10), ("ENDURANCE", 0.05)],
      defense := [("DEF_RIM", 0.40), ("PHYSICAL", 0.30), ("DEF_HELP", 0.20), ("DEF_POST", 0.10)] }),
   ("SHOT_TOUCH_FLOATER",
    { offense := [("SHOT_TOUCH", 0.55), ("FIN_RIM", 0.15), ("FIN_CONTACT", 0.10), ("DRIVE_CREATE", 0.10), ("ENDURANCE", 0.10)],
      defense := [("DEF_RIM", 0.30), ("DEF_HELP", 0.35), ("DEF_POA", 0.15), ("PHYSICAL", 0.10), ("ENDURANCE", 0.10)] }),
   ("SHOT_MID_CS",
    { offense := [("SHOT_MID_CS", 0.85), ("ENDURANCE", 0.15)],
      defense := [("DEF_POA", 0.35), ("DEF_HELP", 0.35), ("ENDURANCE", 0.20), ("PHYSICAL", 0.10)] }),
   ("SHOT_3_CS",
    { offense := [("SHOT_3_CS", 0.85), ("ENDURANCE", 0.15)],
      defense := [("DEF_POA", 0.35), ("DEF_HELP", 0.35), ("ENDURANCE", 0.25), ("PHYSICAL", 0.05)] }),
   ("SHOT_MID_PU",
    { offense := [("SHOT_MID_PU", 0.65), ("HANDLE_SAFE", 0.15), ("FIRST_STEP", 0.10), ("ENDURANCE", 0.10)],
      defense := [("DEF_POA", 0.50), ("DEF_HELP", 0.25), ("ENDURANCE", 0.15), ("PHYSICAL", 0.10)] }),
   ("SHOT_3_OD",
    { offense := [("SHOT_3_OD", 0.60), ("HANDLE_SAFE", 0.20), ("FIRST_STEP", 0.10), ("ENDURANCE", 0.10)],
      defense := [("DEF_POA", 0.55), ("DEF_HELP", 0.20), ("ENDURANCE", 0.20), ("PHYSICAL", 0.05)] }),
   ("SHOT_POST",
    { offense := [("POST_SCORE", 0.40), ("POST_CONTROL", 0.20), ("FIN_CONTACT", 0.20), ("SHOT_TOUCH", 0.10), ("PHYSICAL", 0.10)],
      defense := [("DEF_POST", 0.55), ("DEF_HELP", 0.20), ("PHYSICAL", 0.20), ("DEF_RIM", 0.05)] }),
   ("PASS_KICKOUT",
    { offense := [("PASS_CREATE", 0.45), ("PASS_SAFE", 0.35), ("PNR_READ", 0.20)],
      defense := [("DEF_STEAL", 0.55), ("DEF_HELP", 0.30), ("DEF_POA", 0.15)] }),
   ("PASS_EXTRA",
    { offense := [("PASS_SAFE", 0.55), ("PASS_CREATE", 0.30), ("PNR_READ", 0.15)],
      defense := [("DEF_STEAL", 0.50), ("DEF_HELP", 0.35), ("ENDURANCE", 0.15)] }),
   ("PASS_SKIP",
    { offense := [("PASS_CREATE", 0.60), ("PASS_SAFE", 0.25), ("PNR_READ", 0.15)],
      defense := [("DEF_STEAL", 0.55), ("DEF_HELP", 0.35), ("DEF_POA", 0.10)] }),
   ("PASS_SHORTROLL",
    { offense := [("SHORTROLL_PLAY", 0.55), ("PASS_SAFE", 0.25), ("PASS_CREATE", 0.20)],
      defense := [("DEF_HELP", 0.45), ("DEF_STEAL", 0.30), ("ENDURANCE", 0.25)] }),
   ("TO_HANDLE_LOSS",
    { offense := [("HANDLE_SAFE", 0.60), ("DRIVE_CREATE", 0.20), ("ENDURANCE", 0.20)],
      defense := [("DEF_STEAL", 0.50), ("DEF_POA", 0.30), ("DEF_HELP", 0.20)] }),
   ("TO_BAD_PASS",
    { offense := [("PASS_SAFE", 0.55), ("PASS_CREATE", 0.25), ("PNR_READ", 0.20)],
      defense := [("DEF_STEAL", 0.55), ("DEF_HELP", 0.30), ("DEF_POA", 0.15)] }),
   ("TO_CHARGE",
    { offense := [("DRIVE_CREATE", 0.35), ("PHYSICAL", 0.35), ("PNR_READ", 0.15), ("ENDURANCE", 0.15)],
      defense := [("DEF_POA", 0.40), ("DEF_HELP", 0.35), ("PHYSICAL", 0.25)] }),
   ("TO_SHOT_CLOCK",
    { offense := [("PNR_READ", 0.35), ("PASS_CREATE", 0.25), ("DRIVE_CREATE", 0.20), ("HANDLE_SAFE", 0.10), ("ENDURANCE", 0.10)],
      defense := [("DEF_POA", 0.35), ("DEF_HELP", 0.35), ("ENDURANCE", 0.20), ("PHYSICAL", 0.10)] }),
   ("FOUL_DRAW_RIM",
    { offense := [("FIN_CONTACT", 0.60), ("FIN_RIM", 0.15), ("PHYSICAL", 0.15), ("ENDURANCE", 0.10)],
      defense := [("DEF_RIM", 0.40), ("PHYSICAL", 0.25), ("DEF_HELP", 0.25), ("ENDURANCE", 0.10)] }),
   ("FOUL_DRAW_POST",
    { offense := [("FIN_CONTACT", 0.40), ("POST_SCORE", 0.25), ("PHYSICAL", 0.20), ("POST_CONTROL", 0.15)],
      defense := [("DEF_POST", 0.45), ("PHYSICAL", 0.35), ("DEF_HELP", 0.20)] }),
   ("FOUL_DRAW_JUMPER",
    { offense := [("SHOT_3_OD", 0.30), ("SHOT_MID_PU", 0.30), ("HANDLE_SAFE", 0.20), ("ENDURANCE", 0.20)],
      defense := [("DEF_POA", 0.45), ("ENDURANCE", 0.35), ("PHYSICAL", 0.20)] }),
   ("FOUL_REACH_TRAP",
    { offense := [("HANDLE_SAFE", 0.35), ("PASS_SAFE", 0.35), ("PNR_READ", 0.20), ("ENDURANCE", 0.10)],
      defense := [("DEF_STEAL", 0.45), ("PHYSICAL", 0.25), ("ENDURANCE", 0.30)] }),
   ("RESET_HUB",
    { offense := [("PASS_SAFE", 0.55), ("PNR_READ", 0.25), ("ENDURANCE", 0.20)],
      defense := [("DEF_HELP", 0.45), ("DEF_STEAL", 0.25), ("ENDURANCE", 0.30)] }),
   ("RESET_RESREEN",
    { offense := [("PNR_READ", 0.35), ("HANDLE_SAFE", 0.20), ("ENDURANCE", 0.25), ("PASS_SAFE", 0.20)],
      defense := [("DEF_POA", 0.35), ("DEF_HELP", 0.35), ("ENDURANCE", 0.30)] }),
   ("RESET_REDO_DHO",
    { offense := [("HANDLE_SAFE", 0.30), ("PASS_SAFE", 0.30), ("ENDURANCE", 0.25), ("PNR_READ", 0.15)],
      defense := [("DEF_POA", 0.40), ("DEF_STEAL", 0.20), ("ENDURANCE", 0.40)] }),
   ("RESET_POST_OUT",
    { offense := [("POST_CONTROL", 0.35), ("PASS_SAFE", 0.40), ("PASS_CREATE", 0.15), ("PHYSICAL", 0.10)],
      defense := [("DEF_POST", 0.40), ("DEF_STEAL", 0.30), ("DEF_HELP", 0.30)] })]

/-- SHOT_BASE from the source (built-in default table). -/
def SHOT_BASE_DEFAULT : List (String × ℚ) :=
  [("SHOT_RIM_LAYUP", 0.56), ("SHOT_RIM_DUNK", 0.70), ("SHOT_RIM_CONTACT", 0.47),
   ("SHOT_TOUCH_FLOATER", 0.41), ("SHOT_MID_CS", 0.43), ("SHOT_MID_PU", 0.41),
   ("SHOT_3_CS", 0.36), ("SHOT_3_OD", 0.33), ("SHOT_POST", 0.50)]

/-- PASS_BASE_SUCCESS from the source (built-in default table). -/
def PASS_BASE_SUCCESS_DEFAULT : List (String × ℚ) :=
  [("PASS_KICKOUT", 0.92), ("PASS_EXTRA", 0.93), ("PASS_SKIP", 0.90), ("PASS_SHORTROLL", 0.88)]

/-- OFF_SCHEME_ACTION_WEIGHTS from the source (built-in default table). -/
def OFF_SCHEME_ACTION_WEIGHTS_DEFAULT : List (String × List (String × ℚ)) :=
  [("Spread_HeavyPnR",
    [("PnR", 28), ("SideAnglePnR", 10), ("DoubleDrag", 8), ("Rescreen", 5), ("SlipScreen", 4),
     ("SpainPnR", 4), ("ShortRollPlay", 6), ("Drive", 8), ("Kickout", 8), ("ExtraPass", 6),
     ("SpotUp", 8), ("Cut", 5)]),
   ("Drive_Kick",
    [("Drive", 30), ("Kickout", 18), ("ExtraPass", 12), ("Relocation", 8), ("SpotUp", 12),
     ("Cut", 6), ("SkipPass", 5), ("Hammer", 4), ("PnR", 3), ("DHO", 2)]),
   ("FiveOut",
    [("Drive", 18), ("SpotUp", 16), ("Kickout", 14), ("ExtraPass", 10), ("Relocation", 10),
     ("Cut", 10), ("DHO", 8), ("ZoomDHO", 6), ("PnR", 5), ("SlipScreen", 3)]),
   ("Motion_SplitCut",
    [("ElbowHub", 12), ("OffBallScreen", 14), ("ScreenTheScreener_STS", 6), ("Cut", 18),
     ("PostSplit", 10), ("DHO", 8), ("Drive", 10), ("Kickout", 6), ("ExtraPass", 6),
     ("SpotUp", 6), ("PnR", 4)]),
   ("DHO_Chicago",
    [("Chicago", 18), ("DHO", 16), ("ZoomDHO", 8), ("ReDHO_Handback", 6), ("Drive", 12),
     ("Kickout", 10), ("ExtraPass", 6), ("SpotUp", 10), ("PnR", 6), ("SlipScreen", 4),
     ("OffBallScreen", 4)]),
   ("Post_InsideOut",
    [("PostEntry", 12), ("PostUp", 22), ("Kickout", 14), ("ExtraPass", 8), ("SpotUp", 12),
     ("Cut", 8), ("PostSplit", 10), ("HighLow", 6), ("Drive", 4), ("DHO", 4)]),
   ("Horns_Elbow",
    [("HornsSet", 18), ("ElbowHub", 12), ("PnR", 12), ("DHO", 8), ("HighLow", 10),
     ("Drive", 10), ("Kickout", 8), ("ExtraPass", 6), ("SpotUp", 8), ("Cut", 6),
     ("SpainPnR", 2)]),
   ("Transition_Early",
    [("TransitionEarly", 40), ("DragScreen", 14), ("DoubleDrag", 8), ("SecondaryBreak", 10),
     ("Drive", 8), ("Kickout", 8), ("SpotUp", 8), ("QuickPost", 4)])]

/-- DEF_SCHEME_ACTION_WEIGHTS from the source (built-in default table). -/
def DEF_SCHEME_ACTION_WEIGHTS_DEFAULT : List (String × List (String × ℚ)) :=
  [("Drop",
    [("DropCoverage", 34), ("GoOver", 18), ("GoUnder", 6), ("ContainOnBall", 10),
     ("LowManTagRoll", 10), ("StuntAndRecover", 8), ("CloseoutControl", 6),
     ("RimProtectVertical", 6), ("BoxOutRebound", 2)]),
   ("Switch_Everything",
    [("Switch", 38), ("ContainOnBall", 16), ("CloseoutControl", 10), ("StuntAndRecover", 8),
     ("XOutRecover", 6), ("FrontPost", 8), ("PostDouble", 4), ("RimProtectVertical", 4),
     ("BoxOutRebound", 6)]),
   ("Hedge_ShowRecover",
    [("HedgeShow", 26), ("XOutRecover", 16), ("GoOver", 18), ("ContainOnBall", 10),
     ("LowManTagRoll", 10), ("StuntAndRecover", 8), ("CloseoutControl", 6),
     ("RimProtectVertical", 4), ("BoxOutRebound", 2)]),
   ("Blitz_TrapPnR",
    [("BlitzTrap", 28), ("RotateXOut", 14), ("StuntAndRecover", 12), ("CloseoutControl", 10),
     ("ContainOnBall", 6), ("RimProtectVertical", 6), ("LowManTagRoll", 6),
     ("BoxOutRebound", 4), ("XOutRecover", 14)]),
   ("ICE_SidePnR",
    [("ICEForceBaseline", 26), ("GoOver", 18), ("ContainOnBall", 12), ("DropCoverage", 10),
     ("NailHelp", 10), ("LowManTagRoll", 10), ("StuntAndRecover", 6), ("CloseoutControl", 6),
     ("RimProtectVertical", 2)]),
   ("Zone",
    [("ZoneShift", 28), ("ZoneCloseout", 18), ("ZoneBumpCutter", 12), ("ProtectPaintFirst", 12),
     ("StuntAndRecover", 8), ("RotateXOut", 8), ("RimProtectVertical", 6), ("BoxOutRebound", 8)]),
   ("PackLine_GapHelp",
    [("GapHelp", 24), ("ContainOnBall", 16), ("StuntAndRecover", 14), ("CloseoutControl", 10),
     ("ProtectPaintFirst", 10), ("LowManTagRoll", 10), ("RimProtectVertical", 6),
     ("FrontPost", 4), ("BoxOutRebound", 6)])]

/-- ACTION_OUTCOME_PRIORS from the source (built-in default table). -/
def ACTION_OUTCOME_PRIORS_DEFAULT : List (String × List (String × ℚ)) :=
  [("PnR",
    [("PASS_SHORTROLL", 0.13), ("PASS_KICKOUT", 0.17), ("SHOT_3_OD", 0.11), ("SHOT_MID_PU", 0.09),
     ("SHOT_RIM_LAYUP", 0.11), ("SHOT_RIM_DUNK", 0.04), ("SHOT_3_CS", 0.10),
     ("FOUL_DRAW_RIM", 0.03), ("FOUL_DRAW_JUMPER", 0.01),
     ("TO_HANDLE_LOSS", 0.07), ("TO_BAD_PASS", 0.05), ("RESET_RESREEN", 0.09)]),
   ("DHO",
    [("SHOT_3_OD", 0.13), ("SHOT_MID_PU", 0.09), ("SHOT_RIM_LAYUP", 0.09),
     ("PASS_KICKOUT", 0.16), ("PASS_EXTRA", 0.12), ("SHOT_3_CS", 0.14),
     ("FOUL_DRAW_JUMPER", 0.01), ("FOUL_DRAW_RIM", 0.02),
     ("TO_HANDLE_LOSS", 0.08), ("TO_BAD_PASS", 0.06), ("RESET_REDO_DHO", 0.10)]),
   ("Drive",
    [("SHOT_RIM_LAYUP", 0.20), ("SHOT_RIM_DUNK", 0.05), ("SHOT_RIM_CONTACT", 0.07),
     ("SHOT_TOUCH_FLOATER", 0.08), ("PASS_KICKOUT", 0.20), ("PASS_EXTRA", 0.09),
     ("FOUL_DRAW_RIM", 0.08), ("TO_CHARGE", 0.06), ("TO_HANDLE_LOSS", 0.08),
     ("RESET_HUB", 0.09)]),
   ("Kickout",
    [("SHOT_3_CS", 0.40), ("SHOT_MID_CS", 0.10), ("PASS_EXTRA", 0.24), ("PASS_SKIP", 0.08),
     ("FOUL_DRAW_JUMPER", 0.02), ("TO_BAD_PASS", 0.06), ("RESET_HUB", 0.10)]),
   ("ExtraPass",
    [("SHOT_3_CS", 0.43), ("SHOT_MID_CS", 0.08), ("PASS_EXTRA", 0.18), ("PASS_SKIP", 0.12),
     ("FOUL_DRAW_JUMPER", 0.02), ("TO_BAD_PASS", 0.07), ("RESET_HUB", 0.10)]),
   ("PostUp",
    [("SHOT_POST", 0.24), ("SHOT_RIM_CONTACT", 0.08), ("PASS_KICKOUT", 0.25),
     ("PASS_EXTRA", 0.12), ("PASS_SKIP", 0.08), ("FOUL_DRAW_POST", 0.07),
     ("TO_BAD_PASS", 0.07), ("TO_HANDLE_LOSS", 0.03), ("RESET_POST_OUT", 0.06)]),
   ("HornsSet",
    [("PASS_KICKOUT", 0.16), ("SHOT_MID_CS", 0.10), ("SHOT_3_CS", 0.14), ("PASS_EXTRA", 0.18),
     ("FOUL_DRAW_JUMPER", 0.01), ("TO_BAD_PASS", 0.06), ("RESET_HUB", 0.35)]),
   ("SpotUp",
    [("SHOT_3_CS", 0.68), ("SHOT_MID_CS", 0.20), ("FOUL_DRAW_JUMPER", 0.02),
     ("TO_BAD_PASS", 0.02), ("RESET_HUB", 0.08)]),
   ("Cut",
    [("SHOT_RIM_LAYUP", 0.34), ("SHOT_RIM_DUNK", 0.07), ("SHOT_RIM_CONTACT", 0.09),
     ("FOUL_DRAW_RIM", 0.05), ("PASS_KICKOUT", 0.14), ("TO_BAD_PASS", 0.06),
     ("TO_HANDLE_LOSS", 0.04), ("RESET_HUB", 0.21)]),
   ("TransitionEarly",
    [("SHOT_RIM_LAYUP", 0.18), ("SHOT_RIM_DUNK", 0.13), ("SHOT_3_CS", 0.18),
     ("FOUL_DRAW_RIM", 0.06), ("PASS_KICKOUT", 0.18), ("TO_HANDLE_LOSS", 0.07),
     ("TO_BAD_PASS", 0.05), ("RESET_HUB", 0.15)])]

/-- ACTION_ALIASES from the source (built-in default table). -/
def ACTION_ALIASES_DEFAULT : List (String × String) :=
  [("DragScreen", "PnR"), ("DoubleDrag", "PnR"), ("Rescreen", "PnR"), ("SideAnglePnR", "PnR"),
   ("SlipScreen", "PnR"), ("SpainPnR", "PnR"), ("ShortRollPlay", "PnR"), ("ZoomDHO", "DHO"),
   ("ReDHO_Handback", "DHO"), ("Chicago", "DHO"), ("Relocation", "SpotUp"),
   ("SkipPass", "ExtraPass"), ("Hammer", "Kickout"), ("PostEntry", "PostUp"),
   ("PostSplit", "Cut"), ("HighLow", "PostUp"), ("ElbowHub", "HornsSet"),
   ("OffBallScreen", "Cut"), ("ScreenTheScreener_STS", "Cut"),
   ("SecondaryBreak", "TransitionEarly"), ("QuickPost", "PostUp")]

/-- OFFENSE_SCHEME_MULT from the source (built-in default table). -/
def OFFENSE_SCHEME_MULT_DEFAULT : List (String × List (String × List (String × ℚ))) :=
  [("Spread_HeavyPnR",
    [("PnR", [("PASS_SHORTROLL", 1.10), ("PASS_KICKOUT", 1.05), ("SHOT_3_OD", 1.10),
              ("SHOT_MID_PU", 1.05), ("RESET_RESREEN", 1.05)])]),
   ("Drive_Kick",
    [("Drive", [("PASS_KICKOUT", 1.25), ("PASS_EXTRA", 1.15), ("SHOT_RIM_LAYUP", 0.90)]),
     ("Kickout", [("SHOT_3_CS", 1.12), ("PASS_EXTRA", 1.08), ("PASS_SKIP", 1.05)]),
     ("ExtraPass", [("SHOT_3_CS", 1.10), ("PASS_SKIP", 1.08)])]),
   ("FiveOut",
    [("Drive", [("PASS_KICKOUT", 1.10), ("PASS_EXTRA", 1.10), ("SHOT_RIM_LAYUP", 0.95)]),
     ("Kickout", [("SHOT_3_CS", 1.15), ("PASS_SKIP", 1.10)]),
     ("ExtraPass", [("SHOT_3_CS", 1.15), ("PASS_SKIP", 1.12)]),
     ("Cut", [("SHOT_RIM_LAYUP", 1.08), ("RESET_HUB", 0.95)]),
     ("PostUp", [("SHOT_POST", 0.80)])]),
   ("Motion_SplitCut",
    [("Cut", [("SHOT_RIM_LAYUP", 1.18), ("PASS_KICKOUT", 1.05), ("RESET_HUB", 0.95)]),
     ("ExtraPass", [("PASS_EXTRA", 1.10), ("SHOT_3_CS", 1.05)]),
     ("DHO", [("RESET_REDO_DHO", 0.95), ("PASS_KICKOUT", 1.05)]),
     ("PnR", [("SHOT_3_OD", 0.90), ("SHOT_MID_PU", 0.95)])]),
   ("DHO_Chicago",
    [("DHO", [("SHOT_3_OD", 1.10), ("SHOT_MID_PU", 1.05), ("RESET_REDO_DHO", 0.95)]),
     ("Chicago", [("SHOT_3_CS", 1.10), ("SHOT_3_OD", 1.05), ("PASS_KICKOUT", 1.05)]),
     ("Drive", [("SHOT_RIM_LAYUP", 1.05)])]),
   ("Post_InsideOut",
    [("PostUp", [("SHOT_POST", 1.20), ("PASS_KICKOUT", 1.05), ("FOUL_DRAW_POST", 1.10),
                 ("RESET_POST_OUT", 0.95)]),
     ("ExtraPass", [("SHOT_3_CS", 1.05)])]),
   ("Horns_Elbow",
    [("HornsSet", [("RESET_HUB", 0.95), ("PASS_EXTRA", 1.05), ("SHOT_MID_CS", 1.10),
                   ("PASS_KICKOUT", 1.05)]),
     ("PnR", [("PASS_SHORTROLL", 1.05)]),
     ("HighLow", [("SHOT_POST", 1.05), ("SHOT_RIM_CONTACT", 1.05)])]),
   ("Transition_Early",
    [("TransitionEarly", [("SHOT_RIM_DUNK", 1.15), ("SHOT_3_CS", 1.10), ("RESET_HUB", 0.85)])])]

/-- DEFENSE_SCHEME_MULT from the source (built-in default table). -/
def DEFENSE_SCHEME_MULT_DEFAULT : List (String × List (String × List (String × ℚ))) :=
  [("Drop",
    [("PnR", [("SHOT_MID_PU", 1.35), ("SHOT_3_OD", 1.15), ("PASS_SHORTROLL", 0.75),
              ("SHOT_RIM_LAYUP", 0.85), ("SHOT_RIM_DUNK", 0.85), ("RESET_RESREEN", 1.05)]),
     ("Drive", [("SHOT_RIM_LAYUP", 0.90)])]),
   ("Switch_Everything",
    [("PnR", [("RESET_RESREEN", 1.25), ("TO_SHOT_CLOCK", 1.15), ("PASS_SHORTROLL", 0.85),
              ("SHOT_3_OD", 1.10)]),
     ("DHO", [("RESET_REDO_DHO", 1.15), ("TO_HANDLE_LOSS", 1.10)]),
     ("PostUp", [("SHOT_POST", 1.35), ("FOUL_DRAW_POST", 1.20)]),
     ("Drive", [("TO_CHARGE", 1.10)])]),
   ("Hedge_ShowRecover",
    [("PnR", [("PASS_SHORTROLL", 1.25), ("PASS_KICKOUT", 1.10), ("RESET_RESREEN", 1.10)]),
     ("Drive", [("SHOT_TOUCH_FLOATER", 1.10)])]),
   ("Blitz_TrapPnR",
    [("PnR", [("PASS_SHORTROLL", 1.55), ("PASS_KICKOUT", 1.20), ("SHOT_3_OD", 0.75),
              ("SHOT_MID_PU", 0.75), ("TO_BAD_PASS", 1.35), ("TO_HANDLE_LOSS", 1.20),
              ("FOUL_REACH_TRAP", 1.20), ("RESET_HUB", 1.15)]),
     ("DHO", [("TO_BAD_PASS", 1.20), ("RESET_REDO_DHO", 1.10)]),
     ("Drive", [("TO_HANDLE_LOSS", 1.10)])]),
   ("ICE_SidePnR",
    [("PnR", [("RESET_RESREEN", 1.10), ("PASS_KICKOUT", 1.10), ("SHOT_MID_PU", 0.85),
              ("SHOT_TOUCH_FLOATER", 1.15)])]),
   ("Zone",
    [("Drive", [("SHOT_RIM_LAYUP", 0.75), ("PASS_EXTRA", 1.25), ("PASS_SKIP", 1.30),
                ("SHOT_3_CS", 1.15), ("TO_BAD_PASS", 1.10)]),
     ("Kickout", [("PASS_EXTRA", 1.15), ("TO_BAD_PASS", 1.08)]),
     ("PostUp", [("SHOT_POST", 0.85), ("PASS_SKIP", 1.15)]),
     ("HornsSet", [("SHOT_MID_CS", 1.15)])]),
   ("PackLine_GapHelp",
    [("Drive", [("SHOT_RIM_LAYUP", 0.65), ("SHOT_RIM_DUNK", 0.70), ("PASS_KICKOUT", 1.25),
                ("PASS_EXTRA", 1.20), ("SHOT_3_CS", 1.20), ("TO_CHARGE", 1.15)]),
     ("PnR", [("PASS_KICKOUT", 1.15), ("SHOT_MID_PU", 1.05)]),
     ("ExtraPass", [("TO_BAD_PASS", 1.05)])])]

/-! Era parameters (era.py DEFAULT_PROB_MODEL / DEFAULT_LOGISTIC_PARAMS /
DEFAULT_VARIANCE_PARAMS and the era-replaceable tables installed by
apply_era_config).  Globals mutated by apply_era_config are embedded as an
explicit EraTables value threaded through the engine. -/

/-- ERA_PROB_MODEL: merge of DEFAULT_PROB_MODEL with the era prob_model block,
so every key is present (field defaults are the built-in defaults). -/
structure ProbModel where
  base_p_min : ℚ := 0.02
  base_p_max : ℚ := 0.98
  prob_min : ℚ := 0.03
  prob_max : ℚ := 0.97
  shot_scale : ℚ := 18
  pass_scale : ℚ := 20
  rebound_scale : ℚ := 22
  orb_base : ℚ := 0.26
  ft_base : ℚ := 0.45
  ft_range : ℚ := 0.47
  ft_min : ℚ := 0.40
  ft_max : ℚ := 0.95

/-- ERA_VARIANCE_PARAMS: logit-space Gaussian noise controls (the team-mult
bounds are Option because prob_from_scores checks them with isinstance). -/
structure VarianceParams where
  logit_noise_std : ℚ := 0.18
  kind_mult : List (String × ℚ) :=
    [("shot_3", 1.15), ("shot_mid", 1.05), ("shot_rim", 0.95),
     ("shot_post", 1.00), ("pass", 0.85), ("rebound", 0.60)]
  team_mult_lo : Option ℚ := some 0.70
  team_mult_hi : Option ℚ := some 1.40

/-- DEFAULT_LOGISTIC_PARAMS from the source: per-kind {scale, sensitivity}. -/
def DEFAULT_LOGISTIC_PARAMS : List (String × List (String × ℚ)) :=
  [("default", [("scale", 18), ("sensitivity", 1/18)]),
   ("shot_3", [("scale", 30), ("sensitivity", 1/30)]),
   ("shot_mid", [("scale", 24), ("sensitivity", 1/24)]),
   ("shot_rim", [("scale", 18), ("sensitivity", 1/18)]),
   ("shot_post", [("scale", 20), ("sensitivity", 1/20)]),
   ("pass", [("scale", 28), ("sensitivity", 1/28)]),
   ("rebound", [("scale", 22), ("sensitivity", 1/22)]),
   ("turnover", [("scale", 24), ("sensitivity", 1/24)])]

/-- The process-wide tuning tables after apply_era_config, as one record. -/
structure EraTables where
  shot_base : List (String × ℚ) := SHOT_BASE_DEFAULT
  pass_base_success : List (String × ℚ) := PASS_BASE_SUCCESS_DEFAULT
  action_outcome_priors : List (String × List (String × ℚ)) := ACTION_OUTCOME_PRIORS_DEFAULT
  action_aliases : List (String × String) := ACTION_ALIASES_DEFAULT
  off_scheme_action_weights : List (String × List (String × ℚ)) := OFF_SCHEME_ACTION_WEIGHTS_DEFAULT
  def_scheme_action_weights : List (String × List (String × ℚ)) := DEF_SCHEME_ACTION_WEIGHTS_DEFAULT
  offense_scheme_mult : List (String × List (String × List (String × ℚ))) := OFFENSE_SCHEME_MULT_DEFAULT
  defense_scheme_mult : List (String × List (String × List (String × ℚ))) := DEFENSE_SCHEME_MULT_DEFAULT
  prob_model : ProbModel := {}
  logistic_params : List (String × List (String × ℚ)) := DEFAULT_LOGISTIC_PARAMS
  variance_params : VarianceParams := {}
  role_fit_default_strength : ℚ := 0.65

/-- The built-in default era (DEFAULT_ERA applied). -/
def defaultEra : EraTables := {}

/-- Modelled from the spec: the tunable-registry globals of the missing module
match_engine/prob.py (SHOT_BASE_RIM, SHOT_BASE_MID, SHOT_BASE_3,
PASS_BASE_SUCCESS_MULT) together with ORB_BASE from resolve.py; the spec
describes them as tuned global multipliers on shot/pass base rates and the
registry applies relative updates around 1.0, so they default to 1. -/
structure Tunables where
  SHOT_BASE_RIM : ℚ := 1
  SHOT_BASE_MID : ℚ := 1
  SHOT_BASE_3 : ℚ := 1
  PASS_BASE_SUCCESS_MULT : ℚ := 1
  ORB_BASE : ℚ := 1

/-! MVP_RULES (src/match_engine/era.py). -/

/-- Per-possession freshness loss amounts. -/
structure FatigueLoss where
  handler : ℚ := 0.012
  wing : ℚ := 0.010
  big : ℚ := 0.009
  transition_emphasis : ℚ := 0.001
  heavy_pnr : ℚ := 0.001

/-- Substitution freshness thresholds. -/
structure FatigueThresholds where
  sub_out : ℚ := 0.35
  sub_in : ℚ := 0.70

/-- Minute targets by lineup slot. -/
structure FatigueTargets where
  starter_sec : ℕ := 32 * 60
  rotation_sec : ℕ := 16 * 60
  bench_sec : ℕ := 8 * 60

/-- Fatigue effect parameters read into the possession context. -/
structure FatigueEffects where
  logit_delta_max : ℚ := -0.25
  bad_mult_max : ℚ := 1.12
  bad_critical : ℚ := 0.25
  bad_bonus : ℚ := 0.08
  bad_cap : ℚ := 1.20
  def_mult_min : ℚ := 0.90

/-- MVP_RULES from the source, as a record (get_mvp_rules deep-copies it). -/
structure Rules where
  quarters : ℕ := 4
  quarter_length : ℚ := 720
  shot_clock : ℚ := 24
  orb_reset : ℚ := 14
  foul_out : ℕ := 6
  bonus_threshold : ℕ := 5
  fatigue_loss : FatigueLoss := {}
  fatigue_thresholds : FatigueThresholds := {}
  fatigue_targets : FatigueTargets := {}
  fatigue_effects : FatigueEffects := {}
  time_costs : List (String × ℚ) :=
    [("possession_setup", 2), ("PnR", 7), ("DHO", 6), ("Drive", 5), ("PostUp", 7),
     ("HornsSet", 6), ("SpotUp", 4), ("Cut", 4), ("TransitionEarly", 4),
     ("Kickout", 2), ("ExtraPass", 2), ("Reset", 4)]

/-- get_mvp_rules(): the constant MVP_RULES. -/
def MVP_RULES : Rules := {}

/-! Probability model.  The package module match_engine/prob.py is not in the
source tree; prob_from_scores below follows the copy carried in
src/match_engine_mvp_plus_v08.py (lines 1295-1357) with one addition
modelled from the spec: the missing prob.py accepts the fatigue_logit_delta
argument passed by resolve.py, and the spec puts that term into the logit sum
alongside the role_logit_delta. -/

/-- The legacy single-scale sensitivity knobs used when logistic_params gives
neither sensitivity nor a usable scale for the kind. -/
def oldScaleSens (pm : ProbModel) (kind : String) : ℚ :=
  if pyStartsWith kind "pass" then 1 / pm.pass_scale
  else if pyStartsWith kind "rebound" then 1 / pm.rebound_scale
  else 1 / pm.shot_scale

/-- The sensitivity selection of prob_from_scores: the configured per-kind
sensitivity, else 1/scale when a scale > 1e-9 is configured, else the legacy
per-kind scale knobs. -/
def probSensitivity (era : EraTables) (kind : String) : ℚ :=
  let a := dictGet era.logistic_params kind []
  let spec := if a = [] then dictGet era.logistic_params "default" [] else a
  match dictFind spec "sensitivity" with
  | some s => s
  | none =>
      match dictFind spec "scale" with
      | some sc => if sc > eps9 then 1 / sc else oldScaleSens era.prob_model kind
      | none => oldScaleSens era.prob_model kind

/-- The effective noise standard deviation of prob_from_scores:
logit_noise_std · kind_mult[kind] · clamp(variance_mult, team bounds). -/
def noiseStd (era : EraTables) (kind : String) (variance_mult : ℚ) : ℚ :=
  let vp := era.variance_params
  let tlo := vp.team_mult_lo.getD 0.70
  let thi := vp.team_mult_hi.getD 1.40
  vp.logit_noise_std * dictGet vp.kind_mult kind 1 * clamp variance_mult tlo thi

/-- The variance-knob block of prob_from_scores: no rng means no noise; with
an rng, a Gaussian draw scaled by the effective std is consumed only when that
std exceeds 1e-9. -/
noncomputable def noiseTerm (era : EraTables) (rng : Option Rng) (kind : String)
    (variance_mult : ℚ) : ℝ × Option Rng :=
  match rng with
  | none => (0, none)
  | some r =>
      let std := noiseStd era kind variance_mult
      if std > eps9 then
        let pr := r.gauss (std : ℝ)
        (pr.1, some pr.2)
      else (0, some r)

/-- prob_from_scores from the source: clamp base_p into [base_p_min,
base_p_max], take its logit, add (off−def)·sensitivity, the optional noise and
the logit deltas, squash through sigmoid and clamp into [prob_min, prob_max]. -/
noncomputable def prob_from_scores (era : EraTables) (rng : Option Rng)
    (base_p off_score def_score : ℚ) (kind : String) (variance_mult : ℚ)
    (logit_delta : ℚ) (fatigue_logit_delta : ℚ) : ℝ × Option Rng :=
  let pm := era.prob_model
  let bp := clamp base_p pm.base_p_min pm.base_p_max
  let base_logit : ℝ := Real.log ((bp : ℝ) / (1 - (bp : ℝ)))
  let sens := probSensitivity era kind
  let gap := (off_score - def_score) * sens
  let nz := noiseTerm era rng kind variance_mult
  let p := sigmoid (base_logit + (gap : ℝ) + nz.1 + (logit_delta : ℝ) + (fatigue_logit_delta : ℝ))
  (clamp p (pm.prob_min : ℝ) (pm.prob_max : ℝ), nz.2)

/-- _shot_kind_from_outcome from the source. -/
def shotKindFromOutcome (outcome : String) : String :=
  if outcome = "SHOT_3_CS" ∨ outcome = "SHOT_3_OD" then "shot_3"
  else if outcome = "SHOT_MID_CS" ∨ outcome = "SHOT_MID_PU" then "shot_mid"
  else if outcome = "SHOT_POST" then "shot_post"
  else "shot_rim"

/-- _team_variance_mult from the source: the team VARIANCE_MULT context knob
clamped into the era team-mult range. -/
def teamVarianceMult (era : EraTables) (team : TeamState) : ℚ :=
  let vp := era.variance_params
  clamp team.tactics.context.VARIANCE_MULT (vp.team_mult_lo.getD 0.70) (vp.team_mult_hi.getD 1.40)

/-! Defense snapshot (src/match_engine/defense.py). -/

/-- team_def_snapshot from the source: best DEF_POA / DEF_RIM / DEF_STEAL
readings plus lineup averages of help, post, physical and endurance. -/
def team_def_snapshot (team : TeamState) : List (String × ℚ) :=
  let onball := pyMaxBy (fun p => p.get "DEF_POA" true) defaultPlayer team.lineup
  let rim := pyMaxBy (fun p => p.get "DEF_RIM" true) defaultPlayer team.lineup
  let steal := pyMaxBy (fun p => p.get "DEF_STEAL" true) defaultPlayer team.lineup
  let n : ℚ := (team.lineup.length : ℚ)
  let avg : String → ℚ := fun k => ((team.lineup.map (fun p => p.get k true)).sum) / n
  [("DEF_POA", onball.get "DEF_POA" true), ("DEF_RIM", rim.get "DEF_RIM" true),
   ("DEF_STEAL", steal.get "DEF_STEAL" true), ("DEF_HELP", avg "DEF_HELP"),
   ("DEF_POST", avg "DEF_POST"), ("PHYSICAL", avg "PHYSICAL"),
   ("ENDURANCE", avg "ENDURANCE")]

/-! Participant selection (src/match_engine/participants.py). -/

/-- Python sorted(..., key=f, reverse=True): stable descending sort by key. -/
def sortedByDesc {α : Type} (f : α → ℚ) (l : List α) : List α :=
  pySorted (fun y x => decide (f x ≤ f y)) l

/-- Python sorted(..., key=f): stable ascending sort by key. -/
def sortedByAsc {α : Type} (f : α → ℚ) (l : List α) : List α :=
  pySorted (fun y x => decide (f y ≤ f x)) l

/-- Order-preserving de-duplication of players by pid (the seen/uniq loops in
the source). -/
def dedupByPid (l : List Player) : List Player :=
  l.foldl (fun acc p => if acc.any (fun q => q.pid = p.pid) then acc else acc ++ [p]) []

/-- choose_weighted_player from the source: weighted choice over
max(ability, 1)^power, falling back to the first listed player. -/
noncomputable def choose_weighted_player (rng : Rng) (players : List Player)
    (key : String) (power : ℚ) : Player × Rng :=
  let weights : List (String × ℝ) :=
    players.map (fun p => (p.pid, (max (p.get key true) 1 : ℝ) ^ (power : ℝ)))
  let pr := weighted_choice rng weights
  ((players.find? (fun p => p.pid = pr.1)).getD (players.headD defaultPlayer), pr.2)

/-- choose_shooter_for_three from the source: top-3 SHOT_3_CS, power 1.35. -/
noncomputable def choose_shooter_for_three (rng : Rng) (offense : TeamState) : Player × Rng :=
  choose_weighted_player rng ((sortedByDesc (fun p => p.get "SHOT_3_CS" true) offense.lineup).take 3)
    "SHOT_3_CS" 1.35

/-- choose_shooter_for_mid from the source: top-3 SHOT_MID_CS, power 1.25. -/
noncomputable def choose_shooter_for_mid (rng : Rng) (offense : TeamState) : Player × Rng :=
  choose_weighted_player rng ((sortedByDesc (fun p => p.get "SHOT_MID_CS" true) offense.lineup).take 3)
    "SHOT_MID_CS" 1.25

/-- choose_creator_for_pulloff from the source: ball handler or secondary
handler, weighted by the relevant pull-up ability. -/
noncomputable def choose_creator_for_pulloff (rng : Rng) (offense : TeamState)
    (outcome : String) : Player × Rng :=
  let bh := offense.get_role_player "ball_handler" (dictFind ROLE_FALLBACK_RANK "ball_handler")
  let sh := offense.get_role_player "secondary_handler" (dictFind ROLE_FALLBACK_RANK "secondary_handler")
  let cand := if bh.pid ≠ sh.pid then [bh, sh] else [bh]
  let key := if outcome = "SHOT_3_OD" then "SHOT_3_OD" else "SHOT_MID_PU"
  choose_weighted_player rng cand key 1.20

/-- choose_finisher_rim from the source: handler / rim runner / screener /
cutter de-duplicated, weighted on FIN_DUNK or FIN_RIM. -/
noncomputable def choose_finisher_rim (rng : Rng) (offense : TeamState)
    (dunk_bias : Bool) : Player × Rng :=
  let bh := offense.get_role_player "ball_handler" (dictFind ROLE_FALLBACK_RANK "ball_handler")
  let rr := offense.get_role_player "rim_runner" (dictFind ROLE_FALLBACK_RANK "rim_runner")
  let sc := offense.get_role_player "screener" (dictFind ROLE_FALLBACK_RANK "screener")
  let cu := offense.get_role_player "cutter" (dictFind ROLE_FALLBACK_RANK "cutter")
  let uniq := dedupByPid [bh, rr, sc, cu]
  let key := if dunk_bias then "FIN_DUNK" else "FIN_RIM"
  choose_weighted_player rng uniq key 1.15

/-- choose_post_target from the source. -/
def choose_post_target (offense : TeamState) : Player :=
  offense.get_role_player "post" (dictFind ROLE_FALLBACK_RANK "post")

/-- choose_passer from the source: screener for short rolls, post for post-ups,
handler-or-best-driver for drives, else the ball handler. -/
noncomputable def choose_passer (rng : Rng) (offense : TeamState)
    (base_action outcome : String) : Player × Rng :=
  let bh := offense.get_role_player "ball_handler" (dictFind ROLE_FALLBACK_RANK "ball_handler")
  let post := offense.get_role_player "post" (dictFind ROLE_FALLBACK_RANK "post")
  let sc := offense.get_role_player "screener" (dictFind ROLE_FALLBACK_RANK "screener")
  if outcome = "PASS_SHORTROLL" then (sc, rng)
  else if base_action = "PostUp" then (post, rng)
  else if base_action = "Drive" then
    let best := pyMaxBy (fun p => p.get "DRIVE_CREATE" true) defaultPlayer offense.lineup
    choose_weighted_player rng (dedupByPid [bh, best]) "PASS_CREATE" 1.10
  else (bh, rng)

/-! Builders (src/match_engine/builders.py). -/

/-- The per-step tags dict of simulate_possession.  The fatigue_bad_* entries
copied into the Python tags dict are never read by the available builders or
resolver and are omitted. -/
structure Tags where
  in_transition : Bool := false
  is_side_pnr : Bool := false
  role_fit_applied : Bool := false
  role_logit_delta : ℚ := 0
  role_fit_eff : ℚ := 50
  role_fit_grade : String := "B"

/-- get_action_base from the source: alias lookup with identity fallback. -/
def get_action_base (era : EraTables) (action : String) : String :=
  dictGet era.action_aliases action action

/-- The multiplier step of the action builders:
base[a] = base.get(a, 0.5) * m, creating missing keys. -/
def applyActionWeightMults (base : List (String × ℝ)) (mults : List (String × ℚ)) :
    List (String × ℝ) :=
  mults.foldl (fun out am => dictSet out am.1 (dictGet out am.1 (0.5 : ℝ) * (am.2 : ℝ))) base

/-- build_offense_action_probs from the source:
normalize((W_scheme[a]^sharpness) · off mults · opponent-distortion mults).
The available builders.py signature has no ctx parameter although sim.py
passes one; the unused ctx is therefore not modelled. -/
noncomputable def build_offense_action_probs (era : EraTables)
    (off_tac : TacticsConfig) (def_tac : Option TacticsConfig) : List (String × ℝ) :=
  let base0 := dictGet era.off_scheme_action_weights off_tac.offense_scheme
    (dictGet era.off_scheme_action_weights "Spread_HeavyPnR" [])
  let sharp := clamp off_tac.scheme_weight_sharpness 0.70 1.40
  let base1 : List (String × ℝ) :=
    base0.map (fun kv => (kv.1, (max kv.2 0 : ℝ) ^ (sharp : ℝ)))
  let base2 := applyActionWeightMults base1 off_tac.action_weight_mult
  let base3 := match def_tac with
    | some dt => applyActionWeightMults base2 dt.opp_action_weight_mult
    | none => base2
  normalize_weights base3

/-- build_defense_action_probs from the source. -/
noncomputable def build_defense_action_probs (era : EraTables)
    (tac : TacticsConfig) : List (String × ℝ) :=
  let base0 := dictGet era.def_scheme_action_weights tac.defense_scheme
    (dictGet era.def_scheme_action_weights "Drop" [])
  let sharp := clamp tac.def_scheme_weight_sharpness 0.70 1.40
  let base1 : List (String × ℝ) :=
    base0.map (fun kv => (kv.1, (max kv.2 0 : ℝ) ^ (sharp : ℝ)))
  normalize_weights (applyActionWeightMults base1 tac.def_action_weight_mult)

/-- effective_scheme_multiplier from the source:
1 + (m − 1)·clamp(strength, 0.70, 1.40). -/
def effective_scheme_multiplier (base_mult strength : ℚ) : ℚ :=
  1 + (base_mult - 1) * clamp strength 0.70 1.40

/-- The scheme-distortion step of build_outcome_priors: multiply keys already
present in the priors by the strength-rendered scheme multiplier. -/
def applySchemeMult (pri : List (String × ℚ)) (sm : List (String × ℚ))
    (strength : ℚ) : List (String × ℚ) :=
  sm.foldl
    (fun out om =>
      if dictContains out om.1 then
        dictSet out om.1 (dictGet out om.1 0 * effective_scheme_multiplier om.2 strength)
      else out)
    pri

/-- Scheme-table lookup with the Python truthiness chain
table.get(action) or table.get(base_action) or {}. -/
def schemeMultLookup (table : List (String × List (String × ℚ)))
    (action base_action : String) : List (String × ℚ) :=
  let a := dictGet table action []
  if a = [] then dictGet table base_action [] else a

/-- Multiply a prior key by m when present (the conditional-tweak loops). -/
def bumpIfPresent (pri : List (String × ℚ)) (key : String) (m : ℚ) : List (String × ℚ) :=
  if dictContains pri key then dictSet pri key (dictGet pri key 0 * m) else pri

/-- build_outcome_priors from the source: alias-resolved base priors distorted
by offense UI knobs, offense scheme, defense opponent knobs, defense scheme,
the ICE / transition / blitz conditional tweaks, then normalized. -/
def build_outcome_priors (era : EraTables) (action : String)
    (off_tac def_tac : TacticsConfig) (tags : Tags) : List (String × ℚ) :=
  let base_action := get_action_base era action
  let pri0 := dictGet era.action_outcome_priors base_action
    (dictGet era.action_outcome_priors "SpotUp" [])
  let pri1 := apply_multipliers pri0 off_tac.outcome_global_mult
  let pri2 := apply_multipliers_typesafe pri1 (dictGet off_tac.outcome_by_action_mult action [])
  let pri3 := apply_multipliers_typesafe pri2 (dictGet off_tac.outcome_by_action_mult base_action [])
  let sm := schemeMultLookup (dictGet era.offense_scheme_mult off_tac.offense_scheme [])
    action base_action
  let pri4 := applySchemeMult pri3 sm off_tac.scheme_outcome_strength
  let pri5 := apply_multipliers pri4 def_tac.opp_outcome_global_mult
  let pri6 := apply_multipliers_typesafe pri5 (dictGet def_tac.opp_outcome_by_action_mult action [])
  let pri7 := apply_multipliers_typesafe pri6 (dictGet def_tac.opp_outcome_by_action_mult base_action [])
  let dm := schemeMultLookup (dictGet era.defense_scheme_mult def_tac.defense_scheme [])
    action base_action
  let pri8 := applySchemeMult pri7 dm def_tac.def_scheme_outcome_strength
  let pri9 :=
    if def_tac.defense_scheme = "ICE_SidePnR" ∧ ¬tags.is_side_pnr then
      bumpIfPresent (bumpIfPresent pri8 "RESET_RESREEN" 1.03) "PASS_KICKOUT" 1.03
    else pri8
  let pri10 :=
    if tags.in_transition then
      [("TO_BAD_PASS", (0.92 : ℚ)), ("TO_HANDLE_LOSS", 0.92), ("TO_CHARGE", 0.92),
       ("RESET_HUB", 0.92), ("RESET_RESREEN", 0.92)].foldl
        (fun out om => bumpIfPresent out om.1 om.2) pri9
    else pri9
  let pri11 :=
    if def_tac.defense_scheme = "Blitz_TrapPnR" ∧ base_action = "PnR" then
      let a := dictSet pri10 "PASS_SHORTROLL" (max (dictGet pri10 "PASS_SHORTROLL" 0) 0.10)
      dictSet a "FOUL_REACH_TRAP" (dictGet a "FOUL_REACH_TRAP" 0 + 0.02)
    else pri10
  normalize_weights pri11

/-! Role-fit engine (ROLE_FIT_* tables and functions, carried in
src/match_engine_mvp_plus_v08.py; role_fit.py applies them). -/

/-- ROLE_FIT_WEIGHTS from the source. -/
def ROLE_FIT_WEIGHTS : List (String × List (String × ℚ)) :=
  [("PnR_PrimaryHandler",
    [("PNR_READ", 0.25), ("DRIVE_CREATE", 0.20), ("HANDLE_SAFE", 0.20), ("SHOT_3_OD", 0.15),
     ("SHOT_MID_PU", 0.10), ("PASS_CREATE", 0.10)]),
   ("PnR_SecondaryHandler",
    [("SHOT_3_CS", 0.25), ("PNR_READ", 0.20), ("PASS_SAFE", 0.15), ("DRIVE_CREATE", 0.15),
     ("HANDLE_SAFE", 0.15), ("SHOT_3_OD", 0.10)]),
   ("DHO_PrimaryHandler",
    [("DRIVE_CREATE", 0.20), ("HANDLE_SAFE", 0.20), ("PASS_SAFE", 0.15), ("SHOT_MID_PU", 0.15),
     ("PASS_CREATE", 0.10), ("SHOT_3_OD", 0.10), ("SHOT_3_CS", 0.10)]),
   ("Elbow_Hub",
    [("PASS_SAFE", 0.25), ("PASS_CREATE", 0.20), ("PNR_READ", 0.15), ("SHORTROLL_PLAY", 0.15),
     ("SHOT_MID_CS", 0.10), ("SHOT_TOUCH", 0.10), ("HANDLE_SAFE", 0.05)]),
   ("Point_Forward",
    [("DRIVE_CREATE", 0.18), ("PASS_CREATE", 0.18), ("PASS_SAFE", 0.18), ("HANDLE_SAFE", 0.14),
     ("PNR_READ", 0.12), ("FIRST_STEP", 0.10), ("SHOT_3_CS", 0.10)]),
   ("Transition_Pusher",
    [("FIRST_STEP", 0.20), ("DRIVE_CREATE", 0.20), ("PASS_SAFE", 0.15), ("PASS_CREATE", 0.15),
     ("HANDLE_SAFE", 0.15), ("FIN_RIM", 0.10), ("ENDURANCE", 0.05)]),
   ("3pt_OffDribble_Scorer",
    [("SHOT_3_OD", 0.35), ("HANDLE_SAFE", 0.15), ("DRIVE_CREATE", 0.15), ("PNR_READ", 0.10),
     ("SHOT_MID_PU", 0.10), ("ENDURANCE", 0.10), ("SHOT_FT", 0.05)]),
   ("Mid_PullUp_Scorer",
    [("SHOT_MID_PU", 0.35), ("DRIVE_CREATE", 0.15), ("HANDLE_SAFE", 0.15), ("SHOT_TOUCH", 0.10),
     ("PNR_READ", 0.10), ("ENDURANCE", 0.10), ("SHOT_FT", 0.05)]),
   ("SpotUp_Wing",
    [("SHOT_3_CS", 0.40), ("SHOT_MID_CS", 0.15), ("PASS_SAFE", 0.10), ("HANDLE_SAFE", 0.10),
     ("FIRST_STEP", 0.10), ("ENDURANCE", 0.10), ("FIN_RIM", 0.05)]),
   ("Corner_Specialist",
    [("SHOT_3_CS", 0.50), ("PASS_SAFE", 0.10), ("HANDLE_SAFE", 0.10), ("ENDURANCE", 0.10),
     ("FIRST_STEP", 0.10), ("SHOT_FT", 0.05), ("FIN_RIM", 0.05)]),
   ("Movement_Shooter",
    [("SHOT_3_CS", 0.35), ("ENDURANCE", 0.15), ("SHOT_MID_CS", 0.10), ("PASS_SAFE", 0.10),
     ("FIRST_STEP", 0.10), ("HANDLE_SAFE", 0.10), ("DRIVE_CREATE", 0.05), ("SHOT_3_OD", 0.05)]),
   ("Relocation_Shooter",
    [("SHOT_3_CS", 0.40), ("ENDURANCE", 0.15), ("PASS_SAFE", 0.10), ("HANDLE_SAFE", 0.10),
     ("FIRST_STEP", 0.10), ("SHOT_MID_CS", 0.10), ("FIN_RIM", 0.05)]),
   ("Roll_Man",
    [("FIN_RIM", 0.25), ("FIN_DUNK", 0.25), ("FIN_CONTACT", 0.15), ("REB_OR", 0.10),
     ("PHYSICAL", 0.10), ("ENDURANCE", 0.10), ("SHORTROLL_PLAY", 0.05)]),
   ("ShortRoll_Playmaker",
    [("SHORTROLL_PLAY", 0.30), ("PASS_SAFE", 0.20), ("PASS_CREATE", 0.15), ("HANDLE_SAFE", 0.10),
     ("FIN_RIM", 0.10), ("PHYSICAL", 0.10), ("PNR_READ", 0.05)]),
   ("Pop_Big",
    [("SHOT_3_CS", 0.35), ("SHOT_MID_CS", 0.15), ("PASS_SAFE", 0.15), ("SHORTROLL_PLAY", 0.10),
     ("PHYSICAL", 0.10), ("ENDURANCE", 0.10), ("HANDLE_SAFE", 0.05)]),
   ("DHO_Hub_Big",
    [("PASS_SAFE", 0.22), ("SHORTROLL_PLAY", 0.20), ("PASS_CREATE", 0.15), ("SHOT_3_CS", 0.15),
     ("HANDLE_SAFE", 0.10), ("PHYSICAL", 0.10), ("SHOT_MID_CS", 0.08)]),
   ("Horns_Big_A",
    [("SHORTROLL_PLAY", 0.22), ("PASS_SAFE", 0.20), ("PASS_CREATE", 0.15), ("SHOT_MID_CS", 0.15),
     ("PHYSICAL", 0.10), ("FIN_RIM", 0.10), ("HANDLE_SAFE", 0.08)]),
   ("Horns_Big_B",
    [("FIN_RIM", 0.20), ("FIN_DUNK", 0.15), ("SHOT_MID_CS", 0.15), ("SHOT_3_CS", 0.15),
     ("FIN_CONTACT", 0.10), ("PHYSICAL", 0.10), ("SHORTROLL_PLAY", 0.10), ("PASS_SAFE", 0.05)]),
   ("Post_Scorer",
    [("POST_SCORE", 0.45), ("POST_CONTROL", 0.25), ("FIN_CONTACT", 0.10), ("SHOT_TOUCH", 0.10),
     ("PHYSICAL", 0.10)]),
   ("Post_Facilitator",
    [("POST_CONTROL", 0.30), ("PASS_SAFE", 0.20), ("PASS_CREATE", 0.15), ("POST_SCORE", 0.15),
     ("HANDLE_SAFE", 0.10), ("SHOT_TOUCH", 0.10)]),
   ("Seal_Finisher",
    [("SEAL_POWER", 0.35), ("FIN_RIM", 0.20), ("FIN_DUNK", 0.15), ("PHYSICAL", 0.15),
     ("REB_OR", 0.10), ("FIN_CONTACT", 0.05)]),
   ("Primary_Cutter",
    [("FIRST_STEP", 0.25), ("FIN_RIM", 0.20), ("HANDLE_SAFE", 0.15), ("ENDURANCE", 0.15),
     ("SHOT_3_CS", 0.10), ("PASS_SAFE", 0.10), ("FIN_CONTACT", 0.05)]),
   ("Dunker_Spot",
    [("FIN_DUNK", 0.30), ("FIN_RIM", 0.20), ("REB_OR", 0.15), ("PHYSICAL", 0.15),
     ("ENDURANCE", 0.10), ("FIN_CONTACT", 0.10)]),
   ("Backdoor_Threat",
    [("FIRST_STEP", 0.20), ("FIN_RIM", 0.20), ("HANDLE_SAFE", 0.15), ("PASS_SAFE", 0.15),
     ("ENDURANCE", 0.10), ("SHOT_3_CS", 0.10), ("SHOT_TOUCH", 0.10)]),
   ("Rim_Runner",
    [("ENDURANCE", 0.20), ("FIN_RIM", 0.20), ("FIN_DUNK", 0.20), ("FIRST_STEP", 0.10),
     ("REB_OR", 0.10), ("PHYSICAL", 0.10), ("FIN_CONTACT", 0.10)]),
   ("ExtraPass_Connector",
    [("PASS_SAFE", 0.35), ("PASS_CREATE", 0.20), ("HANDLE_SAFE", 0.15), ("SHOT_3_CS", 0.15),
     ("ENDURANCE", 0.10), ("PNR_READ", 0.05)]),
   ("Kickout_Trigger",
    [("DRIVE_CREATE", 0.25), ("PASS_SAFE", 0.20), ("PASS_CREATE", 0.15), ("HANDLE_SAFE", 0.15),
     ("PNR_READ", 0.10), ("SHOT_3_OD", 0.10), ("FIN_CONTACT", 0.05)])]

/-- ROLE_FIT_CUTS from the source: (S, A, B, C) minimum fits per role. -/
def ROLE_FIT_CUTS : List (String × (ℚ × ℚ × ℚ × ℚ)) :=
  [("PnR_PrimaryHandler", (80, 72, 64, 56)), ("PnR_SecondaryHandler", (78, 70, 62, 54)),
   ("DHO_PrimaryHandler", (78, 70, 62, 54)), ("Elbow_Hub", (80, 72, 64, 56)),
   ("Point_Forward", (78, 70, 62, 54)), ("Transition_Pusher", (75, 67, 59, 51)),
   ("3pt_OffDribble_Scorer", (79, 71, 63, 55)), ("Mid_PullUp_Scorer", (78, 70, 62, 54)),
   ("SpotUp_Wing", (80, 72, 64, 56)), ("Corner_Specialist", (82, 74, 66, 58)),
   ("Movement_Shooter", (80, 72, 64, 56)), ("Relocation_Shooter", (80, 72, 64, 56)),
   ("Roll_Man", (76, 68, 60, 52)), ("ShortRoll_Playmaker", (78, 70, 62, 54)),
   ("Pop_Big", (80, 72, 64, 56)), ("DHO_Hub_Big", (78, 70, 62, 54)),
   ("Horns_Big_A", (78, 70, 62, 54)), ("Horns_Big_B", (76, 68, 60, 52)),
   ("Post_Scorer", (77, 69, 61, 53)), ("Post_Facilitator", (78, 70, 62, 54)),
   ("Seal_Finisher", (75, 67, 59, 51)), ("Primary_Cutter", (74, 66, 58, 50)),
   ("Dunker_Spot", (72, 64, 56, 48)), ("Backdoor_Threat", (74, 66, 58, 50)),
   ("Rim_Runner", (74, 66, 58, 50)), ("ExtraPass_Connector", (78, 70, 62, 54)),
   ("Kickout_Trigger", (76, 68, 60, 52))]

/-- ROLE_PRIOR_MULT_RAW from the source: (GOOD, BAD) raw multipliers. -/
def ROLE_PRIOR_MULT_RAW : List (String × (ℚ × ℚ)) :=
  [("S", (1.06, 0.94)), ("A", (1.03, 0.97)), ("B", (1.00, 1.00)),
   ("C", (0.93, 1.10)), ("D", (0.85, 1.25))]

/-- ROLE_LOGIT_DELTA_RAW from the source. -/
def ROLE_LOGIT_DELTA_RAW : List (String × ℚ) :=
  [("S", 0.18), ("A", 0.10), ("B", 0.00), ("C", -0.18), ("D", -0.35)]

/-- role_fit_score from the source: weighted ability sum clamped to [0,100],
50 for unknown roles. -/
def role_fit_score (player : Player) (role : String) : ℚ :=
  match dictFind ROLE_FIT_WEIGHTS role with
  | none => 50
  | some w =>
      if w = [] then 50
      else clamp ((w.map (fun ka => player.get ka.1 true * ka.2)).sum) 0 100

/-- role_fit_grade from the source: grade by per-role cutoffs, with a generic
60/52 split for roles without cutoffs. -/
def role_fit_grade (role : String) (fit : ℚ) : String :=
  match dictFind ROLE_FIT_CUTS role with
  | none => if fit ≥ 60 then "B" else if fit ≥ 52 then "C" else "D"
  | some cuts =>
      if fit ≥ cuts.1 then "S"
      else if fit ≥ cuts.2.1 then "A"
      else if fit ≥ cuts.2.2.1 then "B"
      else if fit ≥ cuts.2.2.2 then "C"
      else "D"

/-- _get_role_fit_strength from the source: team ROLE_FIT_STRENGTH context
knob, else the era default, clamped into [0,1]. -/
def getRoleFitStrength (era : EraTables) (offense : TeamState) : ℚ :=
  match offense.tactics.context.ROLE_FIT_STRENGTH with
  | some v => clamp v 0 1
  | none => clamp era.role_fit_default_strength 0 1

/-- _choose_best_role from the source: among the given roles, the assigned
player with the strictly best fit. -/
def chooseBestRole (offense : TeamState) (roles : List String) :
    Option (String × Player × ℚ) :=
  roles.foldl
    (fun best r =>
      match dictFind offense.roles r with
      | none => best
      | some pid =>
          if pid = "" then best
          else
            match offense.find_player pid with
            | none => best
            | some p =>
                let fit := role_fit_score p r
                match best with
                | none => some (r, p, fit)
                | some b => if fit > b.2.2 then some (r, p, fit) else best)
    none

/-- The direct role participants of the PnR family (Roll_Man,
ShortRoll_Playmaker and Pop_Big are each added when assigned). -/
def rolesAssigned (offense : TeamState) (roles : List String) :
    List (String × Player × ℚ) :=
  roles.foldr
    (fun r acc =>
      match dictFind offense.roles r with
      | none => acc
      | some pid =>
          if pid = "" then acc
          else
            match offense.find_player pid with
            | none => acc
            | some p => (r, p, role_fit_score p r) :: acc)
    []

/-- Append an optional pick (the repeated `if pick: parts.append(pick)`). -/
def appendPick (parts : List (String × Player × ℚ)) :
    Option (String × Player × ℚ) → List (String × Player × ℚ)
  | some pick => parts ++ [pick]
  | none => parts

/-- _collect_roles_for_action_family from the source. -/
def collectRolesForActionFamily (action_family : String) (offense : TeamState) :
    List (String × Player × ℚ) :=
  if action_family = "PnR" then
    let parts := appendPick [] (chooseBestRole offense ["PnR_PrimaryHandler"])
    let parts := appendPick parts (chooseBestRole offense ["PnR_SecondaryHandler"])
    let parts := parts ++ rolesAssigned offense ["Roll_Man", "ShortRoll_Playmaker"]
    parts ++ rolesAssigned offense ["Pop_Big"]
  else if action_family = "DHO" then
    let parts := appendPick [] (chooseBestRole offense ["DHO_PrimaryHandler"])
    let parts := appendPick parts (chooseBestRole offense ["Movement_Shooter", "Relocation_Shooter"])
    appendPick parts (chooseBestRole offense ["DHO_Hub_Big"])
  else if action_family = "Drive" then
    appendPick [] (chooseBestRole offense ["Kickout_Trigger", "PnR_PrimaryHandler"])
  else if action_family = "Kickout" then
    let parts := appendPick [] (chooseBestRole offense ["Kickout_Trigger"])
    appendPick parts (chooseBestRole offense ["SpotUp_Wing", "Corner_Specialist"])
  else if action_family = "ExtraPass" then
    let parts := appendPick [] (chooseBestRole offense ["ExtraPass_Connector"])
    appendPick parts (chooseBestRole offense ["Elbow_Hub", "Point_Forward"])
  else if action_family = "PostUp" then
    let parts := appendPick [] (chooseBestRole offense ["Post_Scorer", "Post_Facilitator"])
    appendPick parts (chooseBestRole offense ["SpotUp_Wing", "Corner_Specialist"])
  else if action_family = "HornsSet" then
    let parts := appendPick [] (chooseBestRole offense ["Elbow_Hub"])
    let parts := appendPick parts (chooseBestRole offense ["Horns_Big_A"])
    appendPick parts (chooseBestRole offense ["Horns_Big_B"])
  else if action_family = "SpotUp" then
    appendPick [] (chooseBestRole offense ["SpotUp_Wing", "Corner_Specialist", "Relocation_Shooter"])
  else if action_family = "Cut" then
    let parts := appendPick [] (chooseBestRole offense ["Primary_Cutter", "Backdoor_Threat"])
    appendPick parts (chooseBestRole offense ["Elbow_Hub", "ExtraPass_Connector"])
  else if action_family = "TransitionEarly" then
    let parts := appendPick [] (chooseBestRole offense ["Transition_Pusher"])
    let parts := appendPick parts (chooseBestRole offense ["Rim_Runner"])
    appendPick parts (chooseBestRole offense ["Corner_Specialist"])
  else []

/-- _role_fit_effective_score from the source: 0.70·min + 0.30·mean for
multiple participants, clamped into [0,100]. -/
def roleFitEffectiveScore : List ℚ → ℚ
  | [] => 50
  | [f] => f
  | f :: fs =>
      let mn := fs.foldl min f
      let av := (f :: fs).sum / ((f :: fs).length : ℚ)
      clamp (0.70 * mn + 0.30 * av) 0 100

/-- Grade severity order used by _effective_grade_from_fit_eff. -/
def gradeSeverity (g : String) : ℕ :=
  if g = "S" then 0 else if g = "A" then 1 else if g = "B" then 2
  else if g = "C" then 3 else if g = "D" then 4 else 2

/-- _effective_grade_from_fit_eff from the source: grade Fit_eff per
participant role and keep the first worst grade. -/
def effectiveGradeFromFitEff (participants : List (String × Player × ℚ))
    (fit_eff : ℚ) : String :=
  match participants.map (fun rp => role_fit_grade rp.1 fit_eff) with
  | [] => "B"
  | g :: gs => gs.foldl (fun best x => if gradeSeverity best < gradeSeverity x then x else best) g

/-- The prior-distortion pass of apply_role_fit_to_priors_and_tags: multiply
GOOD (SHOT_*/PASS_*) and BAD (TO_*/RESET_*) keys by the strength-rendered raw
multiplier, leaving FOUL_* and anything else untouched; also collect the
applied multipliers for the debug average. -/
def roleFitDistort (priors : List (String × ℚ)) (grade : String) (strength : ℚ) :
    List (String × ℚ) × List ℚ :=
  priors.foldl
    (fun acc kv =>
      if pyStartsWith kv.1 "FOUL_" then acc
      else
        let cat : Option Bool :=
          if pyStartsWith kv.1 "SHOT_" ∨ pyStartsWith kv.1 "PASS_" then some true
          else if pyStartsWith kv.1 "TO_" ∨ pyStartsWith kv.1 "RESET_" then some false
          else none
        match cat with
        | none => acc
        | some good =>
            let raw := dictGet ROLE_PRIOR_MULT_RAW grade (1.00, 1.00)
            let mult_raw := if good then raw.1 else raw.2
            let mult_final := 1 + (0.60 * strength) * (mult_raw - 1)
            (dictSet acc.1 kv.1 (dictGet acc.1 kv.1 0 * mult_final), acc.2 ++ [mult_final]))
    (priors, [])

/-- apply_role_fit_to_priors_and_tags from the source: compute participants,
Fit_eff and grade, distort and renormalize the priors (60% channel), set the
logit delta tag (40% channel) and record the diagnostics on the team. -/
def apply_role_fit_to_priors_and_tags (era : EraTables) (priors : List (String × ℚ))
    (action_family : String) (offense : TeamState) (tags : Tags) :
    List (String × ℚ) × Tags × TeamState :=
  let strength := getRoleFitStrength era offense
  let participants := collectRolesForActionFamily action_family offense
  let applied : Bool := !participants.isEmpty
  let fits := participants.map (fun rp => rp.2.2)
  let fit_eff := if applied then roleFitEffectiveScore fits else 50
  let grade := if applied then effectiveGradeFromFitEff participants fit_eff else "B"
  let distorted :=
    if applied ∧ strength > eps9 then
      let dm := roleFitDistort priors grade strength
      (normalize_weights dm.1, dm.2)
    else (priors, [])
  let priors2 := distorted.1
  let mults_applied := distorted.2
  let avg_mult_final :=
    if mults_applied = [] then 1 else mults_applied.sum / (mults_applied.length : ℚ)
  let delta_raw := dictGet ROLE_LOGIT_DELTA_RAW grade 0
  let delta_final := if applied then (0.40 * strength) * delta_raw else 0
  let tags2 := { tags with
    role_fit_applied := applied
    role_logit_delta := delta_final
    role_fit_eff := fit_eff
    role_fit_grade := grade }
  let off2 := { offense with
    role_fit_pos_log := offense.role_fit_pos_log ++
      [{ action_family := action_family, applied := applied,
         n_roles := participants.length, fit_eff := fit_eff, grade := grade,
         role_fit_strength := strength, avg_mult_final := avg_mult_final,
         delta_final := delta_final }] }
  let off3 :=
    if applied then
      { off2 with role_fit_grade_counts := (dictSet off2.role_fit_grade_counts grade
          (dictGet off2.role_fit_grade_counts grade 0 + 1)) }
    else off2
  let off4 :=
    if applied then
      { off3 with role_fit_role_counts := (participants.foldl
          (fun d rp => dictSet d rp.1 (dictGet d rp.1 0 + 1)) off3.role_fit_role_counts) }
    else off3
  (priors2, tags2, off4)

/-! Resolution engine (src/match_engine/resolve.py). -/

/-- is_shot from the source. -/
def is_shot (o : String) : Bool := pyStartsWith o "SHOT_"

/-- is_pass from the source. -/
def is_pass (o : String) : Bool := pyStartsWith o "PASS_"

/-- is_to from the source. -/
def is_to (o : String) : Bool := pyStartsWith o "TO_"

/-- is_foul from the source. -/
def is_foul (o : String) : Bool := pyStartsWith o "FOUL_"

/-- is_reset from the source. -/
def is_reset (o : String) : Bool := pyStartsWith o "RESET_"

/-- shot_zone_from_outcome from the source; note SHOT_POST maps to none. -/
def shot_zone_from_outcome (outcome : String) : Option String :=
  if outcome = "SHOT_RIM_LAYUP" ∨ outcome = "SHOT_RIM_DUNK" ∨
     outcome = "SHOT_RIM_CONTACT" ∨ outcome = "SHOT_TOUCH_FLOATER" then some "rim"
  else if outcome = "SHOT_MID_CS" ∨ outcome = "SHOT_MID_PU" then some "mid"
  else if outcome = "SHOT_3_CS" ∨ outcome = "SHOT_3_OD" then some "3"
  else none

/-- outcome_points from the source: 3 for the two 3-point outcomes, 2 for any
other SHOT_*, 0 otherwise. -/
def outcome_points (o : String) : ℕ :=
  if o = "SHOT_3_CS" ∨ o = "SHOT_3_OD" then 3 else if pyStartsWith o "SHOT_" then 2 else 0

/-- resolve_free_throws from the source: per free throw, clamp(ft_base +
SHOT_FT/100·ft_range, ft_min, ft_max); every attempt adds an FTA and every
make adds one FTM and one point, on team counters and the shooter box. -/
def resolve_free_throws (era : EraTables) (rng : Rng) (shooter : Player)
    (n : ℕ) (team : TeamState) : TeamState × Rng :=
  match n with
  | 0 => (team, rng)
  | m + 1 =>
      let pm := era.prob_model
      let ft := shooter.get "SHOT_FT" true
      let p := clamp (pm.ft_base + ft / 100 * pm.ft_range) pm.ft_min pm.ft_max
      let t1 := { team with fta := team.fta + 1 }
      let t2 := t1.add_player_stat shooter.pid "FTA" 1
      let d := rng.random
      let t3 :=
        if d.1 < p then
          let a := { t2 with ftm := t2.ftm + 1, pts := t2.pts + 1 }
          (a.add_player_stat shooter.pid "FTM" 1).add_player_stat shooter.pid "PTS" 1
        else t2
      resolve_free_throws era d.2 shooter m t3

/-- rebound_orb_probability from the source: deterministic (no rng) rebound
kernel over lineup-average REB_OR / REB_DR scaled by the team context mults. -/
noncomputable def rebound_orb_probability (era : EraTables) (tun : Tunables)
    (offense defense : TeamState) (orb_mult drb_mult : ℚ) : ℝ :=
  let off_orb := ((offense.lineup.map (fun p => p.get "REB_OR" true)).sum) /
    (offense.lineup.length : ℚ) * orb_mult
  let def_drb := ((defense.lineup.map (fun p => p.get "REB_DR" true)).sum) /
    (defense.lineup.length : ℚ) * drb_mult
  let base := era.prob_model.orb_base * tun.ORB_BASE
  (prob_from_scores era none base off_orb def_drb "rebound" 1 0 0).1

/-- choose_orb_rebounder from the source: top-3 by REB_OR + 0.20·PHYSICAL,
weighted on REB_OR with power 1.15. -/
noncomputable def choose_orb_rebounder (rng : Rng) (offense : TeamState) : Player × Rng :=
  let cand := (sortedByDesc (fun p => p.get "REB_OR" true + 0.20 * p.get "PHYSICAL" true)
    offense.lineup).take 3
  choose_weighted_player rng cand "REB_OR" 1.15

/-- choose_drb_rebounder from the source. -/
noncomputable def choose_drb_rebounder (rng : Rng) (defense : TeamState) : Player × Rng :=
  let cand := (sortedByDesc (fun p => p.get "REB_DR" true + 0.20 * p.get "PHYSICAL" true)
    defense.lineup).take 3
  choose_weighted_player rng cand "REB_DR" 1.10

/-- The payload dict attached to a resolution result. -/
structure Payload where
  outcome : String := ""
  pid : Option String := none
  points : Option ℕ := none
  pass_chain : Option ℕ := none
  ptype : Option String := none
  fts : Option ℕ := none
  and_one : Option Bool := none
  fouler : Option String := none

/-- The per-possession context dict built by simulate_game.  Its team_fouls,
player_fouls, fatigue_map and def_on_court entries alias the GameState fields
in the Python source, so they are read from (and written to) the GameState
directly here; def_on_court keeps its own entry because resolve_outcome
accepts a caller-provided list with a lineup fallback. -/
structure Ctx where
  score_diff : ℤ := 0
  is_clutch : Bool := false
  is_garbage : Bool := false
  variance_mult : ℚ := 1
  tempo_mult : ℚ := 1
  avg_fatigue_off : ℚ := 1
  fatigue_logit_max : ℚ := -0.25
  def_eff_mult : ℚ := 1
  def_on_court : Option (List String) := none
  off_on_court : List String := []
  foul_out : ℕ := 6
  bonus_threshold : ℕ := 5

/-- The full result of one resolve_outcome call: the (term, payload) pair plus
the updated offense, defense, game state and RNG. -/
structure ResolveResult where
  term : String
  payload : Payload
  offense : TeamState
  defense : TeamState
  gs : GameState
  rng : Rng

/-- The role-fit bad-outcome logging block at the top of resolve_outcome. -/
def roleFitBadLog (offense : TeamState) (outcome : String) (tags : Tags) : TeamState :=
  if tags.role_fit_applied then
    let g := tags.role_fit_grade
    if is_to outcome then
      let bg := dictGet offense.role_fit_bad_by_grade g []
      { offense with
        role_fit_bad_totals := dictSet offense.role_fit_bad_totals "TO"
          (dictGet offense.role_fit_bad_totals "TO" 0 + 1)
        role_fit_bad_by_grade := dictSet offense.role_fit_bad_by_grade g
          (dictSet bg "TO" (dictGet bg "TO" 0 + 1)) }
    else if is_reset outcome then
      let bg := dictGet offense.role_fit_bad_by_grade g []
      { offense with
        role_fit_bad_totals := dictSet offense.role_fit_bad_totals "RESET"
          (dictGet offense.role_fit_bad_totals "RESET" 0 + 1)
        role_fit_bad_by_grade := dictSet offense.role_fit_bad_by_grade g
          (dictSet bg "RESET" (dictGet bg "RESET" 0 + 1)) }
    else offense
  else offense

/-- The participant-selection block of resolve_outcome. -/
noncomputable def chooseResolveActor (rng : Rng) (outcome base_action : String)
    (offense : TeamState) : Player × Rng :=
  if is_shot outcome then
    if outcome = "SHOT_3_CS" then choose_shooter_for_three rng offense
    else if outcome = "SHOT_MID_CS" then choose_shooter_for_mid rng offense
    else if outcome = "SHOT_3_OD" ∨ outcome = "SHOT_MID_PU" then
      choose_creator_for_pulloff rng offense outcome
    else if outcome = "SHOT_POST" then (choose_post_target offense, rng)
    else if outcome = "SHOT_RIM_DUNK" then choose_finisher_rim rng offense true
    else choose_finisher_rim rng offense false
  else if is_pass outcome then choose_passer rng offense base_action outcome
  else if is_foul outcome then
    if outcome = "FOUL_DRAW_POST" then (choose_post_target offense, rng)
    else if outcome = "FOUL_DRAW_JUMPER" then choose_creator_for_pulloff rng offense "SHOT_3_OD"
    else choose_finisher_rim rng offense false
  else (offense.get_role_player "ball_handler" (dictFind ROLE_FALLBACK_RANK "ball_handler"), rng)

/-- The shot base rate of resolve_outcome: the era SHOT_BASE entry (default
0.45) scaled by the tuned per-zone global, where the else branch (threes and
post shots alike) uses SHOT_BASE_3. -/
def shotBaseP (era : EraTables) (tun : Tunables) (shot_key : String) : ℚ :=
  let base := dictGet era.shot_base shot_key 0.45
  let kind := shotKindFromOutcome shot_key
  if kind = "shot_rim" then base * tun.SHOT_BASE_RIM
  else if kind = "shot_mid" then base * tun.SHOT_BASE_MID
  else base * tun.SHOT_BASE_3

/-- The SHOT_* block of resolve_outcome: attempt bookkeeping (FGA, shot zone,
3PA), the make roll, and make bookkeeping (FGM, 3PM, points). -/
noncomputable def resolveShotBranch (era : EraTables) (tun : Tunables) (rng1 : Rng)
    (outcome : String) (off3 def1 : TeamState) (gs : GameState) (actor : Player)
    (off_score def_score variance_mult role_delta fatigue_delta : ℚ) : ResolveResult :=
  let base_p := shotBaseP era tun outcome
  let kind := shotKindFromOutcome outcome
  let pk := prob_from_scores era (some rng1) base_p off_score def_score kind
    variance_mult role_delta fatigue_delta
  let p_make := pk.1
  let rng2 := pk.2.getD rng1
  let pts := outcome_points outcome
  let off4 := { off3 with fga := off3.fga + 1 }
  let off5 := match shot_zone_from_outcome outcome with
    | some zone => { off4 with shot_zones := (dictSet off4.shot_zones zone
        (dictGet off4.shot_zones zone 0 + 1)) }
    | none => off4
  let off6 := off5.add_player_stat actor.pid "FGA" 1
  let off7 :=
    if pts = 3 then ({ off6 with tpa := off6.tpa + 1 }).add_player_stat actor.pid "3PA" 1
    else off6
  let d := rng2.random
  if (d.1 : ℝ) < p_make then
    let off8 := ({ off7 with fgm := off7.fgm + 1 }).add_player_stat actor.pid "FGM" 1
    let off9 :=
      if pts = 3 then ({ off8 with tpm := off8.tpm + 1 }).add_player_stat actor.pid "3PM" 1
      else off8
    let off10 := ({ off9 with pts := off9.pts + pts }).add_player_stat actor.pid "PTS" pts
    { term := "SCORE",
      payload := { outcome := outcome, pid := some actor.pid, points := some pts },
      offense := off10, defense := def1, gs := gs, rng := d.2 }
  else
    { term := "MISS",
      payload := { outcome := outcome, pid := some actor.pid, points := some pts },
      offense := off7, defense := def1, gs := gs, rng := d.2 }

/-- The PASS_* block of resolve_outcome: success gives CONTINUE with a longer
pass chain, failure gives RESET tagged PASS_FAIL (never a turnover). -/
noncomputable def resolvePassBranch (era : EraTables) (tun : Tunables) (rng1 : Rng)
    (outcome : String) (off3 def1 : TeamState) (gs : GameState) (pass_chain : ℕ)
    (off_score def_score variance_mult role_delta : ℚ) : ResolveResult :=
  let base_s := dictGet era.pass_base_success outcome 0.90 * tun.PASS_BASE_SUCCESS_MULT
  let pk := prob_from_scores era (some rng1) base_s off_score def_score "pass"
    variance_mult role_delta 0
  let p_ok := pk.1
  let rng2 := pk.2.getD rng1
  let d := rng2.random
  if (d.1 : ℝ) < p_ok then
    { term := "CONTINUE",
      payload := { outcome := outcome, pass_chain := some (pass_chain + 1) },
      offense := off3, defense := def1, gs := gs, rng := d.2 }
  else
    { term := "RESET",
      payload := { outcome := outcome, ptype := some "PASS_FAIL" },
      offense := off3, defense := def1, gs := gs, rng := d.2 }

/-- The TO_* block of resolve_outcome: charge the turnover to the actor. -/
def resolveToBranch (rng1 : Rng) (outcome : String) (off3 def1 : TeamState)
    (gs : GameState) (actor : Player) : ResolveResult :=
  let off4 := { off3 with tov := off3.tov + 1 }
  let off5 := off4.add_player_stat actor.pid "TOV" 1
  { term := "TURNOVER", payload := { outcome := outcome, pid := some actor.pid },
    offense := off5, defense := def1, gs := gs, rng := rng1 }

/-- The FOUL_* block of resolve_outcome: team foul on the defense, personal
foul on a random on-court defender, paired-shot roll deciding the and-one,
free throws (3 for the jumper foul, else 2, plus 1 on an and-one), and the
freshness wipe when the fouler reaches the foul-out limit. -/
noncomputable def resolveFoulBranch (era : EraTables) (tun : Tunables) (rng1 : Rng)
    (outcome : String) (off3 def1 : TeamState) (gs : GameState) (ctx : Ctx)
    (actor : Player) (off_score def_score variance_mult role_delta fatigue_delta : ℚ) :
    ResolveResult :=
  let doc0 := (ctx.def_on_court.getD [])
  let def_on_court := if doc0 = [] then def1.lineup.map (fun p => p.pid) else doc0
  let fc :=
    if def_on_court ≠ [] then
      let ch := rng1.choice def_on_court
      (some ch.1, ch.2)
    else (none, rng1)
  let fouler := fc.1
  let rng2 := fc.2
  let gs1 := match fouler with
    | some fp => { gs with player_fouls := (dictSet gs.player_fouls fp
        (dictGet gs.player_fouls fp 0 + 1)) }
    | none => gs
  let gs2 := { gs1 with team_fouls := (dictSet gs1.team_fouls def1.name
    (dictGet gs1.team_fouls def1.name 0 + 1)) }
  let shot_key := if outcome = "FOUL_DRAW_JUMPER" then "SHOT_3_OD" else "SHOT_RIM_DUNK"
  let pts := if shot_key = "SHOT_3_OD" then 3 else 2
  let base_p := shotBaseP era tun shot_key
  let kind := shotKindFromOutcome shot_key
  let pk := prob_from_scores era (some rng2) base_p off_score def_score kind
    variance_mult role_delta fatigue_delta
  let p_make := pk.1
  let rng3 := pk.2.getD rng2
  let d := rng3.random
  let mk :=
    if (d.1 : ℝ) < p_make then
      let a1 := ({ off3 with fga := off3.fga + 1 }).add_player_stat actor.pid "FGA" 1
      let a2 := if pts = 3 then ({ a1 with tpa := a1.tpa + 1 }).add_player_stat actor.pid "3PA" 1
        else a1
      let a3 := ({ a2 with fgm := a2.fgm + 1 }).add_player_stat actor.pid "FGM" 1
      let a4 := if pts = 3 then ({ a3 with tpm := a3.tpm + 1 }).add_player_stat actor.pid "3PM" 1
        else a3
      let a5 := ({ a4 with pts := a4.pts + pts }).add_player_stat actor.pid "PTS" pts
      (a5, true)
    else (off3, false)
  let off4 := mk.1
  let and_one := mk.2
  let nfts := (if outcome = "FOUL_DRAW_JUMPER" then 3 else 2) + (if and_one then 1 else 0)
  let fr := resolve_free_throws era d.2 actor nfts off4
  let off5 := fr.1
  let rng4 := fr.2
  let gs3 := match fouler with
    | some fp =>
        if ctx.foul_out ≤ dictGet gs2.player_fouls fp 0 ∧ fp ≠ "" then
          { gs2 with fatigue := dictSet gs2.fatigue fp 0 }
        else gs2
    | none => gs2
  { term := "FOUL",
    payload := { outcome := outcome, pid := some actor.pid, fts := some nfts,
                 and_one := some and_one, fouler := fouler },
    offense := off5, defense := def1, gs := gs3, rng := rng4 }

set_option maxHeartbeats 1000000 in
/-- resolve_outcome from the source (src/match_engine/resolve.py): count the
outcome, short-circuit TO_SHOTCLOCK, log role-fit bad outcomes, bail to RESET
on a missing profile, pick the actor, charge fatigue, compute the matchup
scores and dispatch to the shot / pass / turnover / foul / reset blocks. -/
noncomputable def resolve_outcome (era : EraTables) (tun : Tunables) (rng : Rng)
    (outcome action : String) (offense defense : TeamState) (tags : Tags)
    (pass_chain : ℕ) (ctx : Ctx) (gs : GameState) : ResolveResult :=
  let off1 := { offense with outcome_counts := (dictSet offense.outcome_counts outcome
    (dictGet offense.outcome_counts outcome 0 + 1)) }
  if outcome = "TO_SHOTCLOCK" then
    let actor := off1.get_role_player "ball_handler" (dictFind ROLE_FALLBACK_RANK "ball_handler")
    let off2 := { off1 with tov := off1.tov + 1 }
    let off3 := off2.add_player_stat actor.pid "TOV" 1
    { term := "TURNOVER", payload := { outcome := outcome, pid := some actor.pid },
      offense := off3, defense := defense, gs := gs, rng := rng }
  else
  let off2 := roleFitBadLog off1 outcome tags
  let base_action := get_action_base era action
  let def_snap := team_def_snapshot defense
  match dictFind OUTCOME_PROFILES outcome with
  | none =>
      { term := "RESET", payload := { outcome := outcome },
        offense := off2, defense := defense, gs := gs, rng := rng }
  | some prof =>
  let ar := chooseResolveActor rng outcome base_action off2
  let actor0 := ar.1
  let rng1 := ar.2
  let base_cost_off : ℚ := if tags.in_transition then 0.58 else 0.42
  let base_cost_def : ℚ := if tags.in_transition then 0.54 else 0.40
  let off3 := { off2 with lineup := off2.lineup.map (fun p => p.add_fatigue base_cost_off) }
  let def1 := { defense with lineup := defense.lineup.map (fun p => p.add_fatigue base_cost_def) }
  let actor := (off3.find_player actor0.pid).getD actor0
  let variance_mult := teamVarianceMult era off3 * ctx.variance_mult
  let off_vals := prof.offense.map (fun kw => (kw.1, actor.get kw.1 true))
  let off_score := dot_profile off_vals prof.offense
  let def_vals := prof.defense.map (fun kw => (kw.1, dictGet def_snap kw.1 50))
  let def_score := dot_profile def_vals prof.defense * ctx.def_eff_mult
  let fatigue_val := dictGet gs.fatigue actor.pid 1
  let fatigue_logit_delta := (1 - fatigue_val) * ctx.fatigue_logit_max
  if is_shot outcome then
    resolveShotBranch era tun rng1 outcome off3 def1 gs actor off_score def_score
      variance_mult tags.role_logit_delta fatigue_logit_delta
  else if is_pass outcome then
    resolvePassBranch era tun rng1 outcome off3 def1 gs pass_chain off_score def_score
      variance_mult tags.role_logit_delta
  else if is_to outcome then
    resolveToBranch rng1 outcome off3 def1 gs actor
  else if is_foul outcome then
    resolveFoulBranch era tun rng1 outcome off3 def1 gs ctx actor off_score def_score
      variance_mult tags.role_logit_delta fatigue_logit_delta
  else
    { term := "RESET", payload := { outcome := outcome },
      offense := off3, defense := def1, gs := gs, rng := rng1 }

/-! Possession and game loop (src/match_engine/sim.py). -/

/-- Substring containment over character lists (for the Python `sub in s`
membership test on strings). -/
def listContainsChars (l sub : List Char) : Bool :=
  sub.isPrefixOf l ||
    match l with
    | [] => false
    | _ :: rest => listContainsChars rest sub

/-- Python `sub in s` on strings. -/
def pyInStr (sub s : String) : Bool :=
  listContainsChars s.data sub.data

/-- _init_targets from the source: starter/rotation/bench minute targets by
lineup slot. -/
def init_targets (team : TeamState) (rules : Rules) : List (String × ℕ) :=
  (team.lineup.enum.map (fun pi =>
    (pi.2.pid,
      if pi.1 < 5 then rules.fatigue_targets.starter_sec
      else if pi.1 < 8 then rules.fatigue_targets.rotation_sec
      else rules.fatigue_targets.bench_sec))).foldl
    (fun d kv => dictSet d kv.1 kv.2) []

/-- _update_minutes from the source: add int(max(delta,0)) seconds to each
listed player. -/
def update_minutes (gs : GameState) (pids : List String) (delta_sec : ℚ) : GameState :=
  let inc := Int.toNat ⌊max delta_sec 0⌋
  { gs with minutes_played_sec :=
      pids.foldl (fun d pid => dictSet d pid (dictGet d pid 0 + inc)) gs.minutes_played_sec }

/-- _fatigue_loss_for_role from the source. -/
def fatigue_loss_for_role (role : String) (rules : Rules) : ℚ :=
  if role = "handler" then rules.fatigue_loss.handler
  else if role = "big" then rules.fatigue_loss.big
  else rules.fatigue_loss.wing

/-- The intensity dict passed to _apply_fatigue_loss. -/
structure Intensity where
  transition_emphasis : Bool := false
  heavy_pnr : Bool := false

/-- The per-player role classification inside _apply_fatigue_loss: role tags
from the team role map, then a positional override to big for C/F players. -/
def fatigueRoleOf (team : TeamState) (pid : String) : String :=
  let role :=
    if dictGet team.roles "ball_handler" "" = pid then "handler"
    else if dictGet team.roles "secondary_handler" "" = pid then "handler"
    else if dictGet team.roles "screener" "" = pid ∨ dictGet team.roles "post" "" = pid then "big"
    else "wing"
  match team.find_player pid with
  | some p => if p.pos = "C" ∨ p.pos = "F" then "big" else role
  | none => role

/-- _apply_fatigue_loss from the source: per on-court player, subtract the
role-dependent freshness loss plus the intensity bonuses, clamped to [0,1]. -/
def apply_fatigue_loss (team : TeamState) (on_court : List String) (gs : GameState)
    (rules : Rules) (intensity : Intensity) : GameState :=
  { gs with fatigue :=
      (on_court.foldl
        (fun fat pid =>
          let role := fatigueRoleOf team pid
          let loss0 := fatigue_loss_for_role role rules
          let loss1 := if intensity.transition_emphasis then
            loss0 + rules.fatigue_loss.transition_emphasis else loss0
          let loss := if intensity.heavy_pnr ∧ (role = "handler" ∨ role = "big") then
            loss1 + rules.fatigue_loss.heavy_pnr else loss1
          dictSet fat pid (max 0 (min 1 (dictGet fat pid 1 - loss))))
        gs.fatigue) }

/-- Replace the first occurrence of a in the list by b (the in-place
on_court[index(pid_out)] = pid_in write). -/
def replaceFirst : List String → String → String → List String
  | [], _, _ => []
  | x :: xs, a, b => if x = a then b :: xs else x :: replaceFirst xs a b

/-- The swap loop of _perform_rotation: walk the out-candidates sorted by
freshness, pick the bench in-candidate furthest below target (freshness
tiebreak), and perform at most 2 swaps. -/
def rotationSwaps (fat : String → ℚ) (keyT : String → ℤ) :
    List String → List String → ℕ → List String → List String
  | [], _, _, on_court => on_court
  | pid_out :: rest, in_cands, swaps, on_court =>
      if 2 ≤ swaps then on_court
      else
        match in_cands with
        | [] => on_court
        | c :: cs =>
            let pid_in := cs.foldl
              (fun best y =>
                if keyT best < keyT y ∨ (keyT best = keyT y ∧ fat best < fat y) then y
                else best) c
            let in2 := (c :: cs).erase pid_in
            if pid_out ∈ on_court then
              rotationSwaps fat keyT rest in2 (swaps + 1) (replaceFirst on_court pid_out pid_in)
            else
              rotationSwaps fat keyT rest in2 swaps on_court

/-- _perform_rotation from the source: collect out-candidates (tired, fouled
out, over minute target, or garbage-time preference), eligible bench
in-candidates (fresh and within target+240), perform up to 2 swaps, and write
back the first 5 on-court slots.  The rng parameter of the Python function is
never used. -/
def perform_rotation (team : TeamState) (isHome : Bool) (gs : GameState)
    (rules : Rules) (is_garbage : Bool) : GameState :=
  let sub_out_th := rules.fatigue_thresholds.sub_out
  let sub_in_th := rules.fatigue_thresholds.sub_in
  let foul_out := rules.foul_out
  let targets := if isHome then gs.targets_sec_home else gs.targets_sec_away
  let on_court := if isHome then gs.on_court_home else gs.on_court_away
  let bench := (team.lineup.map (fun p => p.pid)).filter
    (fun pid => pid ∉ on_court ∧ dictGet gs.player_fouls pid 0 < foul_out)
  let fat : String → ℚ := fun pid => dictGet gs.fatigue pid 1
  let minutes : String → ℕ := fun pid => dictGet gs.minutes_played_sec pid 0
  let out_candidates := on_court.foldl
    (fun acc pid =>
      let tired := fat pid < sub_out_th ∨ foul_out ≤ dictGet gs.player_fouls pid 0
      let over_target := dictGet targets pid 0 + 120 < minutes pid
      if tired ∨ over_target then acc ++ [pid]
      else if is_garbage ∧ on_court ≠ [] ∧
          dictGet targets (on_court.headD "") 0 ≤ dictGet targets pid 0 then acc ++ [pid]
      else acc) []
  let in_candidates := bench.filter
    (fun pid => sub_in_th < fat pid ∧ minutes pid ≤ dictGet targets pid 0 + 240)
  let keyT : String → ℤ := fun pid => ((dictGet targets pid 0 : ℕ) : ℤ) - (minutes pid : ℤ)
  let on2 := rotationSwaps fat keyT (sortedByAsc fat out_candidates) in_candidates 0 on_court
  if isHome then { gs with on_court_home := on2.take 5 }
  else { gs with on_court_away := on2.take 5 }

/-- apply_time_cost from the source: charge cost·tempo_mult to the shot clock
and (floored at 0) the game clock. -/
def apply_time_cost (gs : GameState) (cost tempo_mult : ℚ) : GameState :=
  let adj := cost * tempo_mult
  { gs with shot_clock_sec := gs.shot_clock_sec - adj,
            clock_sec := max (gs.clock_sec - adj) 0 }

/-- commit_shot_clock_turnover from the source: team turnover, TOV on the ball
handler box, TO_SHOTCLOCK outcome count. -/
def commit_shot_clock_turnover (offense : TeamState) : TeamState :=
  let off1 := { offense with tov := offense.tov + 1 }
  let bh := off1.get_role_player "ball_handler" (dictFind ROLE_FALLBACK_RANK "ball_handler")
  let off2 := off1.add_player_stat bh.pid "TOV" 1
  { off2 with outcome_counts := (dictSet off2.outcome_counts "TO_SHOTCLOCK"
    (dictGet off2.outcome_counts "TO_SHOTCLOCK" 0 + 1)) }

/-- Which return site ended simulate_possession: a terminal resolution, the
defensive-rebound return, a shot-clock turnover after a time charge, a
game-clock expiry, or the fall-through shot-clock turnover when the while
condition (steps < max_steps and clock > 0) fails. -/
inductive PossessionEnd where
  | terminal (term : String)
  | drbEnd
  | shotClock
  | clockOut
  | loopExit
deriving DecidableEq

/-- The outcome of one simulate_possession call: the ending, the number of
resolve_outcome calls executed, and the updated state. -/
structure PossessionResult where
  endTag : PossessionEnd
  resolves : ℕ
  offense : TeamState
  defense : TeamState
  gs : GameState
  rng : Rng

/-- The control decision one loop iteration makes after resolve_outcome: either
the possession is over (with the ending tag and final state), or the loop goes
around again with a new action/pass_chain/state. -/
inductive StepOut where
  | done (endTag : PossessionEnd) (offense defense : TeamState) (gs : GameState) (rng : Rng)
  | cont (action : String) (pass_chain : ℕ) (tags : Tags) (offense defense : TeamState)
      (gs : GameState) (rng : Rng)

/-- The MISS tail of the loop body: the rebound roll; an offensive rebound
continues the possession off a reset shot clock, a defensive rebound ends it. -/
noncomputable def stepMiss (era : EraTables) (tun : Tunables) (rules : Rules)
    (tags2 : Tags) (r : ResolveResult) : StepOut :=
  let orb_mult := r.offense.tactics.context.ORB_MULT
  let drb_mult := r.defense.tactics.context.DRB_MULT
  let p_orb := rebound_orb_probability era tun r.offense r.defense orb_mult drb_mult
  let d := r.rng.random
  if (d.1 : ℝ) < p_orb then
    let off3 := { r.offense with orb := r.offense.orb + 1 }
    let rb := choose_orb_rebounder d.2 off3
    let off4 := off3.add_player_stat rb.1.pid "ORB" 1
    let gs2 := { r.gs with shot_clock_sec := rules.orb_reset }
    let d2 := rb.2.random
    let action2 := if d2.1 < 0.55 then "Kickout" else "Drive"
    .cont action2 0 tags2 off4 r.defense gs2 d2.2
  else
    let def3 := { r.defense with drb := r.defense.drb + 1 }
    let rb := choose_drb_rebounder d.2 def3
    let def4 := def3.add_player_stat rb.1.pid "DRB" 1
    .done .drbEnd r.offense def4 r.gs rb.2

/-- The RESET tail of the loop body: charge the reset time cost (with its
shot-clock and game-clock checks) and re-draw the next action. -/
noncomputable def stepReset (rules : Rules) (ctx : Ctx) (off_probs : List (String × ℝ))
    (tags2 : Tags) (r : ResolveResult) : StepOut :=
  let reset_cost := dictGet rules.time_costs "Reset" 0
  let gs2 := if reset_cost > 0 then apply_time_cost r.gs reset_cost ctx.tempo_mult
    else r.gs
  if reset_cost > 0 ∧ gs2.shot_clock_sec ≤ 0 then
    .done .shotClock (commit_shot_clock_turnover r.offense) r.defense gs2 r.rng
  else if reset_cost > 0 ∧ gs2.clock_sec ≤ 0 then
    .done .clockOut r.offense r.defense { gs2 with clock_sec := 0 } r.rng
  else
    let ac := weighted_choice r.rng off_probs
    let off3 := { r.offense with off_action_counts :=
      (dictSet r.offense.off_action_counts ac.1
        (dictGet r.offense.off_action_counts ac.1 0 + 1)) }
    .cont ac.1 0 tags2 off3 r.defense gs2 ac.2

/-- The CONTINUE tail of the loop body: bump the pass chain, charge the pass
time cost (with its clock checks) and pick the next action from the pass
branching table. -/
noncomputable def stepContinue (rules : Rules) (ctx : Ctx) (off_probs : List (String × ℝ))
    (outcome : String) (pass_chain : ℕ) (tags2 : Tags) (r : ResolveResult) : StepOut :=
  let pass_chain2 := r.payload.pass_chain.getD (pass_chain + 1)
  let pass_cost :=
    if outcome = "PASS_KICKOUT" ∨ outcome = "PASS_SKIP" then
      dictGet rules.time_costs "Kickout" 0
    else if outcome = "PASS_EXTRA" then dictGet rules.time_costs "ExtraPass" 0
    else 0
  let gs2 := if pass_cost > 0 then apply_time_cost r.gs pass_cost ctx.tempo_mult
    else r.gs
  if pass_cost > 0 ∧ gs2.shot_clock_sec ≤ 0 then
    .done .shotClock (commit_shot_clock_turnover r.offense) r.defense gs2 r.rng
  else if pass_cost > 0 ∧ gs2.clock_sec ≤ 0 then
    .done .clockOut r.offense r.defense { gs2 with clock_sec := 0 } r.rng
  else
    let st :=
      if outcome = "PASS_KICKOUT" ∨ outcome = "PASS_SKIP" ∨ outcome = "PASS_EXTRA" then
        let d := r.rng.random
        (if d.1 < 0.72 then "SpotUp" else "ExtraPass", d.2)
      else if outcome = "PASS_SHORTROLL" then
        let d := r.rng.random
        (if d.1 < 0.55 then "Drive" else "Kickout", d.2)
      else
        weighted_choice r.rng off_probs
    let action2 := if 3 ≤ pass_chain2 then "SpotUp" else st.1
    .cont action2 pass_chain2 tags2 r.offense r.defense gs2 st.2

/-- The tail of one loop iteration of simulate_possession, from the point where
resolve_outcome has returned r: the terminal check, the rebound branch on MISS,
the reset re-draw on RESET, the pass time cost and next action on CONTINUE,
and the plain fall-through otherwise, exactly as in the source loop body. -/
noncomputable def possessionAfterResolve (era : EraTables) (tun : Tunables) (rules : Rules)
    (ctx : Ctx) (off_probs : List (String × ℝ)) (outcome action : String)
    (pass_chain : ℕ) (tags2 : Tags) (r : ResolveResult) : StepOut :=
  if r.term = "SCORE" ∨ r.term = "TURNOVER" ∨ r.term = "FOUL" then
    .done (.terminal r.term) r.offense r.defense r.gs r.rng
  else if r.term = "MISS" then
    stepMiss era tun rules tags2 r
  else if r.term = "RESET" then
    stepReset rules ctx off_probs tags2 r
  else if r.term = "CONTINUE" then
    stepContinue rules ctx off_probs outcome pass_chain tags2 r
  else
    .cont action pass_chain tags2 r.offense r.defense r.gs r.rng

set_option maxHeartbeats 1000000 in
/-- The while loop of simulate_possession, with fuel equal to the remaining
step budget (max_steps − steps); the fall-through on fuel 0 or a dead game
clock books the shot-clock turnover exactly as the Python code after the
loop. -/
noncomputable def possessionLoop (era : EraTables) (tun : Tunables) (rules : Rules)
    (ctx : Ctx) (off_probs : List (String × ℝ)) :
    ℕ → ℕ → String → ℕ → Tags → TeamState → TeamState → GameState → Rng → PossessionResult
  | 0, resolves, _, _, _, offense, defense, gs, rng =>
      { endTag := .loopExit, resolves := resolves,
        offense := commit_shot_clock_turnover offense, defense := defense, gs := gs, rng := rng }
  | fuel + 1, resolves, action, pass_chain, tags, offense, defense, gs, rng =>
      if gs.clock_sec ≤ 0 then
        { endTag := .loopExit, resolves := resolves,
          offense := commit_shot_clock_turnover offense, defense := defense, gs := gs, rng := rng }
      else
        let action_cost := dictGet rules.time_costs (get_action_base era action) 0
        let gs1 := if action_cost > 0 then apply_time_cost gs action_cost ctx.tempo_mult else gs
        if action_cost > 0 ∧ gs1.shot_clock_sec ≤ 0 then
          { endTag := .shotClock, resolves := resolves,
            offense := commit_shot_clock_turnover offense, defense := defense, gs := gs1, rng := rng }
        else if action_cost > 0 ∧ gs1.clock_sec ≤ 0 then
          { endTag := .clockOut, resolves := resolves,
            offense := offense, defense := defense,
            gs := { gs1 with clock_sec := 0 }, rng := rng }
        else
          let pri0 := build_outcome_priors era action offense.tactics defense.tactics tags
          let rf := apply_role_fit_to_priors_and_tags era pri0 (get_action_base era action)
            offense tags
          let pri := rf.1
          let tags2 := rf.2.1
          let off2 := rf.2.2
          let oc := weighted_choice rng pri
          let outcome := oc.1
          let r := resolve_outcome era tun oc.2 outcome action off2 defense tags2 pass_chain ctx gs1
          match possessionAfterResolve era tun rules ctx off_probs outcome action pass_chain
            tags2 r with
          | .done e o d g rn =>
              { endTag := e, resolves := resolves + 1, offense := o, defense := d,
                gs := g, rng := rn }
          | .cont a pc tg o d g rn =>
              possessionLoop era tun rules ctx off_probs fuel (resolves + 1) a pc tg o d g rn

/-- simulate_possession from the source: bump possessions, build and sample
the offense/defense action distributions, set the step tags, and run the
step loop with budget max_steps. -/
noncomputable def simulate_possession (era : EraTables) (tun : Tunables) (rules : Rules)
    (rng : Rng) (offense defense : TeamState) (gs : GameState) (ctx : Ctx)
    (max_steps : ℕ) : PossessionResult :=
  let off1 := { offense with possessions := offense.possessions + 1 }
  let off_probs := build_offense_action_probs era off1.tactics (some defense.tactics)
  let def_probs := build_defense_action_probs era defense.tactics
  let ac := weighted_choice rng off_probs
  let action := ac.1
  let off2 := { off1 with off_action_counts := (dictSet off1.off_action_counts action
    (dictGet off1.off_action_counts action 0 + 1)) }
  let dc := weighted_choice ac.2 def_probs
  let def1 := { defense with def_action_counts := (dictSet defense.def_action_counts dc.1
    (dictGet defense.def_action_counts dc.1 0 + 1)) }
  let tags : Tags := { in_transition := get_action_base era action = "TransitionEarly",
                       is_side_pnr := action = "SideAnglePnR" }
  possessionLoop era tun rules ctx off_probs max_steps 0 action 0 tags off2 def1 gs dc.2

/-- init_player_boxes from the source. -/
def init_player_boxes (team : TeamState) : TeamState :=
  { team with player_stats :=
      (team.lineup.foldl (fun d p => dictSet d p.pid emptyBox) team.player_stats) }

/-- The per-team summary emitted by summarize_team. -/
structure TeamSummary where
  PTS : ℕ
  FGM : ℕ
  FGA : ℕ
  TPM : ℕ
  TPA : ℕ
  FTM : ℕ
  FTA : ℕ
  TOV : ℕ
  ORB : ℕ
  DRB : ℕ
  Possessions : ℕ
  OffActionCounts : List (String × ℕ)
  DefActionCounts : List (String × ℕ)
  OutcomeCounts : List (String × ℕ)
  Players : List (String × List (String × ℕ))
  AvgFatigue : ℚ
  ShotZones : List (String × ℕ)

/-- summarize_team from the source: the counters, the count-descending
histograms, the player boxes, the average residual fatigue and the shot-zone
histogram. -/
def summarize_team (team : TeamState) : TeamSummary :=
  { PTS := team.pts, FGM := team.fgm, FGA := team.fga, TPM := team.tpm, TPA := team.tpa,
    FTM := team.ftm, FTA := team.fta, TOV := team.tov, ORB := team.orb, DRB := team.drb,
    Possessions := team.possessions,
    OffActionCounts := sortedByDesc (fun kv => (kv.2 : ℚ)) team.off_action_counts,
    DefActionCounts := sortedByDesc (fun kv => (kv.2 : ℚ)) team.def_action_counts,
    OutcomeCounts := sortedByDesc (fun kv => (kv.2 : ℚ)) team.outcome_counts,
    Players := team.player_stats,
    AvgFatigue := ((team.lineup.map (fun p => p.fatigue)).sum) / (team.lineup.length : ℚ),
    ShotZones := team.shot_zones }

/-! Replay token (make_replay_token, src/match_engine_mvp_plus_v08.py lines
32-87).  The sha256-of-canonical-json digest is embedded as the canonical
payload record itself: the digest is a fixed deterministic function of this
payload, so token equality claims are carried by payload equality. -/

/-- ENGINE_VERSION from the source. -/
def ENGINE_VERSION : String := "mvp_plus_0.2"

/-- The per-player slice of the replay-token payload. -/
structure PlayerPayload where
  pid : String
  pos : String
  derived : List (String × ℚ)

/-- The tactics slice of the replay-token payload. -/
structure TacticsPayload where
  offense_scheme : String
  defense_scheme : String
  scheme_weight_sharpness : ℚ
  scheme_outcome_strength : ℚ
  def_scheme_weight_sharpness : ℚ
  def_scheme_outcome_strength : ℚ
  action_weight_mult : List (String × ℚ)
  outcome_global_mult : List (String × ℚ)
  outcome_by_action_mult : List (String × List (String × ℚ))
  def_action_weight_mult : List (String × ℚ)
  opp_action_weight_mult : List (String × ℚ)
  opp_outcome_global_mult : List (String × ℚ)
  opp_outcome_by_action_mult : List (String × List (String × ℚ))
  context : TacticsContext

/-- The per-team slice of the replay-token payload. -/
structure TeamPayload where
  name : String
  roles : List (String × String)
  lineup : List PlayerPayload
  tactics : TacticsPayload

/-- The canonical replay-token payload (engine version, era, RNG state,
rosters, roles, tactics). -/
structure ReplayToken where
  engine_version : String
  era : String
  rng_state : (ℕ → ℚ) × (ℕ → ℝ) × ℕ × ℕ
  teamA : TeamPayload
  teamB : TeamPayload

/-- The _tactics_payload helper of make_replay_token. -/
def tacticsPayload (t : TacticsConfig) : TacticsPayload :=
  { offense_scheme := t.offense_scheme, defense_scheme := t.defense_scheme,
    scheme_weight_sharpness := t.scheme_weight_sharpness,
    scheme_outcome_strength := t.scheme_outcome_strength,
    def_scheme_weight_sharpness := t.def_scheme_weight_sharpness,
    def_scheme_outcome_strength := t.def_scheme_outcome_strength,
    action_weight_mult := t.action_weight_mult,
    outcome_global_mult := t.outcome_global_mult,
    outcome_by_action_mult := t.outcome_by_action_mult,
    def_action_weight_mult := t.def_action_weight_mult,
    opp_action_weight_mult := t.opp_action_weight_mult,
    opp_outcome_global_mult := t.opp_outcome_global_mult,
    opp_outcome_by_action_mult := t.opp_outcome_by_action_mult,
    context := t.context }

/-- The _player_payload helper of make_replay_token. -/
def playerPayload (p : Player) : PlayerPayload :=
  { pid := p.pid, pos := p.pos, derived := p.derived }

/-- make_replay_token from the source: the canonical payload over the RNG
state, era and both teams. -/
def make_replay_token (rng : Rng) (teamA teamB : TeamState) (era : String) : ReplayToken :=
  { engine_version := ENGINE_VERSION, era := era,
    rng_state := (rng.u, rng.g, rng.iu, rng.ig),
    teamA := { name := teamA.name, roles := teamA.roles,
               lineup := teamA.lineup.map playerPayload,
               tactics := tacticsPayload teamA.tactics },
    teamB := { name := teamB.name, roles := teamB.roles,
               lineup := teamB.lineup.map playerPayload,
               tactics := tacticsPayload teamB.tactics } }

/-- The output record of simulate_game that the determinism and invariant
claims quantify over: meta (era, token), the per-team summaries, the final
game-state dicts, and the final team states (carrying the role-fit debug
block exposed under meta.internal_debug). -/
structure GameResult where
  era : String
  replay_token : ReplayToken
  possessions_per_team : ℕ
  teamAName : String
  teamBName : String
  teamASummary : TeamSummary
  teamBSummary : TeamSummary
  gs_team_fouls : List (String × ℕ)
  gs_player_fouls : List (String × ℕ)
  gs_fatigue : List (String × ℚ)
  gs_minutes_played_sec : List (String × ℕ)
  finalTeamA : TeamState
  finalTeamB : TeamState

/-- The tail of one quarter-loop iteration after simulate_possession has
returned pres: restore the full lineups, update minutes, decay freshness,
rotate both teams, refresh the scoreboard, and report whether the loop goes
on (game clock still positive) together with the advanced state. -/
noncomputable def afterPossession (rules : Rules) (origs : List (String × List Player))
    (isAOff : Bool) (off_on_court def_on_court : List String) (is_garbage : Bool)
    (start_clock : ℚ) (pres : PossessionResult) (total : ℕ) :
    Bool × TeamState × TeamState × GameState × Rng × ℕ :=
  let offense4 := { pres.offense with lineup := dictGet origs pres.offense.name [] }
  let defense4 := { pres.defense with lineup := dictGet origs pres.defense.name [] }
  let elapsed := max (start_clock - pres.gs.clock_sec) 0
  let gs2 := update_minutes pres.gs off_on_court elapsed
  let gs3 := update_minutes gs2 def_on_court elapsed
  let intensity_off : Intensity :=
    { transition_emphasis := offense4.tactics.context.TRANSITION_EMPHASIS,
      heavy_pnr := offense4.tactics.context.HEAVY_PNR ||
        pyInStr "PnR" offense4.tactics.offense_scheme }
  let intensity_def : Intensity :=
    { transition_emphasis := defense4.tactics.context.TRANSITION_EMPHASIS,
      heavy_pnr := defense4.tactics.context.HEAVY_PNR ||
        pyInStr "PnR" defense4.tactics.offense_scheme }
  let gs4 := apply_fatigue_loss offense4 off_on_court gs3 rules intensity_off
  let gs5 := apply_fatigue_loss defense4 def_on_court gs4 rules intensity_def
  let gs6 := perform_rotation offense4 isAOff gs5 rules is_garbage
  let gs7 := perform_rotation defense4 (!isAOff) gs6 rules is_garbage
  let teamA2 := if isAOff then offense4 else defense4
  let teamB2 := if isAOff then defense4 else offense4
  let gs8 := { gs7 with score_home := teamA2.pts, score_away := teamB2.pts }
  if gs8.clock_sec ≤ 0 then
    (false, teamA2, teamB2, { gs8 with clock_sec := 0 }, pres.rng, total + 1)
  else (true, teamA2, teamB2, gs8, pres.rng, total + 1)

set_option maxHeartbeats 1000000 in
/-- The body of the per-quarter while loop of simulate_game: pick offense and
defense by possession parity, restrict lineups to the on-court players, build
the possession context (clutch/garbage, variance and tempo, fatigue and foul
maps), charge the possession setup cost with its shot-clock and game-clock
exits, run the possession, restore lineups, update minutes, decay freshness,
rotate both teams and advance the possession counter until the quarter clock
is exhausted (fuel bounds the iteration count; the Python loop needs no bound
because every iteration consumes setup time). -/
noncomputable def quarterLoop (era : EraTables) (tun : Tunables) (rules : Rules)
    (origs : List (String × List Player)) :
    ℕ → TeamState → TeamState → GameState → Rng → ℕ →
    TeamState × TeamState × GameState × Rng × ℕ
  | 0, teamA, teamB, gs, rng, total => (teamA, teamB, gs, rng, total)
  | fuel + 1, teamA, teamB, gs, rng, total =>
      if gs.clock_sec ≤ 0 then (teamA, teamB, gs, rng, total)
      else
        let isAOff := total % 2 = 0
        let offense := if isAOff then teamA else teamB
        let defense := if isAOff then teamB else teamA
        let gs0 := { gs with possession := total, shot_clock_sec := rules.shot_clock }
        let start_clock := gs0.clock_sec
        let off_on_court := if isAOff then gs0.on_court_home else gs0.on_court_away
        let def_on_court := if isAOff then gs0.on_court_away else gs0.on_court_home
        let offense1 := { offense with lineup :=
          (off_on_court.filterMap (fun pid => offense.find_player pid)) }
        let defense1 := { defense with lineup :=
          (def_on_court.filterMap (fun pid => defense.find_player pid)) }
        let avg_off := ((off_on_court.map (fun pid => dictGet gs0.fatigue pid 1)).sum) /
          ((max off_on_court.length 1 : ℕ) : ℚ)
        let avg_def := ((def_on_court.map (fun pid => dictGet gs0.fatigue pid 1)).sum) /
          ((max def_on_court.length 1 : ℕ) : ℚ)
        let def_eff_mult := rules.fatigue_effects.def_mult_min + 0.10 * avg_def
        let score_diff : ℤ := (teamA.pts : ℤ) - (teamB.pts : ℤ)
        let is_clutch : Bool :=
          decide (gs0.quarter = 4 ∧ gs0.clock_sec ≤ 120 ∧ |score_diff| ≤ 8)
        let is_garbage : Bool :=
          decide (gs0.quarter = 4 ∧ gs0.clock_sec ≤ 360 ∧ 20 ≤ |score_diff|)
        let variance_mult : ℚ := if is_clutch then 0.80 else if is_garbage then 1.25 else 1
        let tempo_mult : ℚ := if is_garbage then 1 / 1.08 else 1
        let ctx : Ctx :=
          { score_diff := score_diff, is_clutch := is_clutch, is_garbage := is_garbage,
            variance_mult := variance_mult, tempo_mult := tempo_mult,
            avg_fatigue_off := avg_off,
            fatigue_logit_max := rules.fatigue_effects.logit_delta_max,
            def_eff_mult := def_eff_mult, def_on_court := some def_on_court,
            off_on_court := off_on_court, foul_out := rules.foul_out,
            bonus_threshold := rules.bonus_threshold }
        let setup_cost := dictGet rules.time_costs "possession_setup" 0
        let gsS := if setup_cost > 0 then apply_time_cost gs0 setup_cost tempo_mult else gs0
        if setup_cost > 0 ∧ gsS.shot_clock_sec ≤ 0 then
          let offense2 := commit_shot_clock_turnover offense1
          let offense3 := { offense2 with lineup := dictGet origs offense2.name [] }
          let defense3 := { defense1 with lineup := dictGet origs defense1.name [] }
          let teamA2 := if isAOff then offense3 else defense3
          let teamB2 := if isAOff then defense3 else offense3
          let gs2 := { gsS with score_home := teamA2.pts, score_away := teamB2.pts }
          if gs2.clock_sec ≤ 0 then (teamA2, teamB2, { gs2 with clock_sec := 0 }, rng, total + 1)
          else quarterLoop era tun rules origs fuel teamA2 teamB2 gs2 rng (total + 1)
        else if setup_cost > 0 ∧ gsS.clock_sec ≤ 0 then
          let offense3 := { offense1 with lineup := dictGet origs offense1.name [] }
          let defense3 := { defense1 with lineup := dictGet origs defense1.name [] }
          let teamA2 := if isAOff then offense3 else defense3
          let teamB2 := if isAOff then defense3 else offense3
          (teamA2, teamB2, { gsS with clock_sec := 0 }, rng, total)
        else
          let pres := simulate_possession era tun rules rng offense1 defense1 gsS ctx 7
          let s := afterPossession rules origs isAOff off_on_court def_on_court
            is_garbage start_clock pres total
          if s.1 then
            quarterLoop era tun rules origs fuel s.2.1 s.2.2.1 s.2.2.2.1 s.2.2.2.2.1
              s.2.2.2.2.2
          else (s.2.1, s.2.2.1, s.2.2.2.1, s.2.2.2.2.1, s.2.2.2.2.2)

/-- The quarter loop of simulate_game: per quarter, set the quarter number,
refill the clock, zero the team fouls and run the possession loop. -/
noncomputable def runQuarters (era : EraTables) (tun : Tunables) (rules : Rules)
    (origs : List (String × List Player)) (fuel : ℕ) :
    ℕ → ℕ → TeamState → TeamState → GameState → Rng → ℕ →
    TeamState × TeamState × GameState × Rng × ℕ
  | 0, _, teamA, teamB, gs, rng, total => (teamA, teamB, gs, rng, total)
  | count + 1, qnum, teamA, teamB, gs, rng, total =>
      let gs1 := { gs with
        quarter := qnum
        clock_sec := rules.quarter_length
        team_fouls := (dictSet (dictSet gs.team_fouls teamA.name 0) teamB.name 0) }
      let r := quarterLoop era tun rules origs fuel teamA teamB gs1 rng total
      runQuarters era tun rules origs fuel count (qnum + 1) r.1 r.2.1 r.2.2.1 r.2.2.2.1 r.2.2.2.2

/-- simulate_game from the source (src/match_engine/sim.py), from
init_player_boxes onward: the era tables are an input (load_era_config /
apply_era_config install them before the loop), get_mvp_rules supplies the
rules, and the validation/sanitization phase — whose module validation.py is
not in the source tree — is not modelled, so the teams are taken as already
sanitized.  fuel bounds the possessions per quarter; the Python loop needs no
bound because every possession consumes setup time. -/
noncomputable def simulate_game (era : EraTables) (tun : Tunables) (rng : Rng)
    (teamA teamB : TeamState) (eraName : String) (fuel : ℕ) : GameResult :=
  let rules := MVP_RULES
  let tA := init_player_boxes teamA
  let tB := init_player_boxes teamB
  let targets_home := init_targets tA rules
  let targets_away := init_targets tB rules
  let gs : GameState :=
    { quarter := 1, clock_sec := 0, shot_clock_sec := 0,
      score_home := tA.pts, score_away := tB.pts, possession := 0,
      team_fouls := (dictSet (dictSet [] tA.name 0) tB.name 0),
      player_fouls := [],
      fatigue := ((tA.lineup ++ tB.lineup).map (fun p => (p.pid, (1 : ℚ)))),
      minutes_played_sec := ((tA.lineup ++ tB.lineup).map (fun p => (p.pid, (0 : ℕ)))),
      on_court_home := (tA.lineup.take 5).map (fun p => p.pid),
      on_court_away := (tB.lineup.take 5).map (fun p => p.pid),
      targets_sec_home := targets_home, targets_sec_away := targets_away }
  let origs := dictSet (dictSet [] tA.name tA.lineup) tB.name tB.lineup
  let r := runQuarters era tun rules origs fuel rules.quarters 1 tA tB gs rng 0
  let fA := r.1
  let fB := r.2.1
  let gsF := r.2.2.1
  let rngF := r.2.2.2.1
  { era := eraName,
    replay_token := make_replay_token rngF fA fB eraName,
    possessions_per_team := max fA.possessions fB.possessions,
    teamAName := fA.name, teamBName := fB.name,
    teamASummary := summarize_team fA, teamBSummary := summarize_team fB,
    gs_team_fouls := gsF.team_fouls, gs_player_fouls := gsF.player_fouls,
    gs_fatigue := gsF.fatigue, gs_minutes_played_sec := gsF.minutes_played_sec,
    finalTeamA := fA, finalTeamB := fB }

/-! Spec-side definitions used by the refinement-style claims. -/

/-- The logistic-parameter record selected for a kind by prob_from_scores
(the truthiness chain lp.get(kind) or lp.get("default") or empty). -/
def logisticSpecFor (era : EraTables) (kind : String) : List (String × ℚ) :=
  let a := dictGet era.logistic_params kind []
  if a = [] then dictGet era.logistic_params "default" [] else a

/-- Written from the spec wording of the probability kernel (claim C5):
p = clamp(σ(logit(clamp(base_p, 0.02, 0.98)) + (Off − Def)·sensitivity +
role_logit_delta + fatigue_logit_delta + noise), 0.03, 0.97), with the noise
drawn from N(0, std_eff) whenever an rng is present and omitted only when it
is absent. -/
noncomputable def prob_from_scores_spec (era : EraTables) (rng : Option Rng)
    (base_p off_score def_score : ℚ) (kind : String) (variance_mult : ℚ)
    (logit_delta : ℚ) (fatigue_logit_delta : ℚ) : ℝ :=
  let bp := clamp base_p (0.02 : ℚ) 0.98
  let base_logit : ℝ := Real.log ((bp : ℝ) / (1 - (bp : ℝ)))
  let sens := probSensitivity era kind
  let gap := (off_score - def_score) * sens
  let noise : ℝ := match rng with
    | none => 0
    | some r => (noiseStd era kind variance_mult : ℝ) * r.g r.ig
  clamp (sigmoid (base_logit + (gap : ℝ) + (logit_delta : ℝ) + (fatigue_logit_delta : ℝ) + noise))
    (0.03 : ℝ) 0.97

/-- The amended probability-kernel formula: identical to the spec formula
except that the noise term is the one the code computes — 0 when the rng is
absent and also when the effective std is at most 1e-9. -/
noncomputable def prob_from_scores_spec_amended (era : EraTables) (rng : Option Rng)
    (base_p off_score def_score : ℚ) (kind : String) (variance_mult : ℚ)
    (logit_delta : ℚ) (fatigue_logit_delta : ℚ) : ℝ :=
  let bp := clamp base_p (0.02 : ℚ) 0.98
  let base_logit : ℝ := Real.log ((bp : ℝ) / (1 - (bp : ℝ)))
  let sens := probSensitivity era kind
  let gap := (off_score - def_score) * sens
  let noise : ℝ := (noiseTerm era rng kind variance_mult).1
  clamp (sigmoid (base_logit + (gap : ℝ) + (logit_delta : ℝ) + (fatigue_logit_delta : ℝ) + noise))
    (0.03 : ℝ) 0.97

/-- The box-score invariant of a team (claim C3): make counts bounded by
attempt counts, threes bounded by field goals, and the points identity
PTS = 2·(FGM−3PM) + 3·3PM + FTM. -/
def TeamBoxInv (t : TeamState) : Prop :=
  t.fgm ≤ t.fga ∧ t.tpm ≤ t.tpa ∧ t.ftm ≤ t.fta ∧ t.tpa ≤ t.fga ∧ t.tpm ≤ t.fgm ∧
  t.pts = 2 * (t.fgm - t.tpm) + 3 * t.tpm + t.ftm

/-- The shot-zone histogram mass of a team: rim + mid + 3. -/
def zoneSum (t : TeamState) : ℕ :=
  dictGet t.shot_zones "rim" 0 + dictGet t.shot_zones "mid" 0 + dictGet t.shot_zones "3" 0

/-- The strengthened counter invariant carried through the whole game: the
box-score invariant plus the (amended) shot-zone mass bound. -/
def TeamCountersInv (t : TeamState) : Prop :=
  TeamBoxInv t ∧ zoneSum t ≤ t.fga

/-- Equality of everything the counter invariants talk about (all scoring
counters and the shot-zone histogram). -/
def CountersEq (a b : TeamState) : Prop :=
  a.pts = b.pts ∧ a.fgm = b.fgm ∧ a.fga = b.fga ∧ a.tpm = b.tpm ∧ a.tpa = b.tpa ∧
  a.ftm = b.ftm ∧ a.fta = b.fta ∧ a.shot_zones = b.shot_zones

/-- The counter invariant read off a loop-step decision: both carried team
states satisfy the counter invariant. -/
def StepInv (s : StepOut) : Prop :=
  match s with
  | .done _ o d _ _ => TeamCountersInv o ∧ TeamCountersInv d
  | .cont _ _ _ o d _ _ => TeamCountersInv o ∧ TeamCountersInv d

/-! Small concrete instances used to evaluate the theorems on closed inputs. -/

/-- A minimal concrete team with an empty bench state and default tactics. -/
def wTeam (nm : String) : TeamState :=
  { name := nm, lineup := [⟨"p1", "P One", "G", [("SHOT_3_CS", 70)], 0⟩],
    roles := [], tactics := {} }

/-- A concrete start-of-game state for the two minimal teams. -/
def wGs : GameState :=
  { quarter := 1, clock_sec := 720, shot_clock_sec := 24, score_home := 0,
    score_away := 0, possession := 0, team_fouls := [], player_fouls := [],
    fatigue := [], minutes_played_sec := [], on_court_home := ["p1"],
    on_court_away := ["p1"], targets_sec_home := [], targets_sec_away := [] }

/-- A concrete deterministic stream: every uniform draw is 1/2, every Gaussian
draw is 0. -/
def wRng : Rng := ⟨fun _ => 1/2, fun _ => 0, 0, 0⟩

/-- A concrete deterministic stream whose uniform draws are all 0. -/
def wRng0 : Rng := ⟨fun _ => 0, fun _ => 0, 0, 0⟩

/-- The single player fielded by the minimal concrete teams. -/
def wP : Player := ⟨"p1", "P One", "G", [("SHOT_3_CS", 70)], 0⟩

/-- A concrete stream whose Gaussian draws are all 1. -/
def wRngG : Rng := ⟨fun _ => 0, fun _ => 1, 0, 0⟩

/-- The start-of-game state with the lone on-court player already at six
personal fouls. -/
def wGs8 : GameState := { wGs with player_fouls := [("p1", 6)] }

/-- An era with a tiny but positive logit noise std, small enough to trip the
1e-9 guard of the noise block. -/
def era5 : EraTables := { variance_params := { logit_noise_std := 1/10000000000 } }

/-- An era whose logistic parameters configure only a scale (no per-kind
sensitivity), exercising the 1/scale fallback. -/
def eraScale : EraTables := { logistic_params := [("default", [("scale", 20)])] }

end MatchEngine

namespace MatchEngine

/-! Basic lemmas. -/

lemma le_clamp {α : Type} [LinearOrder α] {x lo hi : α} (h : lo ≤ hi) :
    lo ≤ clamp x lo hi := by
  unfold clamp
  split
  · exact le_refl lo
  · split
    · exact h
    · exact le_of_not_lt (by assumption)

lemma clamp_le {α : Type} [LinearOrder α] {x lo hi : α} (h : lo ≤ hi) :
    clamp x lo hi ≤ hi := by
  unfold clamp
  split
  · exact h
  · split
    · exact le_refl hi
    · exact le_of_not_lt (by assumption)

lemma clamp_eq_of_mem {α : Type} [LinearOrder α] {x lo hi : α}
    (h1 : lo ≤ x) (h2 : x ≤ hi) : clamp x lo hi = x := by
  unfold clamp
  rw [if_neg (not_lt.mpr h1), if_neg (not_lt.mpr h2)]

/-- The two return paths of prob_from_scores are a clamp into
[prob_min, prob_max]. -/
lemma prob_from_scores_mem (era : EraTables) (rng : Option Rng)
    (base_p off_score def_score : ℚ) (kind : String) (variance_mult : ℚ)
    (logit_delta fatigue_logit_delta : ℚ)
    (h : era.prob_model.prob_min ≤ era.prob_model.prob_max) :
    (era.prob_model.prob_min : ℝ) ≤
      (prob_from_scores era rng base_p off_score def_score kind variance_mult
        logit_delta fatigue_logit_delta).1 ∧
    (prob_from_scores era rng base_p off_score def_score kind variance_mult
        logit_delta fatigue_logit_delta).1 ≤ (era.prob_model.prob_max : ℝ) := by
  have hc : (era.prob_model.prob_min : ℝ) ≤ (era.prob_model.prob_max : ℝ) := by
    exact_mod_cast h
  constructor
  · exact le_clamp hc
  · exact clamp_le hc

/-- A string matching a nonempty prefix starts with that prefix head. -/
lemma data_head_of_startsWith {o : String} {c : Char} {cs : List Char}
    (hpre : List.isPrefixOf (c :: cs) o.data = true) : ∃ t, o.data = c :: t := by
  obtain ⟨l⟩ := o
  cases l with
  | nil => simp [List.isPrefixOf] at hpre
  | cons d ds =>
      have h2 : ((c == d) && List.isPrefixOf cs ds) = true := hpre
      have := (Bool.and_eq_true _ _).mp h2
      exact ⟨ds, by rw [beq_iff_eq.mp this.1]⟩

/-- A string whose head differs from the head of a pattern does not start with
that pattern. -/
lemma not_startsWith_of_head_ne {t cs : List Char} {c d : Char}
    (hne : d ≠ c) : List.isPrefixOf (d :: cs) (c :: t) = false := by
  show ((d == c) && _) = false
  have : (d == c) = false := beq_eq_false_iff_ne.mpr hne
  rw [this, Bool.false_and]

/-- Prefix disjointness: a PASS_ outcome is not a SHOT_ outcome. -/
lemma is_pass_not_shot {o : String} (h : is_pass o = true) : is_shot o = false := by
  obtain ⟨t, ht⟩ := @data_head_of_startsWith o 'P' ['A', 'S', 'S', '_'] h
  unfold is_shot pyStartsWith
  rw [ht]
  exact not_startsWith_of_head_ne (by decide)

/-- Prefix disjointness: a TO_ outcome is not a SHOT_ outcome. -/
lemma is_to_not_shot {o : String} (h : is_to o = true) : is_shot o = false := by
  obtain ⟨t, ht⟩ := @data_head_of_startsWith o 'T' ['O', '_'] h
  unfold is_shot pyStartsWith
  rw [ht]
  exact not_startsWith_of_head_ne (by decide)

/-- Prefix disjointness: a TO_ outcome is not a PASS_ outcome. -/
lemma is_to_not_pass {o : String} (h : is_to o = true) : is_pass o = false := by
  obtain ⟨t, ht⟩ := @data_head_of_startsWith o 'T' ['O', '_'] h
  unfold is_pass pyStartsWith
  rw [ht]
  exact not_startsWith_of_head_ne (by decide)

/-- Prefix disjointness: a FOUL_ outcome is not a SHOT_ outcome. -/
lemma is_foul_not_shot {o : String} (h : is_foul o = true) : is_shot o = false := by
  obtain ⟨t, ht⟩ := @data_head_of_startsWith o 'F' ['O', 'U', 'L', '_'] h
  unfold is_shot pyStartsWith
  rw [ht]
  exact not_startsWith_of_head_ne (by decide)

/-- Prefix disjointness: a FOUL_ outcome is not a PASS_ outcome. -/
lemma is_foul_not_pass {o : String} (h : is_foul o = true) : is_pass o = false := by
  obtain ⟨t, ht⟩ := @data_head_of_startsWith o 'F' ['O', 'U', 'L', '_'] h
  unfold is_pass pyStartsWith
  rw [ht]
  exact not_startsWith_of_head_ne (by decide)

/-- Prefix disjointness: a FOUL_ outcome is not a TO_ outcome. -/
lemma is_foul_not_to {o : String} (h : is_foul o = true) : is_to o = false := by
  obtain ⟨t, ht⟩ := @data_head_of_startsWith o 'F' ['O', 'U', 'L', '_'] h
  unfold is_to pyStartsWith
  rw [ht]
  exact not_startsWith_of_head_ne (by decide)

/-- A PASS_ outcome is not the TO_SHOTCLOCK literal. -/
lemma is_pass_ne_shotclock {o : String} (h : is_pass o = true) : o ≠ "TO_SHOTCLOCK" := by
  obtain ⟨t, ht⟩ := @data_head_of_startsWith o 'P' ['A', 'S', 'S', '_'] h
  intro he
  rw [he] at ht
  exact absurd (List.head_eq_of_cons_eq ht) (by decide)

/-- A SHOT_ outcome is not the TO_SHOTCLOCK literal. -/
lemma is_shot_ne_shotclock {o : String} (h : is_shot o = true) : o ≠ "TO_SHOTCLOCK" := by
  obtain ⟨t, ht⟩ := @data_head_of_startsWith o 'S' ['H', 'O', 'T', '_'] h
  intro he
  rw [he] at ht
  exact absurd (List.head_eq_of_cons_eq ht) (by decide)

/-- A FOUL_ outcome is not the TO_SHOTCLOCK literal. -/
lemma is_foul_ne_shotclock {o : String} (h : is_foul o = true) : o ≠ "TO_SHOTCLOCK" := by
  obtain ⟨t, ht⟩ := @data_head_of_startsWith o 'F' ['O', 'U', 'L', '_'] h
  intro he
  rw [he] at ht
  exact absurd (List.head_eq_of_cons_eq ht) (by decide)

/-! Ordered-dict lemmas. -/

lemma lookup_cons_self {v : Type} (k : String) (v0 : v) (rest : List (String × v)) :
    List.lookup k ((k, v0) :: rest) = some v0 := by
  simp [List.lookup]

lemma lookup_cons_ne {v : Type} {k k0 : String} (h : k ≠ k0) (v0 : v)
    (rest : List (String × v)) :
    List.lookup k ((k0, v0) :: rest) = List.lookup k rest := by
  simp [List.lookup, beq_false_of_ne h]

lemma dictGet_set_same {v : Type} (d : List (String × v)) (k : String) (x dflt : v) :
    dictGet (dictSet d k x) k dflt = x := by
  induction d with
  | nil => simp [dictSet, dictGet, List.lookup]
  | cons kv rest ih =>
      obtain ⟨k0, v0⟩ := kv
      by_cases h : k0 = k
      · subst h
        simp [dictSet, dictGet, lookup_cons_self]
      · simp only [dictSet, if_neg h]
        unfold dictGet
        rw [lookup_cons_ne (Ne.symm h)]
        exact ih

lemma dictGet_set_other {v : Type} (d : List (String × v)) {k k2 : String}
    (hne : k2 ≠ k) (x dflt : v) :
    dictGet (dictSet d k x) k2 dflt = dictGet d k2 dflt := by
  induction d with
  | nil =>
      simp [dictSet, dictGet, List.lookup, beq_false_of_ne hne]
  | cons kv rest ih =>
      obtain ⟨k0, v0⟩ := kv
      by_cases h : k0 = k
      · subst h
        have hset : dictSet ((k0, v0) :: rest) k0 x = (k0, x) :: rest := by simp [dictSet]
        unfold dictGet
        rw [hset, lookup_cons_ne hne, lookup_cons_ne hne]
      · simp only [dictSet, if_neg h]
        by_cases h2 : k2 = k0
        · subst h2
          unfold dictGet
          rw [lookup_cons_self, lookup_cons_self]
        · unfold dictGet
          rw [lookup_cons_ne h2, lookup_cons_ne h2]
          exact ih

lemma dictSet_ne_nil {v : Type} (d : List (String × v)) (k : String) (x : v) :
    dictSet d k x ≠ [] := by
  cases d with
  | nil => simp [dictSet]
  | cons kv rest =>
      obtain ⟨k0, v0⟩ := kv
      by_cases h : k0 = k <;> simp [dictSet, h]

lemma length_dictSet_ge {v : Type} (d : List (String × v)) (k : String) (x : v) :
    d.length ≤ (dictSet d k x).length := by
  induction d with
  | nil => simp [dictSet]
  | cons kv rest ih =>
      obtain ⟨k0, v0⟩ := kv
      by_cases h : k0 = k <;> simp [dictSet, h]
      omega

/-! Sum helpers. -/

lemma sum_map_const_val {β : Type} {α : Type} [AddCommMonoid α] (l : List β) (c : α) :
    (l.map (fun _ => c)).sum = l.length • c := by
  induction l with
  | nil => simp
  | cons a t ih =>
      simp [ih, succ_nsmul]
      exact add_comm c (t.length • c)

lemma sum_map_div {β : Type} {α : Type} [DivisionRing α] (l : List β) (f : β → α) (s : α) :
    (l.map (fun x => f x / s)).sum = (l.map f).sum / s := by
  induction l with
  | nil => simp
  | cons a t ih => simp [ih, add_div]

lemma dictValsSum_map_snd {α : Type} [AddCommMonoid α] {β : Type}
    (d : List (String × β)) (f : String × β → α) :
    dictValsSum (d.map (fun kv => (kv.1, f kv))) = (d.map f).sum := by
  unfold dictValsSum
  rw [List.map_map]
  rfl

/-! Lemmas about the weighted-choice scan. -/

lemma wcScan_some_pos {α : Type} [LinearOrderedField α] {r : α} {k : String} :
    ∀ (d : List (String × α)) (acc : α), acc < r → wcScan r acc d = some k →
      ∃ kv ∈ d, kv.1 = k ∧ 0 < kv.2
  | [], _, _, h => by simp [wcScan] at h
  | kv :: rest, acc, hacc, h => by
      by_cases hc : r ≤ acc + max kv.2 0
      · have hk : kv.1 = k := by
          simp [wcScan, if_pos hc] at h
          exact h
        refine ⟨kv, List.mem_cons_self _ _, hk, ?_⟩
        have hmax : 0 < max kv.2 0 := by
          by_contra hle
          push_neg at hle
          have : max kv.2 0 = 0 := le_antisymm hle (le_max_right _ _)
          rw [this, add_zero] at hc
          exact absurd hc (not_le.mpr hacc)
        rcases lt_max_iff.mp hmax with h1 | h1
        · exact h1
        · exact absurd h1 (lt_irrefl 0)
      · have h2 : wcScan r (acc + max kv.2 0) rest = some k := by
          simpa [wcScan, if_neg hc] using h
        obtain ⟨kv2, hmem, hk, hpos⟩ := wcScan_some_pos rest (acc + max kv.2 0)
          (not_le.mp hc) h2
        exact ⟨kv2, List.mem_cons_of_mem _ hmem, hk, hpos⟩

lemma wcScan_isSome {α : Type} [LinearOrderedField α] {r : α} :
    ∀ (d : List (String × α)) (acc : α), acc < r →
      r ≤ acc + (d.map (fun kv => max kv.2 0)).sum → (wcScan r acc d).isSome
  | [], acc, hlt, h => by
      simp only [List.map_nil, List.sum_nil, add_zero] at h
      exact absurd h (not_le.mpr hlt)
  | kv :: rest, acc, hlt, h => by
      by_cases hc : r ≤ acc + max kv.2 0
      · simp [wcScan, if_pos hc]
      · have h2 : r ≤ (acc + max kv.2 0) + (rest.map (fun kv => max kv.2 0)).sum := by
          simp only [List.map_cons, List.sum_cons] at h
          linarith
        simpa [wcScan, if_neg hc] using wcScan_isSome rest (acc + max kv.2 0)
          (not_le.mp hc) h2

/-- normalize_weights of a nonempty map always sums to 1. -/
lemma normalize_weights_sum_one {α : Type} [LinearOrderedField α]
    (d : List (String × α)) (hd : d ≠ []) :
    dictValsSum (normalize_weights d) = 1 := by
  unfold normalize_weights
  by_cases hs : (d.map (fun kv => max kv.2 0)).sum ≤ eps12
  · rw [if_pos hs, if_neg hd, dictValsSum_map_snd]
    have hlen : d.length ≠ 0 := fun h => hd (List.length_eq_zero.mp h)
    rw [sum_map_const_val, nsmul_eq_mul]
    field_simp
  · rw [if_neg hs, dictValsSum_map_snd]
    have hpos : (0 : α) < (d.map (fun kv => max kv.2 0)).sum := by
      have : (0 : α) < eps12 := by unfold eps12; norm_num
      linarith [not_le.mp hs]
    rw [sum_map_div]
    exact div_self (ne_of_gt hpos)

/-- The returned key of weighted_choice has positive weight whenever the
uniform draw is strictly between 0 and 1 and the clipped total exceeds the
guard. -/
lemma weighted_choice_pos_weight {α : Type} [LinearOrderedField α]
    (rng : Rng) (d : List (String × α))
    (ht : eps12 < (d.map (fun kv => max kv.2 0)).sum)
    (hu0 : 0 < rng.u rng.iu) (hu1 : rng.u rng.iu < 1) :
    ∃ kv ∈ d, kv.1 = (weighted_choice rng d).1 ∧ 0 < kv.2 := by
  have heps : (0 : α) < eps12 := by unfold eps12; norm_num
  have htot : (0 : α) < (d.map (fun kv => max kv.2 0)).sum := lt_trans heps ht
  set total := (d.map (fun kv => max kv.2 0)).sum with htotal
  set r := ((rng.u rng.iu : α)) * total with hr
  have hr0 : 0 < r := by
    apply mul_pos _ htot
    exact_mod_cast hu0
  have hrt : r ≤ 0 + total := by
    rw [zero_add]
    calc r = (rng.u rng.iu : α) * total := hr
    _ ≤ 1 * total := by
        apply mul_le_mul_of_nonneg_right _ (le_of_lt htot)
        exact_mod_cast le_of_lt hu1
    _ = total := one_mul total
  have hsome := @wcScan_isSome _ _ r d 0 hr0 hrt
  obtain ⟨k, hk⟩ := Option.isSome_iff_exists.mp hsome
  have hmem := @wcScan_some_pos _ _ r k d 0 hr0 hk
  have hres : (weighted_choice rng d).1 = k := by
    unfold weighted_choice
    rw [if_neg (not_le.mpr ht)]
    simp only [Rng.random]
    rw [← htotal, ← hr, hk]
  rw [hres]
  exact hmem

/-- A fold invariant for foldl. -/
lemma foldl_invariant {β γ : Type} (P : γ → Prop) (f : γ → β → γ)
    (h : ∀ c b, P c → P (f c b)) : ∀ (l : List β) (c : γ), P c → P (l.foldl f c)
  | [], _, hc => hc
  | b :: l, c, hc => foldl_invariant P f h l (f c b) (h c b hc)

/-- The role-fit distortion never shrinks the prior map. -/
lemma roleFitDistort_length (priors : List (String × ℚ)) (grade : String) (strength : ℚ) :
    priors.length ≤ (roleFitDistort priors grade strength).1.length := by
  unfold roleFitDistort
  refine foldl_invariant
    (fun (acc : List (String × ℚ) × List ℚ) => priors.length ≤ acc.1.length) _ ?_ priors
    (priors, []) (le_refl _)
  intro c b hc
  dsimp only
  split
  · exact hc
  · split
    · exact hc
    · exact le_trans hc (length_dictSet_ge _ _ _)

/-- The role-fit distortion of a nonempty prior map is nonempty. -/
lemma roleFitDistort_ne_nil (priors : List (String × ℚ)) (grade : String) (strength : ℚ)
    (h : priors ≠ []) : (roleFitDistort priors grade strength).1 ≠ [] := by
  intro he
  have h1 := roleFitDistort_length priors grade strength
  rw [he] at h1
  simp at h1
  exact h h1

/-- normalize_weights output is empty or sums to 1. -/
lemma normalize_weights_cases {α : Type} [LinearOrderedField α] (L : List (String × α)) :
    normalize_weights L = [] ∨ dictValsSum (normalize_weights L) = 1 := by
  by_cases h : L = []
  · subst h
    left
    simp [normalize_weights, eps12]
  · exact Or.inr (normalize_weights_sum_one L h)

/-- The outcome priors handed to the sampler are empty or sum to 1. -/
lemma build_outcome_priors_sum (era : EraTables) (action : String)
    (off_tac def_tac : TacticsConfig) (tags : Tags) :
    build_outcome_priors era action off_tac def_tac tags = [] ∨
    dictValsSum (build_outcome_priors era action off_tac def_tac tags) = 1 := by
  unfold build_outcome_priors
  exact normalize_weights_cases _

/-- The offense action distribution handed to the sampler is empty or sums
to 1. -/
lemma build_offense_action_probs_sum (era : EraTables) (off_tac : TacticsConfig)
    (def_tac : Option TacticsConfig) :
    build_offense_action_probs era off_tac def_tac = [] ∨
    dictValsSum (build_offense_action_probs era off_tac def_tac) = 1 := by
  unfold build_offense_action_probs
  exact normalize_weights_cases _

/-- The defense action distribution handed to the sampler is empty or sums
to 1. -/
lemma build_defense_action_probs_sum (era : EraTables) (tac : TacticsConfig) :
    build_defense_action_probs era tac = [] ∨
    dictValsSum (build_defense_action_probs era tac) = 1 := by
  unfold build_defense_action_probs
  exact normalize_weights_cases _

/-- Role-fit application keeps the sampled priors normalized. -/
lemma apply_role_fit_sum (era : EraTables) (pri : List (String × ℚ)) (fam : String)
    (off : TeamState) (tags : Tags) (hne : pri ≠ []) (hsum : dictValsSum pri = 1) :
    dictValsSum (apply_role_fit_to_priors_and_tags era pri fam off tags).1 = 1 := by
  unfold apply_role_fit_to_priors_and_tags
  dsimp only
  split
  · exact normalize_weights_sum_one _ (roleFitDistort_ne_nil _ _ _ hne)
  · exact hsum

/-! Field-preservation lemmas for the resolution blocks. -/

/-- The role-fit bad-outcome logging only touches the role-fit diagnostic
fields. -/
lemma roleFitBadLog_fields (t : TeamState) (o : String) (tg : Tags) :
    (roleFitBadLog t o tg).tov = t.tov ∧
    (roleFitBadLog t o tg).player_stats = t.player_stats ∧
    (roleFitBadLog t o tg).pts = t.pts ∧
    (roleFitBadLog t o tg).fgm = t.fgm ∧
    (roleFitBadLog t o tg).fga = t.fga ∧
    (roleFitBadLog t o tg).tpm = t.tpm ∧
    (roleFitBadLog t o tg).tpa = t.tpa ∧
    (roleFitBadLog t o tg).ftm = t.ftm ∧
    (roleFitBadLog t o tg).fta = t.fta ∧
    (roleFitBadLog t o tg).shot_zones = t.shot_zones ∧
    (roleFitBadLog t o tg).lineup = t.lineup ∧
    (roleFitBadLog t o tg).outcome_counts = t.outcome_counts := by
  unfold roleFitBadLog
  split_ifs <;> simp

/-- The pass block returns CONTINUE or RESET and passes offense, defense and
game state through untouched. -/
lemma resolvePassBranch_spec (era : EraTables) (tun : Tunables) (rng1 : Rng)
    (outcome : String) (off3 def1 : TeamState) (gs : GameState) (pass_chain : ℕ)
    (off_score def_score variance_mult role_delta : ℚ) :
    let r := resolvePassBranch era tun rng1 outcome off3 def1 gs pass_chain
      off_score def_score variance_mult role_delta
    (r.term = "CONTINUE" ∨ r.term = "RESET") ∧
    r.offense = off3 ∧ r.defense = def1 ∧ r.gs = gs := by
  unfold resolvePassBranch
  dsimp only
  split
  · exact ⟨Or.inl rfl, rfl, rfl, rfl⟩
  · exact ⟨Or.inr rfl, rfl, rfl, rfl⟩

/-- The shot block returns SCORE or MISS. -/
lemma resolveShotBranch_term (era : EraTables) (tun : Tunables) (rng1 : Rng)
    (outcome : String) (off3 def1 : TeamState) (gs : GameState) (actor : Player)
    (off_score def_score variance_mult role_delta fatigue_delta : ℚ) :
    (resolveShotBranch era tun rng1 outcome off3 def1 gs actor off_score def_score
      variance_mult role_delta fatigue_delta).term = "SCORE" ∨
    (resolveShotBranch era tun rng1 outcome off3 def1 gs actor off_score def_score
      variance_mult role_delta fatigue_delta).term = "MISS" := by
  unfold resolveShotBranch
  dsimp only
  split
  · exact Or.inl rfl
  · exact Or.inr rfl

/-- The foul block returns FOUL. -/
lemma resolveFoulBranch_term (era : EraTables) (tun : Tunables) (rng1 : Rng)
    (outcome : String) (off3 def1 : TeamState) (gs : GameState) (ctx : Ctx)
    (actor : Player) (off_score def_score variance_mult role_delta fatigue_delta : ℚ) :
    (resolveFoulBranch era tun rng1 outcome off3 def1 gs ctx actor off_score def_score
      variance_mult role_delta fatigue_delta).term = "FOUL" := rfl

/-- The shot block never returns TURNOVER. -/
lemma resolveShotBranch_ne_turnover (era : EraTables) (tun : Tunables) (rng1 : Rng)
    (outcome : String) (off3 def1 : TeamState) (gs : GameState) (actor : Player)
    (off_score def_score variance_mult role_delta fatigue_delta : ℚ) :
    (resolveShotBranch era tun rng1 outcome off3 def1 gs actor off_score def_score
      variance_mult role_delta fatigue_delta).term ≠ "TURNOVER" := by
  rcases resolveShotBranch_term era tun rng1 outcome off3 def1 gs actor off_score
    def_score variance_mult role_delta fatigue_delta with h | h <;> rw [h] <;> decide

/-- The pass block never returns TURNOVER. -/
lemma resolvePassBranch_ne_turnover (era : EraTables) (tun : Tunables) (rng1 : Rng)
    (outcome : String) (off3 def1 : TeamState) (gs : GameState) (pass_chain : ℕ)
    (off_score def_score variance_mult role_delta : ℚ) :
    (resolvePassBranch era tun rng1 outcome off3 def1 gs pass_chain off_score def_score
      variance_mult role_delta).term ≠ "TURNOVER" := by
  rcases (resolvePassBranch_spec era tun rng1 outcome off3 def1 gs pass_chain off_score
    def_score variance_mult role_delta).1 with h | h <;> rw [h] <;> decide

/-- The foul block never returns TURNOVER. -/
lemma resolveFoulBranch_ne_turnover (era : EraTables) (tun : Tunables) (rng1 : Rng)
    (outcome : String) (off3 def1 : TeamState) (gs : GameState) (ctx : Ctx)
    (actor : Player) (off_score def_score variance_mult role_delta fatigue_delta : ℚ) :
    (resolveFoulBranch era tun rng1 outcome off3 def1 gs ctx actor off_score def_score
      variance_mult role_delta fatigue_delta).term ≠ "TURNOVER" := by
  rw [resolveFoulBranch_term]
  decide

/-- The pass block leaves the offense turnover counter where it was. -/
lemma resolvePassBranch_tov (era : EraTables) (tun : Tunables) (rng1 : Rng)
    (outcome : String) (off3 def1 : TeamState) (gs : GameState) (pass_chain : ℕ)
    (off_score def_score variance_mult role_delta : ℚ) :
    (resolvePassBranch era tun rng1 outcome off3 def1 gs pass_chain off_score def_score
      variance_mult role_delta).offense.tov = off3.tov := by
  rw [(resolvePassBranch_spec era tun rng1 outcome off3 def1 gs pass_chain off_score
    def_score variance_mult role_delta).2.1]

/-- The pass block leaves the per-player boxes where they were. -/
lemma resolvePassBranch_player_stats (era : EraTables) (tun : Tunables) (rng1 : Rng)
    (outcome : String) (off3 def1 : TeamState) (gs : GameState) (pass_chain : ℕ)
    (off_score def_score variance_mult role_delta : ℚ) :
    (resolvePassBranch era tun rng1 outcome off3 def1 gs pass_chain off_score def_score
      variance_mult role_delta).offense.player_stats = off3.player_stats := by
  rw [(resolvePassBranch_spec era tun rng1 outcome off3 def1 gs pass_chain off_score
    def_score variance_mult role_delta).2.1]

/-- Dispatcher fact for PASS_* outcomes: resolve_outcome routes them to the
pass block, so the call returns CONTINUE or RESET and leaves the team turnover
counter and the per-player boxes untouched. -/
lemma resolve_outcome_pass_spec (era : EraTables) (tun : Tunables) (rng : Rng)
    (outcome action : String) (offense defense : TeamState) (tags : Tags)
    (pass_chain : ℕ) (ctx : Ctx) (gs : GameState) (h : is_pass outcome = true) :
    ((resolve_outcome era tun rng outcome action offense defense tags pass_chain ctx
        gs).term = "CONTINUE" ∨
      (resolve_outcome era tun rng outcome action offense defense tags pass_chain ctx
        gs).term = "RESET") ∧
    (resolve_outcome era tun rng outcome action offense defense tags pass_chain ctx
      gs).offense.tov = offense.tov ∧
    (resolve_outcome era tun rng outcome action offense defense tags pass_chain ctx
      gs).offense.player_stats = offense.player_stats := by
  have hne := is_pass_ne_shotclock h
  have hns := is_pass_not_shot h
  simp only [resolve_outcome, hne, if_false]
  cases hfind : dictFind OUTCOME_PROFILES outcome with
  | none =>
      refine ⟨Or.inr rfl, ?_, ?_⟩
      · exact (roleFitBadLog_fields _ _ _).1
      · exact (roleFitBadLog_fields _ _ _).2.1
  | some prof =>
      simp only [hns, h, Bool.false_eq_true, if_false, if_true]
      refine ⟨(resolvePassBranch_spec _ _ _ _ _ _ _ _ _ _ _ _).1, ?_, ?_⟩
      · exact Eq.trans (resolvePassBranch_tov _ _ _ _ _ _ _ _ _ _ _ _)
          ((roleFitBadLog_fields _ _ _).1)
      · exact Eq.trans (resolvePassBranch_player_stats _ _ _ _ _ _ _ _ _ _ _ _)
          ((roleFitBadLog_fields _ _ _).2.1)

/-- Dispatcher fact: a FOUL_* outcome with a configured profile is routed to
the foul block, so the call terminates the possession with FOUL. -/
lemma resolve_outcome_foul_term (era : EraTables) (tun : Tunables) (rng : Rng)
    (outcome action : String) (offense defense : TeamState) (tags : Tags)
    (pass_chain : ℕ) (ctx : Ctx) (gs : GameState) (prof : OutcomeProfile)
    (h : is_foul outcome = true)
    (hfind : dictFind OUTCOME_PROFILES outcome = some prof) :
    (resolve_outcome era tun rng outcome action offense defense tags pass_chain ctx
      gs).term = "FOUL" := by
  have hne := is_foul_ne_shotclock h
  have hns := is_foul_not_shot h
  have hnp := is_foul_not_pass h
  have hnt := is_foul_not_to h
  simp only [resolve_outcome, hne, if_false]
  simp only [hfind]
  simp only [hns, hnp, hnt, h, Bool.false_eq_true, if_false, if_true]
  exact resolveFoulBranch_term _ _ _ _ _ _ _ _ _ _ _ _ _ _

/-- Dispatcher fact: unless the sampled outcome is a TO_* outcome (which
includes the injected TO_SHOTCLOCK), resolve_outcome never returns TURNOVER. -/
lemma resolve_outcome_no_to (era : EraTables) (tun : Tunables) (rng : Rng)
    (outcome action : String) (offense defense : TeamState) (tags : Tags)
    (pass_chain : ℕ) (ctx : Ctx) (gs : GameState) (hto : is_to outcome = false) :
    (resolve_outcome era tun rng outcome action offense defense tags pass_chain ctx
      gs).term ≠ "TURNOVER" := by
  have hne : outcome ≠ "TO_SHOTCLOCK" := by
    intro he
    rw [he] at hto
    exact absurd hto (by decide)
  simp only [resolve_outcome, hne, if_false]
  cases hfind : dictFind OUTCOME_PROFILES outcome with
  | none => exact (by decide : ("RESET" : String) ≠ "TURNOVER")
  | some prof =>
      by_cases hs : is_shot outcome
      · simp only [hs, if_true]
        exact resolveShotBranch_ne_turnover _ _ _ _ _ _ _ _ _ _ _ _ _
      · simp only [hs, Bool.false_eq_true, if_false]
        by_cases hp : is_pass outcome
        · simp only [hp, if_true]
          exact resolvePassBranch_ne_turnover _ _ _ _ _ _ _ _ _ _ _ _
        · simp only [hp, Bool.false_eq_true, if_false, hto]
          by_cases hf : is_foul outcome
          · simp only [hf, if_true]
            exact resolveFoulBranch_ne_turnover _ _ _ _ _ _ _ _ _ _ _ _ _ _
          · simp only [hf, Bool.false_eq_true, if_false]
            exact (by decide : ("RESET" : String) ≠ "TURNOVER")

/-- List.getD produces a member of the list or the default. -/
lemma getD_mem_or_default {α : Type} (xs : List α) (i : ℕ) (dflt : α) :
    xs.getD i dflt ∈ xs ∨ xs.getD i dflt = dflt := by
  by_cases h : i < xs.length
  · left
    rw [List.getD_eq_getElem xs dflt h]
    exact xs.getElem_mem h
  · right
    rw [List.getD_eq_default xs dflt (Nat.le_of_not_lt h)]

/-- Free-throw resolution attempts exactly n free throws. -/
lemma resolve_free_throws_fta (era : EraTables) (shooter : Player) :
    ∀ (n : ℕ) (rng : Rng) (team : TeamState),
      (resolve_free_throws era rng shooter n team).1.fta = team.fta + n := by
  intro n
  induction n with
  | zero => intro rng team; rfl
  | succ m ih =>
      intro rng team
      rw [resolve_free_throws]
      dsimp only
      split_ifs
      · rw [ih]
        show team.fta + 1 + m = team.fta + (m + 1)
        omega
      · rw [ih]
        show team.fta + 1 + m = team.fta + (m + 1)
        omega

/-- A single free throw books one FTA and converts (one FTM and one point)
exactly when the next uniform draw is below
clamp(ft_base + SHOT_FT/100·ft_range, ft_min, ft_max). -/
lemma resolve_free_throw_one (era : EraTables) (actor : Player) (rng0 : Rng)
    (team0 : TeamState) :
    (resolve_free_throws era rng0 actor 1 team0).1.fta = team0.fta + 1 ∧
    (resolve_free_throws era rng0 actor 1 team0).1.ftm = team0.ftm +
      (if rng0.u rng0.iu < clamp (era.prob_model.ft_base +
          actor.get "SHOT_FT" true / 100 * era.prob_model.ft_range)
          era.prob_model.ft_min era.prob_model.ft_max then 1 else 0) ∧
    (resolve_free_throws era rng0 actor 1 team0).1.pts = team0.pts +
      (if rng0.u rng0.iu < clamp (era.prob_model.ft_base +
          actor.get "SHOT_FT" true / 100 * era.prob_model.ft_range)
          era.prob_model.ft_min era.prob_model.ft_max then 1 else 0) := by
  rw [show (1 : ℕ) = 0 + 1 from rfl]
  rw [resolve_free_throws]
  dsimp only [Rng.random]
  split_ifs <;> exact ⟨rfl, rfl, rfl⟩

/-- The rng threaded out of prob_from_scores keeps the uniform stream and its
position, so the next uniform draw after the probability kernel is the same
as the caller would draw. -/
lemma prob_from_scores_getD_u (era : EraTables) (r : Rng) (bp os ds : ℚ)
    (k : String) (vm rd fd : ℚ) :
    ((prob_from_scores era (some r) bp os ds k vm rd fd).2.getD r).random.1 = r.u r.iu := by
  unfold prob_from_scores noiseTerm
  dsimp only
  split_ifs <;> rfl

set_option maxHeartbeats 1000000 in
/-- The foul block charges exactly one team foul to the defense. -/
lemma foulBranch_team_foul (era : EraTables) (tun : Tunables) (rng1 : Rng)
    (outcome : String) (off3 def1 : TeamState) (gs : GameState) (ctx : Ctx)
    (actor : Player) (os ds vm rd fd : ℚ) :
    dictGet (resolveFoulBranch era tun rng1 outcome off3 def1 gs ctx actor os ds vm rd
      fd).gs.team_fouls def1.name 0 = dictGet gs.team_fouls def1.name 0 + 1 := by
  unfold resolveFoulBranch
  dsimp only
  split_ifs <;> dsimp only <;>
    first
    | exact dictGet_set_same _ _ _ _
    | (split_ifs <;> exact dictGet_set_same _ _ _ _)

set_option maxHeartbeats 1000000 in
/-- The foul block charges exactly one personal foul to the chosen fouler, and
the fouler is drawn from the defense on-court list (or is the empty-string
fallback of an out-of-range draw). -/
lemma foulBranch_personal_foul (era : EraTables) (tun : Tunables) (rng1 : Rng)
    (outcome : String) (off3 def1 : TeamState) (gs : GameState) (ctx : Ctx)
    (actor : Player) (os ds vm rd fd : ℚ) :
    ∀ fp, (resolveFoulBranch era tun rng1 outcome off3 def1 gs ctx actor os ds vm rd
        fd).payload.fouler = some fp →
      dictGet (resolveFoulBranch era tun rng1 outcome off3 def1 gs ctx actor os ds vm rd
        fd).gs.player_fouls fp 0 = dictGet gs.player_fouls fp 0 + 1 ∧
      (fp ∈ (if (ctx.def_on_court.getD []) = [] then def1.lineup.map (fun p => p.pid)
        else ctx.def_on_court.getD []) ∨ fp = "") := by
  intro fp hfp
  unfold resolveFoulBranch at hfp ⊢
  dsimp only at hfp ⊢
  split_ifs at hfp ⊢ <;> dsimp only at hfp ⊢ <;>
    first
    | exact Option.noConfusion hfp
    | (injection hfp with h
       subst h
       refine ⟨?_, getD_mem_or_default _ _ _⟩
       first
       | exact dictGet_set_same _ _ _ _
       | (split_ifs <;> exact dictGet_set_same _ _ _ _))

set_option maxHeartbeats 1000000 in
/-- The foul block always reports the and-one flag, and the attempted free
throws are 3 for FOUL_DRAW_JUMPER and 2 otherwise, plus one more on an
and-one; the team FTA counter moves by exactly that number. -/
lemma foulBranch_fts (era : EraTables) (tun : Tunables) (rng1 : Rng)
    (outcome : String) (off3 def1 : TeamState) (gs : GameState) (ctx : Ctx)
    (actor : Player) (os ds vm rd fd : ℚ) :
    ∃ a : Bool,
      (resolveFoulBranch era tun rng1 outcome off3 def1 gs ctx actor os ds vm rd
        fd).payload.and_one = some a ∧
      (resolveFoulBranch era tun rng1 outcome off3 def1 gs ctx actor os ds vm rd
        fd).payload.fts = some ((if outcome = "FOUL_DRAW_JUMPER" then 3 else 2) +
          (if a then 1 else 0)) ∧
      (resolveFoulBranch era tun rng1 outcome off3 def1 gs ctx actor os ds vm rd
        fd).offense.fta = off3.fta + ((if outcome = "FOUL_DRAW_JUMPER" then 3 else 2) +
          (if a then 1 else 0)) := by
  unfold resolveFoulBranch
  dsimp only
  refine ⟨_, rfl, rfl, ?_⟩
  refine Eq.trans (resolve_free_throws_fta _ _ _ _ _) ?_
  split_ifs <;> rfl

set_option maxHeartbeats 1000000 in
/-- If the fouler's personal-foul count has reached the foul-out limit, the
foul block wipes that player's freshness to 0. -/
lemma foulBranch_foul_out (era : EraTables) (tun : Tunables) (rng1 : Rng)
    (outcome : String) (off3 def1 : TeamState) (gs : GameState) (ctx : Ctx)
    (actor : Player) (os ds vm rd fd : ℚ) :
    ∀ fp, (resolveFoulBranch era tun rng1 outcome off3 def1 gs ctx actor os ds vm rd
        fd).payload.fouler = some fp →
      ctx.foul_out ≤ dictGet (resolveFoulBranch era tun rng1 outcome off3 def1 gs ctx
        actor os ds vm rd fd).gs.player_fouls fp 0 →
      fp ≠ "" →
      dictGet (resolveFoulBranch era tun rng1 outcome off3 def1 gs ctx actor os ds vm rd
        fd).gs.fatigue fp 0 = 0 := by
  intro fp hfp hlim hne
  unfold resolveFoulBranch at hfp hlim ⊢
  dsimp only at hfp hlim ⊢
  split_ifs at hfp hlim ⊢ <;> dsimp only at hfp hlim ⊢ <;>
    first
    | exact Option.noConfusion hfp
    | (injection hfp with h
       subst h
       split_ifs at hlim ⊢ with hcond <;>
         first
         | exact dictGet_set_same _ _ _ _
         | exact absurd ⟨hlim, hne⟩ hcond)

/-- rng.choice leaves the uniform stream function unchanged. -/
lemma choice_snd_u (r : Rng) (xs : List String) : (r.choice xs).2.u = r.u := rfl

/-- An element strictly above a stays strictly above a after clamping to a
range whose ceiling is above a. -/
lemma lt_clamp_of_lt {α : Type} [LinearOrder α] {a x lo hi : α}
    (h : a < x) (hhi : a < hi) : a < clamp x lo hi := by
  unfold clamp
  split_ifs with h1 h2
  · exact h.trans h1
  · exact hhi
  · exact h

/-- The tiny-noise era trips the 1e-9 guard for rim-shot noise. -/
lemma c5h_std : noiseStd era5 "shot_rim" 1 ≤ eps9 := by
  show (1/10000000000 : ℚ) * (0.95 : ℚ) * clamp (1 : ℚ) 0.70 1.40 ≤ eps9
  unfold clamp eps9
  norm_num

/-- The tiny-noise era still has a strictly positive noise std. -/
lemma c5h_std_pos : 0 < noiseStd era5 "shot_rim" 1 := by
  show (0 : ℚ) < (1/10000000000 : ℚ) * (0.95 : ℚ) * clamp (1 : ℚ) 0.70 1.40
  unfold clamp
  norm_num

/-- The scale-only era exceeds the 1e-9 scale guard. -/
lemma c5h_scale : (eps9 : ℚ) < 20 := by
  unfold eps9
  norm_num

/-- sigmoid at 0 is one half. -/
lemma sigmoid_zero : sigmoid 0 = 1/2 := by
  unfold sigmoid
  rw [if_pos le_rfl, neg_zero, Real.exp_zero]
  norm_num

/-- sigmoid is strictly above one half on positive inputs. -/
lemma half_lt_sigmoid {x : ℝ} (hx : 0 < x) : 1/2 < sigmoid x := by
  unfold sigmoid
  rw [if_pos hx.le]
  have he : Real.exp (-x) < 1 := Real.exp_lt_one_iff.mpr (by linarith)
  have hp : 0 < 1 + Real.exp (-x) := by positivity
  rw [lt_div_iff hp]
  linarith

/-- At the neutral tiny-noise instance the code side of the kernel returns
exactly one half (the noise guard suppresses the draw). -/
lemma c5h_code : (prob_from_scores era5 (some wRngG) (1/2) 0 0 "shot_rim" 1 0 0).1
    = 1/2 := by
  have hnz : (noiseTerm era5 (some wRngG) "shot_rim" 1).1 = 0 := by
    unfold noiseTerm
    dsimp only
    rw [if_neg (not_lt.mpr c5h_std)]
  unfold prob_from_scores
  dsimp only
  rw [hnz]
  have hbp : clamp ((1:ℚ)/2) era5.prob_model.base_p_min era5.prob_model.base_p_max
      = 1/2 := by
    show clamp ((1:ℚ)/2) (0.02 : ℚ) (0.98 : ℚ) = 1/2
    unfold clamp
    norm_num
  rw [hbp]
  have hlog : Real.log ((((1:ℚ)/2 : ℚ) : ℝ) / (1 - (((1:ℚ)/2 : ℚ) : ℝ))) = 0 := by
    push_cast
    norm_num [Real.log_one]
  rw [hlog]
  have hgap : (((0:ℚ) - 0) * probSensitivity era5 "shot_rim") = 0 := by ring
  rw [hgap]
  push_cast
  rw [show (0:ℝ) + 0 + 0 + 0 + 0 = 0 from by ring, sigmoid_zero]
  show clamp ((1:ℝ)/2) ((0.03 : ℚ) : ℝ) ((0.97 : ℚ) : ℝ) = 1/2
  unfold clamp
  rw [if_neg (by push_cast; norm_num), if_neg (by push_cast; norm_num)]

/-- At the same instance the spec-side kernel draws its Gaussian noise and
lands strictly above one half. -/
lemma c5h_spec : 1/2 < prob_from_scores_spec era5 (some wRngG) (1/2) 0 0
    "shot_rim" 1 0 0 := by
  unfold prob_from_scores_spec
  dsimp only
  refine lt_clamp_of_lt ?_ (by norm_num)
  refine half_lt_sigmoid ?_
  have hbp : clamp ((1:ℚ)/2) (0.02 : ℚ) (0.98 : ℚ) = 1/2 := by
    unfold clamp
    norm_num
  rw [hbp]
  have hlog : Real.log ((((1:ℚ)/2 : ℚ) : ℝ) / (1 - (((1:ℚ)/2 : ℚ) : ℝ))) = 0 := by
    push_cast
    norm_num [Real.log_one]
  rw [hlog]
  have hgap : (((0:ℚ) - 0) * probSensitivity era5 "shot_rim") = 0 := by ring
  rw [hgap]
  have hg : wRngG.g wRngG.ig = 1 := rfl
  rw [hg]
  have hstd : (0:ℝ) < ((noiseStd era5 "shot_rim" 1 : ℚ) : ℝ) := by
    exact_mod_cast c5h_std_pos
  push_cast
  linarith

/-- The default probability floor is positive. -/
lemma c6h_pm_pos : 0 < defaultEra.prob_model.prob_min := by
  show (0 : ℚ) < (0.03 : ℚ)
  norm_num

/-- The default probability floor is below the ceiling. -/
lemma c6h_pm_le : defaultEra.prob_model.prob_min ≤ defaultEra.prob_model.prob_max := by
  show (0.03 : ℚ) ≤ (0.97 : ℚ)
  norm_num

set_option maxHeartbeats 1000000 in
/-- At the concrete rim-foul instance the fouler drawn by the all-zeros stream
is the single on-court defender p1. -/
lemma c6h_fouler :
    (resolveFoulBranch defaultEra {} wRng0 "FOUL_DRAW_RIM" (wTeam "H") (wTeam "A") wGs
      ({ foul_out := 1 } : Ctx) wP 50 50 1 0 0).payload.fouler = some "p1" := by
  unfold resolveFoulBranch
  dsimp only
  norm_num [wTeam, Rng.choice, Rng.random, wRng0, List.getD]

set_option maxHeartbeats 2000000 in
/-- When every uniform draw is 0 and the probability floor is positive, the
paired shot of a shooting foul always succeeds, so the and-one flag is set. -/
lemma foulBranch_and_one_u0 (era : EraTables) (tun : Tunables) (rng1 : Rng)
    (outcome : String) (off3 def1 : TeamState) (gs : GameState) (ctx : Ctx)
    (actor : Player) (os ds vm rd fd : ℚ)
    (hu : ∀ n, rng1.u n = 0) (h0 : 0 < era.prob_model.prob_min)
    (hmm : era.prob_model.prob_min ≤ era.prob_model.prob_max) :
    (resolveFoulBranch era tun rng1 outcome off3 def1 gs ctx actor os ds vm rd
      fd).payload.and_one = some true := by
  unfold resolveFoulBranch
  dsimp only
  split_ifs <;>
    first
    | rfl
    | (exfalso
       rename_i hm
       rw [prob_from_scores_getD_u] at hm
       try simp only [choice_snd_u] at hm
       rw [hu] at hm
       apply hm
       refine lt_of_lt_of_le ?_ (prob_from_scores_mem _ _ _ _ _ _ _ _ _ hmm).1
       exact_mod_cast h0)

/-- replaceFirst only introduces the replacement element. -/
lemma replaceFirst_mem (l : List String) (a b x : String) :
    x ∈ replaceFirst l a b → x ∈ l ∨ x = b := by
  induction l with
  | nil => intro h; cases h
  | cons y ys ih =>
      intro h
      unfold replaceFirst at h
      split_ifs at h with hy
      · rcases List.mem_cons.mp h with h | h
        · exact Or.inr h
        · exact Or.inl (List.mem_cons_of_mem _ h)
      · rcases List.mem_cons.mp h with h | h
        · exact Or.inl (h ▸ List.mem_cons_self _ _)
        · rcases ih h with h2 | h2
          · exact Or.inl (List.mem_cons_of_mem _ h2)
          · exact Or.inr h2

/-- The best-candidate fold of the rotation picks a member of the list. -/
lemma rotationPick_mem (keyT : String → ℤ) (fat : String → ℚ) :
    ∀ (cs : List String) (c : String),
      cs.foldl (fun best y =>
        if keyT best < keyT y ∨ (keyT best = keyT y ∧ fat best < fat y) then y
        else best) c ∈ c :: cs := by
  intro cs
  induction cs with
  | nil => intro c; exact List.mem_singleton.mpr rfl
  | cons y ys ih =>
      intro c
      rw [List.foldl_cons]
      have h := ih (if keyT c < keyT y ∨ (keyT c = keyT y ∧ fat c < fat y) then y else c)
      rcases List.mem_cons.mp h with h2 | h2
      · rw [h2]
        split_ifs
        · exact List.mem_cons_of_mem _ (List.mem_cons_self _ _)
        · exact List.mem_cons_self _ _
      · exact List.mem_cons_of_mem _ (List.mem_cons_of_mem _ h2)

/-- Everyone on court after the rotation swap loop was on court before or came
in from the in-candidate list. -/
lemma rotationSwaps_mem (fat : String → ℚ) (keyT : String → ℤ) :
    ∀ (outs ins : List String) (swaps : ℕ) (oc : List String) (x : String),
      x ∈ rotationSwaps fat keyT outs ins swaps oc → x ∈ oc ∨ x ∈ ins := by
  intro outs
  induction outs with
  | nil => intro ins swaps oc x h; exact Or.inl h
  | cons pid_out rest ih =>
      intro ins swaps oc x h
      rw [rotationSwaps.eq_def] at h
      dsimp only at h
      by_cases hs : 2 ≤ swaps
      · rw [if_pos hs] at h
        exact Or.inl h
      · rw [if_neg hs] at h
        match ins, h with
        | [], h => exact Or.inl h
        | c :: cs, h =>
            dsimp only at h
            by_cases hoc : pid_out ∈ oc
            · rw [if_pos hoc] at h
              rcases ih _ _ _ _ h with h2 | h2
              · rcases replaceFirst_mem _ _ _ _ h2 with h3 | h3
                · exact Or.inl h3
                · exact Or.inr (h3 ▸ rotationPick_mem keyT fat cs c)
              · exact Or.inr (List.erase_subset _ _ h2)
            · rw [if_neg hoc] at h
              rcases ih _ _ _ _ h with h2 | h2
              · exact Or.inl h2
              · exact Or.inr (List.erase_subset _ _ h2)

set_option maxHeartbeats 1000000 in
/-- At the concrete state with the lone on-court player fouled out and no
eligible bench, the rotation leaves the home on-court list unchanged. -/
lemma c8h_rot : (perform_rotation (wTeam "H") true wGs8 MVP_RULES false).on_court_home
    = ["p1"] := by
  unfold perform_rotation
  norm_num [wTeam, wGs8, wGs, MVP_RULES, dictGet, List.lookup, sortedByAsc, pySorted,
    pyInsert, rotationSwaps, List.filter]

set_option maxHeartbeats 1000000 in
/-- The same at the away side. -/
lemma c8h_rot_away :
    (perform_rotation (wTeam "H") false wGs8 MVP_RULES false).on_court_away = ["p1"] := by
  unfold perform_rotation
  norm_num [wTeam, wGs8, wGs, MVP_RULES, dictGet, List.lookup, sortedByAsc, pySorted,
    pyInsert, rotationSwaps, List.filter]

/-! Counter-invariant preservation chain (claims C3 and C7). -/

/-- The counter invariant transports across counter equality. -/
lemma countersInv_of_eq {a b : TeamState} (he : CountersEq a b)
    (h : TeamCountersInv b) : TeamCountersInv a := by
  obtain ⟨e1, e2, e3, e4, e5, e6, e7, e8⟩ := he
  obtain ⟨⟨h1, h2, h3, h4, h5, h6⟩, h7⟩ := h
  refine ⟨⟨?_, ?_, ?_, ?_, ?_, ?_⟩, ?_⟩
  · rw [e2, e3]; exact h1
  · rw [e4, e5]; exact h2
  · rw [e6, e7]; exact h3
  · rw [e5, e3]; exact h4
  · rw [e4, e2]; exact h5
  · rw [e1, e2, e4, e6]; exact h6
  · unfold zoneSum at h7 ⊢
    rw [e8, e3]
    exact h7

/-- Bumping one of the three tracked zones adds exactly one to the zone mass. -/
lemma zoneSum_set (sz : List (String × ℕ)) (z : String)
    (hz : z = "rim" ∨ z = "mid" ∨ z = "3") :
    dictGet (dictSet sz z (dictGet sz z 0 + 1)) "rim" 0 +
      dictGet (dictSet sz z (dictGet sz z 0 + 1)) "mid" 0 +
      dictGet (dictSet sz z (dictGet sz z 0 + 1)) "3" 0 =
    dictGet sz "rim" 0 + dictGet sz "mid" 0 + dictGet sz "3" 0 + 1 := by
  rcases hz with h | h | h <;> subst h
  · rw [dictGet_set_same, dictGet_set_other _ (by decide : ("mid" : String) ≠ "rim"),
      dictGet_set_other _ (by decide : ("3" : String) ≠ "rim")]
    omega
  · rw [dictGet_set_same, dictGet_set_other _ (by decide : ("rim" : String) ≠ "mid"),
      dictGet_set_other _ (by decide : ("3" : String) ≠ "mid")]
    omega
  · rw [dictGet_set_same, dictGet_set_other _ (by decide : ("rim" : String) ≠ "3"),
      dictGet_set_other _ (by decide : ("mid" : String) ≠ "3")]
    omega

/-- The shot-zone mapping yields one of the three tracked zones or nothing. -/
lemma shot_zone_cases (o : String) :
    shot_zone_from_outcome o = none ∨
      ∃ z, shot_zone_from_outcome o = some z ∧ (z = "rim" ∨ z = "mid" ∨ z = "3") := by
  unfold shot_zone_from_outcome
  split_ifs
  · exact Or.inr ⟨"rim", rfl, Or.inl rfl⟩
  · exact Or.inr ⟨"mid", rfl, Or.inr (Or.inl rfl)⟩
  · exact Or.inr ⟨"3", rfl, Or.inr (Or.inr rfl)⟩
  · exact Or.inl rfl

/-- A SHOT_* outcome is worth 2 or 3 points. -/
lemma outcome_points_shot {o : String} (h : is_shot o = true) :
    outcome_points o = 3 ∨ outcome_points o = 2 := by
  unfold outcome_points
  split_ifs with h1
  · exact Or.inl rfl
  · exact Or.inr rfl
  · exact absurd h (by assumption)

/-- Free-throw resolution preserves the counter invariant. -/
lemma rfts_inv (era : EraTables) (shooter : Player) :
    ∀ (n : ℕ) (rng : Rng) (team : TeamState), TeamCountersInv team →
      TeamCountersInv (resolve_free_throws era rng shooter n team).1 := by
  intro n
  induction n with
  | zero => intro rng team h; exact h
  | succ m ih =>
      intro rng team h
      obtain ⟨⟨h1, h2, h3, h4, h5, h6⟩, h7⟩ := h
      rw [resolve_free_throws]
      dsimp only
      split_ifs
      · refine ih _ _ ⟨⟨h1, h2, ?_, h4, h5, ?_⟩, h7⟩
        · show team.ftm + 1 ≤ team.fta + 1
          omega
        · show team.pts + 1 = 2 * (team.fgm - team.tpm) + 3 * team.tpm + (team.ftm + 1)
          omega
      · refine ih _ _ ⟨⟨h1, h2, ?_, h4, h5, h6⟩, h7⟩
        show team.ftm ≤ team.fta + 1
        omega

/-- add_player_stat leaves every team counter unchanged. -/
lemma aps_pts (t : TeamState) (pid k : String) (i : ℕ) :
    (t.add_player_stat pid k i).pts = t.pts := rfl

lemma aps_fgm (t : TeamState) (pid k : String) (i : ℕ) :
    (t.add_player_stat pid k i).fgm = t.fgm := rfl

lemma aps_fga (t : TeamState) (pid k : String) (i : ℕ) :
    (t.add_player_stat pid k i).fga = t.fga := rfl

lemma aps_tpm (t : TeamState) (pid k : String) (i : ℕ) :
    (t.add_player_stat pid k i).tpm = t.tpm := rfl

lemma aps_tpa (t : TeamState) (pid k : String) (i : ℕ) :
    (t.add_player_stat pid k i).tpa = t.tpa := rfl

lemma aps_ftm (t : TeamState) (pid k : String) (i : ℕ) :
    (t.add_player_stat pid k i).ftm = t.ftm := rfl

lemma aps_fta (t : TeamState) (pid k : String) (i : ℕ) :
    (t.add_player_stat pid k i).fta = t.fta := rfl

lemma aps_zones (t : TeamState) (pid k : String) (i : ℕ) :
    (t.add_player_stat pid k i).shot_zones = t.shot_zones := rfl

set_option maxHeartbeats 2000000 in
/-- The shot block preserves the counter invariant of the offense. -/
lemma shotBranch_inv (era : EraTables) (tun : Tunables) (rng1 : Rng)
    (outcome : String) (off3 def1 : TeamState) (gs : GameState) (actor : Player)
    (os ds vm rd fd : ℚ) (hshot : is_shot outcome = true)
    (h : TeamCountersInv off3) :
    TeamCountersInv (resolveShotBranch era tun rng1 outcome off3 def1 gs actor os ds vm
      rd fd).offense := by
  obtain ⟨⟨h1, h2, h3, h4, h5, h6⟩, h7⟩ := h
  unfold zoneSum at h7
  have hp2 := outcome_points_shot hshot
  unfold resolveShotBranch
  dsimp only
  rcases shot_zone_cases outcome with hz | ⟨z, hz, hzmem⟩ <;>
    rw [hz] <;>
    dsimp only <;>
    split_ifs <;>
    simp only [TeamCountersInv, TeamBoxInv, zoneSum, aps_pts, aps_fgm, aps_fga,
      aps_tpm, aps_tpa, aps_ftm, aps_fta, aps_zones] <;>
    first
    | (rcases hp2 with hp | hp <;> omega)
    | (rw [zoneSum_set _ _ hzmem]; rcases hp2 with hp | hp <;> omega)

/-- The shot block passes the defense through. -/
lemma shotBranch_defense (era : EraTables) (tun : Tunables) (rng1 : Rng)
    (outcome : String) (off3 def1 : TeamState) (gs : GameState) (actor : Player)
    (os ds vm rd fd : ℚ) :
    (resolveShotBranch era tun rng1 outcome off3 def1 gs actor os ds vm rd
      fd).defense = def1 := by
  unfold resolveShotBranch
  dsimp only
  split <;> rfl

/-- The role-fit application only touches the role-fit diagnostic fields. -/
lemma applyRoleFit_counters (era : EraTables) (priors : List (String × ℚ))
    (af : String) (offense : TeamState) (tags : Tags) :
    CountersEq (apply_role_fit_to_priors_and_tags era priors af offense tags).2.2
      offense := by
  unfold apply_role_fit_to_priors_and_tags
  dsimp only
  split_ifs <;> exact ⟨rfl, rfl, rfl, rfl, rfl, rfl, rfl, rfl⟩

set_option maxHeartbeats 2000000 in
/-- The foul block preserves the counter invariant of the offense. -/
lemma foulBranch_inv (era : EraTables) (tun : Tunables) (rng1 : Rng)
    (outcome : String) (off3 def1 : TeamState) (gs : GameState) (ctx : Ctx)
    (actor : Player) (os ds vm rd fd : ℚ) (h : TeamCountersInv off3) :
    TeamCountersInv (resolveFoulBranch era tun rng1 outcome off3 def1 gs ctx actor os
      ds vm rd fd).offense := by
  obtain ⟨⟨h1, h2, h3, h4, h5, h6⟩, h7⟩ := h
  unfold zoneSum at h7
  unfold resolveFoulBranch
  dsimp only
  refine rfts_inv _ _ _ _ _ ?_
  split_ifs <;>
    refine ⟨⟨?_, ?_, ?_, ?_, ?_, ?_⟩, ?_⟩ <;>
    simp only [zoneSum, aps_pts, aps_fgm, aps_fga, aps_tpm, aps_tpa, aps_ftm,
      aps_fta, aps_zones] <;>
    omega

/-- The role-fit bad-outcome logging preserves all counters. -/
lemma roleFitBadLog_counters (t : TeamState) (o : String) (tg : Tags) :
    CountersEq (roleFitBadLog t o tg) t :=
  ⟨(roleFitBadLog_fields t o tg).2.2.1,
   (roleFitBadLog_fields t o tg).2.2.2.1,
   (roleFitBadLog_fields t o tg).2.2.2.2.1,
   (roleFitBadLog_fields t o tg).2.2.2.2.2.1,
   (roleFitBadLog_fields t o tg).2.2.2.2.2.2.1,
   (roleFitBadLog_fields t o tg).2.2.2.2.2.2.2.1,
   (roleFitBadLog_fields t o tg).2.2.2.2.2.2.2.2.1,
   (roleFitBadLog_fields t o tg).2.2.2.2.2.2.2.2.2.1⟩

set_option maxHeartbeats 2000000 in
/-- Outcome resolution preserves the counter invariant of both teams. -/
lemma resolve_outcome_inv (era : EraTables) (tun : Tunables) (rng : Rng)
    (outcome action : String) (offense defense : TeamState) (tags : Tags)
    (pass_chain : ℕ) (ctx : Ctx) (gs : GameState)
    (ho : TeamCountersInv offense) (hd : TeamCountersInv defense) :
    TeamCountersInv (resolve_outcome era tun rng outcome action offense defense tags
      pass_chain ctx gs).offense ∧
    TeamCountersInv (resolve_outcome era tun rng outcome action offense defense tags
      pass_chain ctx gs).defense := by
  unfold resolve_outcome
  dsimp only
  by_cases hsc : outcome = "TO_SHOTCLOCK"
  · rw [if_pos hsc]
    exact ⟨countersInv_of_eq ⟨rfl, rfl, rfl, rfl, rfl, rfl, rfl, rfl⟩ ho, hd⟩
  · rw [if_neg hsc]
    cases hfind : dictFind OUTCOME_PROFILES outcome with
    | none => exact ⟨countersInv_of_eq (roleFitBadLog_counters _ _ _) ho, hd⟩
    | some prof =>
        by_cases hsh : is_shot outcome
        · simp only [hsh, if_true]
          constructor
          · exact shotBranch_inv _ _ _ _ _ _ _ _ _ _ _ _ _ hsh
              (countersInv_of_eq (roleFitBadLog_counters _ _ _) ho)
          · rw [shotBranch_defense]
            exact countersInv_of_eq ⟨rfl, rfl, rfl, rfl, rfl, rfl, rfl, rfl⟩ hd
        · simp only [hsh, Bool.false_eq_true, if_false]
          by_cases hps : is_pass outcome
          · simp only [hps, if_true]
            constructor
            · rw [(resolvePassBranch_spec _ _ _ _ _ _ _ _ _ _ _ _).2.1]
              exact countersInv_of_eq (roleFitBadLog_counters _ _ _) ho
            · rw [(resolvePassBranch_spec _ _ _ _ _ _ _ _ _ _ _ _).2.2.1]
              exact countersInv_of_eq ⟨rfl, rfl, rfl, rfl, rfl, rfl, rfl, rfl⟩ hd
          · simp only [hps, Bool.false_eq_true, if_false]
            by_cases hto : is_to outcome
            · simp only [hto, if_true]
              exact ⟨countersInv_of_eq (roleFitBadLog_counters _ _ _) ho,
                countersInv_of_eq ⟨rfl, rfl, rfl, rfl, rfl, rfl, rfl, rfl⟩ hd⟩
            · simp only [hto, Bool.false_eq_true, if_false]
              by_cases hfl : is_foul outcome
              · simp only [hfl, if_true]
                constructor
                · exact foulBranch_inv _ _ _ _ _ _ _ _ _ _ _ _ _ _
                    (countersInv_of_eq (roleFitBadLog_counters _ _ _) ho)
                · exact countersInv_of_eq ⟨rfl, rfl, rfl, rfl, rfl, rfl, rfl, rfl⟩ hd
              · simp only [hfl, Bool.false_eq_true, if_false]
                exact ⟨countersInv_of_eq (roleFitBadLog_counters _ _ _) ho,
                  countersInv_of_eq ⟨rfl, rfl, rfl, rfl, rfl, rfl, rfl, rfl⟩ hd⟩

/-- commit_shot_clock_turnover books exactly one team turnover and one
TO_SHOTCLOCK outcome count. -/
lemma commit_shot_clock_turnover_spec (off : TeamState) :
    (commit_shot_clock_turnover off).tov = off.tov + 1 ∧
    dictGet (commit_shot_clock_turnover off).outcome_counts "TO_SHOTCLOCK" 0 =
      dictGet off.outcome_counts "TO_SHOTCLOCK" 0 + 1 :=
  ⟨rfl, dictGet_set_same _ _ _ _⟩

/-- A MISS tail can only end the possession with a defensive rebound. -/
lemma stepMiss_done (era : EraTables) (tun : Tunables) (rules : Rules)
    (tags2 : Tags) (r : ResolveResult) :
    ∀ (e : PossessionEnd) (o d : TeamState) (g : GameState) (rn : Rng),
      stepMiss era tun rules tags2 r = .done e o d g rn → e = .drbEnd := by
  intro e o d g rn h
  unfold stepMiss at h
  dsimp only at h
  repeat' split at h
  all_goals
    first
    | exact StepOut.noConfusion h
    | (injection h with he ho hd hg hr; exact he.symm)

/-- A RESET tail can only end the possession with a clock expiry or with a
shot-clock expiry that books the shot-clock turnover. -/
lemma stepReset_done (rules : Rules) (ctx : Ctx) (off_probs : List (String × ℝ))
    (tags2 : Tags) (r : ResolveResult) :
    ∀ (e : PossessionEnd) (o d : TeamState) (g : GameState) (rn : Rng),
      stepReset rules ctx off_probs tags2 r = .done e o d g rn →
      e = .clockOut ∨ (e = .shotClock ∧ ∃ off0, o = commit_shot_clock_turnover off0) := by
  intro e o d g rn h
  unfold stepReset at h
  dsimp only at h
  repeat' split at h
  all_goals
    first
    | exact StepOut.noConfusion h
    | (injection h with he ho hd hg hr
       subst he
       subst ho
       first
       | exact Or.inl rfl
       | exact Or.inr ⟨rfl, _, rfl⟩)

/-- A CONTINUE tail can only end the possession with a clock expiry or with a
shot-clock expiry that books the shot-clock turnover. -/
lemma stepContinue_done (rules : Rules) (ctx : Ctx) (off_probs : List (String × ℝ))
    (outcome : String) (pass_chain : ℕ) (tags2 : Tags) (r : ResolveResult) :
    ∀ (e : PossessionEnd) (o d : TeamState) (g : GameState) (rn : Rng),
      stepContinue rules ctx off_probs outcome pass_chain tags2 r = .done e o d g rn →
      e = .clockOut ∨ (e = .shotClock ∧ ∃ off0, o = commit_shot_clock_turnover off0) := by
  intro e o d g rn h
  unfold stepContinue at h
  dsimp only at h
  repeat' split at h
  all_goals
    first
    | exact StepOut.noConfusion h
    | (injection h with he ho hd hg hr
       subst he
       subst ho
       first
       | exact Or.inl rfl
       | exact Or.inr ⟨rfl, _, rfl⟩)

/-- Classification of the done endings of one loop iteration tail: a defensive
rebound, a clock expiry, a terminal SCORE/TURNOVER/FOUL resolution, or a
shot-clock expiry that books the shot-clock turnover. -/
lemma possessionAfterResolve_spec (era : EraTables) (tun : Tunables) (rules : Rules)
    (ctx : Ctx) (off_probs : List (String × ℝ)) (outcome action : String)
    (pass_chain : ℕ) (tags2 : Tags) (r : ResolveResult) :
    ∀ (e : PossessionEnd) (o d : TeamState) (g : GameState) (rn : Rng),
      possessionAfterResolve era tun rules ctx off_probs outcome action pass_chain tags2 r
        = .done e o d g rn →
      e = .drbEnd ∨ e = .clockOut ∨
        (∃ t, (t = "SCORE" ∨ t = "TURNOVER" ∨ t = "FOUL") ∧ e = .terminal t) ∨
        (e = .shotClock ∧ ∃ off0, o = commit_shot_clock_turnover off0) := by
  intro e o d g rn h
  unfold possessionAfterResolve at h
  repeat' split at h
  · injection h with he ho hd hg hr
    subst he
    exact Or.inr (Or.inr (Or.inl ⟨r.term, by assumption, rfl⟩))
  · exact Or.inl (stepMiss_done _ _ _ _ _ _ _ _ _ _ h)
  · rcases stepReset_done _ _ _ _ _ _ _ _ _ _ h with h1 | ⟨h1, h2⟩
    · exact Or.inr (Or.inl h1)
    · exact Or.inr (Or.inr (Or.inr ⟨h1, h2⟩))
  · rcases stepContinue_done _ _ _ _ _ _ _ _ _ _ _ _ h with h1 | ⟨h1, h2⟩
    · exact Or.inr (Or.inl h1)
    · exact Or.inr (Or.inr (Or.inr ⟨h1, h2⟩))
  · exact StepOut.noConfusion h

set_option maxHeartbeats 4000000 in
/-- The possession step loop runs at most fuel further resolution steps, ends
in one of the five return sites (with terminal terms limited to SCORE,
TURNOVER and FOUL), and books a shot-clock turnover on the shot-clock and
fall-through endings. -/
lemma possessionLoop_spec (era : EraTables) (tun : Tunables) (rules : Rules)
    (ctx : Ctx) (off_probs : List (String × ℝ)) :
    ∀ (fuel resolves : ℕ) (action : String) (pass_chain : ℕ) (tags : Tags)
      (offense defense : TeamState) (gs : GameState) (rng : Rng),
      (possessionLoop era tun rules ctx off_probs fuel resolves action pass_chain tags
        offense defense gs rng).resolves ≤ resolves + fuel ∧
      ((possessionLoop era tun rules ctx off_probs fuel resolves action pass_chain tags
          offense defense gs rng).endTag = .drbEnd ∨
        (possessionLoop era tun rules ctx off_probs fuel resolves action pass_chain tags
          offense defense gs rng).endTag = .shotClock ∨
        (possessionLoop era tun rules ctx off_probs fuel resolves action pass_chain tags
          offense defense gs rng).endTag = .clockOut ∨
        (possessionLoop era tun rules ctx off_probs fuel resolves action pass_chain tags
          offense defense gs rng).endTag = .loopExit ∨
        ∃ t, (t = "SCORE" ∨ t = "TURNOVER" ∨ t = "FOUL") ∧
          (possessionLoop era tun rules ctx off_probs fuel resolves action pass_chain tags
            offense defense gs rng).endTag = .terminal t) ∧
      ((possessionLoop era tun rules ctx off_probs fuel resolves action pass_chain tags
          offense defense gs rng).endTag = .loopExit ∨
        (possessionLoop era tun rules ctx off_probs fuel resolves action pass_chain tags
          offense defense gs rng).endTag = .shotClock →
        ∃ off0, (possessionLoop era tun rules ctx off_probs fuel resolves action pass_chain
          tags offense defense gs rng).offense = commit_shot_clock_turnover off0) := by
  intro fuel
  induction fuel with
  | zero =>
      intro resolves action pass_chain tags offense defense gs rng
      exact ⟨le_refl _, Or.inr (Or.inr (Or.inr (Or.inl rfl))), fun _ => ⟨_, rfl⟩⟩
  | succ fuel ih =>
      intro resolves action pass_chain tags offense defense gs rng
      have hA : resolves ≤ resolves + (fuel + 1) := Nat.le_add_right _ _
      have hB : resolves + 1 ≤ resolves + (fuel + 1) := by omega
      have hRec : resolves + 1 + fuel ≤ resolves + (fuel + 1) := by omega
      rw [possessionLoop]
      dsimp only
      split_ifs
      all_goals try dsimp only
      all_goals
        first
        | exact ⟨hA, Or.inr (Or.inr (Or.inr (Or.inl rfl))), fun _ => ⟨_, rfl⟩⟩
        | exact ⟨hA, Or.inr (Or.inl rfl), fun _ => ⟨_, rfl⟩⟩
        | exact ⟨hA, Or.inr (Or.inr (Or.inl rfl)), by rintro (h | h) <;> cases h⟩
        | skip
      all_goals split
      all_goals rename_i heq
      all_goals
        first
        | exact ⟨le_trans (ih _ _ _ _ _ _ _ _).1 hRec, (ih _ _ _ _ _ _ _ _).2.1,
            (ih _ _ _ _ _ _ _ _).2.2⟩
        | (rcases possessionAfterResolve_spec _ _ _ _ _ _ _ _ _ _ _ _ _ _ _ heq with
            he | he | ⟨t, ht, he⟩ | ⟨he, off0, ho⟩ <;> subst he <;>
           first
           | exact ⟨hB, Or.inl rfl, by rintro (h | h) <;> cases h⟩
           | exact ⟨hB, Or.inr (Or.inr (Or.inl rfl)), by rintro (h | h) <;> cases h⟩
           | exact ⟨hB, Or.inr (Or.inr (Or.inr (Or.inr ⟨t, ht, rfl⟩))),
               by rintro (h | h) <;> cases h⟩
           | exact ⟨hB, Or.inr (Or.inl rfl), fun _ => ⟨off0, ho⟩⟩)

set_option maxHeartbeats 2000000 in
/-- The MISS rebound tail preserves both teams' counter invariants. -/
lemma stepMiss_inv (era : EraTables) (tun : Tunables) (rules : Rules)
    (tags2 : Tags) (r : ResolveResult) (ho : TeamCountersInv r.offense)
    (hd : TeamCountersInv r.defense) : StepInv (stepMiss era tun rules tags2 r) := by
  unfold stepMiss
  dsimp only
  split_ifs <;>
    exact ⟨countersInv_of_eq ⟨rfl, rfl, rfl, rfl, rfl, rfl, rfl, rfl⟩ ho,
      countersInv_of_eq ⟨rfl, rfl, rfl, rfl, rfl, rfl, rfl, rfl⟩ hd⟩

set_option maxHeartbeats 2000000 in
/-- The RESET tail preserves both teams' counter invariants. -/
lemma stepReset_inv (rules : Rules) (ctx : Ctx) (off_probs : List (String × ℝ))
    (tags2 : Tags) (r : ResolveResult) (ho : TeamCountersInv r.offense)
    (hd : TeamCountersInv r.defense) : StepInv (stepReset rules ctx off_probs tags2 r) := by
  unfold stepReset
  dsimp only
  split_ifs <;>
    exact ⟨countersInv_of_eq ⟨rfl, rfl, rfl, rfl, rfl, rfl, rfl, rfl⟩ ho,
      countersInv_of_eq ⟨rfl, rfl, rfl, rfl, rfl, rfl, rfl, rfl⟩ hd⟩

set_option maxHeartbeats 2000000 in
/-- The CONTINUE tail preserves both teams' counter invariants. -/
lemma stepContinue_inv (rules : Rules) (ctx : Ctx) (off_probs : List (String × ℝ))
    (outcome : String) (pass_chain : ℕ) (tags2 : Tags) (r : ResolveResult)
    (ho : TeamCountersInv r.offense) (hd : TeamCountersInv r.defense) :
    StepInv (stepContinue rules ctx off_probs outcome pass_chain tags2 r) := by
  unfold stepContinue
  dsimp only
  split_ifs <;>
    exact ⟨countersInv_of_eq ⟨rfl, rfl, rfl, rfl, rfl, rfl, rfl, rfl⟩ ho,
      countersInv_of_eq ⟨rfl, rfl, rfl, rfl, rfl, rfl, rfl, rfl⟩ hd⟩

/-- The full post-resolve tail preserves both teams' counter invariants. -/
lemma pAR_inv (era : EraTables) (tun : Tunables) (rules : Rules) (ctx : Ctx)
    (off_probs : List (String × ℝ)) (outcome action : String) (pass_chain : ℕ)
    (tags2 : Tags) (r : ResolveResult) (ho : TeamCountersInv r.offense)
    (hd : TeamCountersInv r.defense) :
    StepInv (possessionAfterResolve era tun rules ctx off_probs outcome action
      pass_chain tags2 r) := by
  unfold possessionAfterResolve
  split_ifs
  · exact ⟨ho, hd⟩
  · exact stepMiss_inv _ _ _ _ _ ho hd
  · exact stepReset_inv _ _ _ _ _ ho hd
  · exact stepContinue_inv _ _ _ _ _ _ _ ho hd
  · exact ⟨ho, hd⟩

/-- Invariant transport across a loop exit decided by the post-resolve tail. -/
lemma stepInv_done (era : EraTables) (tun : Tunables) (rules : Rules) (ctx : Ctx)
    (off_probs : List (String × ℝ)) (outcome action : String) (pass_chain : ℕ)
    (tags2 : Tags) (r : ResolveResult) (e : PossessionEnd) (o d : TeamState)
    (g : GameState) (rn : Rng)
    (heq : possessionAfterResolve era tun rules ctx off_probs outcome action
      pass_chain tags2 r = .done e o d g rn)
    (ho : TeamCountersInv r.offense) (hd : TeamCountersInv r.defense) :
    TeamCountersInv o ∧ TeamCountersInv d := by
  have hs := pAR_inv era tun rules ctx off_probs outcome action pass_chain tags2 r ho hd
  rw [heq] at hs
  exact hs

/-- Invariant transport across a loop continuation decided by the
post-resolve tail. -/
lemma stepInv_cont (era : EraTables) (tun : Tunables) (rules : Rules) (ctx : Ctx)
    (off_probs : List (String × ℝ)) (outcome action : String) (pass_chain : ℕ)
    (tags2 : Tags) (r : ResolveResult) (a : String) (pc : ℕ) (tg : Tags)
    (o d : TeamState) (g : GameState) (rn : Rng)
    (heq : possessionAfterResolve era tun rules ctx off_probs outcome action
      pass_chain tags2 r = .cont a pc tg o d g rn)
    (ho : TeamCountersInv r.offense) (hd : TeamCountersInv r.defense) :
    TeamCountersInv o ∧ TeamCountersInv d := by
  have hs := pAR_inv era tun rules ctx off_probs outcome action pass_chain tags2 r ho hd
  rw [heq] at hs
  exact hs

set_option maxHeartbeats 4000000 in
/-- The possession step loop preserves both teams' counter invariants. -/
lemma possessionLoop_inv (era : EraTables) (tun : Tunables) (rules : Rules)
    (ctx : Ctx) (off_probs : List (String × ℝ)) :
    ∀ (fuel resolves : ℕ) (action : String) (pass_chain : ℕ) (tags : Tags)
      (offense defense : TeamState) (gs : GameState) (rng : Rng),
      TeamCountersInv offense → TeamCountersInv defense →
      TeamCountersInv (possessionLoop era tun rules ctx off_probs fuel resolves action
        pass_chain tags offense defense gs rng).offense ∧
      TeamCountersInv (possessionLoop era tun rules ctx off_probs fuel resolves action
        pass_chain tags offense defense gs rng).defense := by
  intro fuel
  induction fuel with
  | zero =>
      intro resolves action pass_chain tags offense defense gs rng ho hd
      rw [possessionLoop]
      exact ⟨countersInv_of_eq ⟨rfl, rfl, rfl, rfl, rfl, rfl, rfl, rfl⟩ ho, hd⟩
  | succ fuel ih =>
      intro resolves action pass_chain tags offense defense gs rng ho hd
      rw [possessionLoop]
      dsimp only
      split_ifs
      all_goals try dsimp only
      all_goals
        first
        | exact ⟨countersInv_of_eq ⟨rfl, rfl, rfl, rfl, rfl, rfl, rfl, rfl⟩ ho, hd⟩
        | skip
      all_goals split
      all_goals rename_i heq
      all_goals
        first
        | exact stepInv_done _ _ _ _ _ _ _ _ _ _ _ _ _ _ _ heq
            ((resolve_outcome_inv _ _ _ _ _ _ _ _ _ _ _
                (countersInv_of_eq (applyRoleFit_counters _ _ _ _ _) ho) hd).1)
            ((resolve_outcome_inv _ _ _ _ _ _ _ _ _ _ _
                (countersInv_of_eq (applyRoleFit_counters _ _ _ _ _) ho) hd).2)
        | exact ih _ _ _ _ _ _ _ _
            ((stepInv_cont _ _ _ _ _ _ _ _ _ _ _ _ _ _ _ _ _ heq
                ((resolve_outcome_inv _ _ _ _ _ _ _ _ _ _ _
                    (countersInv_of_eq (applyRoleFit_counters _ _ _ _ _) ho) hd).1)
                ((resolve_outcome_inv _ _ _ _ _ _ _ _ _ _ _
                    (countersInv_of_eq (applyRoleFit_counters _ _ _ _ _) ho) hd).2)).1)
            ((stepInv_cont _ _ _ _ _ _ _ _ _ _ _ _ _ _ _ _ _ heq
                ((resolve_outcome_inv _ _ _ _ _ _ _ _ _ _ _
                    (countersInv_of_eq (applyRoleFit_counters _ _ _ _ _) ho) hd).1)
                ((resolve_outcome_inv _ _ _ _ _ _ _ _ _ _ _
                    (countersInv_of_eq (applyRoleFit_counters _ _ _ _ _) ho) hd).2)).2)

/-- simulate_possession preserves both teams' counter invariants. -/
lemma simulate_possession_inv (era : EraTables) (tun : Tunables) (rules : Rules)
    (rng : Rng) (offense defense : TeamState) (gs : GameState) (ctx : Ctx)
    (max_steps : ℕ) (ho : TeamCountersInv offense) (hd : TeamCountersInv defense) :
    TeamCountersInv (simulate_possession era tun rules rng offense defense gs ctx
      max_steps).offense ∧
    TeamCountersInv (simulate_possession era tun rules rng offense defense gs ctx
      max_steps).defense := by
  unfold simulate_possession
  dsimp only
  exact possessionLoop_inv _ _ _ _ _ _ _ _ _ _ _ _ _ _
    (countersInv_of_eq ⟨rfl, rfl, rfl, rfl, rfl, rfl, rfl, rfl⟩ ho)
    (countersInv_of_eq ⟨rfl, rfl, rfl, rfl, rfl, rfl, rfl, rfl⟩ hd)

set_option maxHeartbeats 2000000 in
/-- The post-possession tail of the quarter loop preserves both teams'
counter invariants. -/
lemma afterPossession_inv (rules : Rules) (origs : List (String × List Player))
    (isAOff : Bool) (off_on_court def_on_court : List String) (is_garbage : Bool)
    (start_clock : ℚ) (pres : PossessionResult) (total : ℕ)
    (ho : TeamCountersInv pres.offense) (hd : TeamCountersInv pres.defense) :
    TeamCountersInv (afterPossession rules origs isAOff off_on_court def_on_court
      is_garbage start_clock pres total).2.1 ∧
    TeamCountersInv (afterPossession rules origs isAOff off_on_court def_on_court
      is_garbage start_clock pres total).2.2.1 := by
  unfold afterPossession
  dsimp only
  split_ifs <;>
    first
    | exact ⟨countersInv_of_eq ⟨rfl, rfl, rfl, rfl, rfl, rfl, rfl, rfl⟩ ho,
        countersInv_of_eq ⟨rfl, rfl, rfl, rfl, rfl, rfl, rfl, rfl⟩ hd⟩
    | exact ⟨countersInv_of_eq ⟨rfl, rfl, rfl, rfl, rfl, rfl, rfl, rfl⟩ hd,
        countersInv_of_eq ⟨rfl, rfl, rfl, rfl, rfl, rfl, rfl, rfl⟩ ho⟩

set_option maxHeartbeats 4000000 in
/-- The per-quarter possession loop preserves both teams' counter invariants. -/
lemma quarterLoop_inv (era : EraTables) (tun : Tunables) (rules : Rules)
    (origs : List (String × List Player)) :
    ∀ (fuel : ℕ) (teamA teamB : TeamState) (gs : GameState) (rng : Rng) (total : ℕ),
      TeamCountersInv teamA → TeamCountersInv teamB →
      TeamCountersInv (quarterLoop era tun rules origs fuel teamA teamB gs rng total).1 ∧
      TeamCountersInv (quarterLoop era tun rules origs fuel teamA teamB gs rng total).2.1 := by
  intro fuel
  induction fuel with
  | zero =>
      intro teamA teamB gs rng total hA hB
      exact ⟨hA, hB⟩
  | succ fuel ih =>
      intro teamA teamB gs rng total hA hB
      rw [quarterLoop]
      dsimp only
      split_ifs
      all_goals try dsimp only
      all_goals
        first
        | exact ⟨hA, hB⟩
        | (first
           | refine ih _ _ _ _ _ ?_ ?_
           | constructor) <;>
          (first
           | exact countersInv_of_eq ⟨rfl, rfl, rfl, rfl, rfl, rfl, rfl, rfl⟩ hA
           | exact countersInv_of_eq ⟨rfl, rfl, rfl, rfl, rfl, rfl, rfl, rfl⟩ hB
           | ((first
               | refine (afterPossession_inv _ _ _ _ _ _ _ _ _ ?_ ?_).1
               | refine (afterPossession_inv _ _ _ _ _ _ _ _ _ ?_ ?_).2) <;>
              (first
               | refine (simulate_possession_inv _ _ _ _ _ _ _ _ _ ?_ ?_).1
               | refine (simulate_possession_inv _ _ _ _ _ _ _ _ _ ?_ ?_).2) <;>
              (first
               | exact countersInv_of_eq ⟨rfl, rfl, rfl, rfl, rfl, rfl, rfl, rfl⟩ hA
               | exact countersInv_of_eq ⟨rfl, rfl, rfl, rfl, rfl, rfl, rfl, rfl⟩ hB)))

/-- The quarter loop preserves both teams' counter invariants. -/
lemma runQuarters_inv (era : EraTables) (tun : Tunables) (rules : Rules)
    (origs : List (String × List Player)) (fuel : ℕ) :
    ∀ (count qnum : ℕ) (teamA teamB : TeamState) (gs : GameState) (rng : Rng) (total : ℕ),
      TeamCountersInv teamA → TeamCountersInv teamB →
      TeamCountersInv (runQuarters era tun rules origs fuel count qnum teamA teamB gs rng
        total).1 ∧
      TeamCountersInv (runQuarters era tun rules origs fuel count qnum teamA teamB gs rng
        total).2.1 := by
  intro count
  induction count with
  | zero =>
      intro qnum teamA teamB gs rng total hA hB
      exact ⟨hA, hB⟩
  | succ count ih =>
      intro qnum teamA teamB gs rng total hA hB
      rw [runQuarters]
      try dsimp only
      exact ih _ _ _ _ _ _ ((quarterLoop_inv _ _ _ _ _ _ _ _ _ _ hA hB).1)
        ((quarterLoop_inv _ _ _ _ _ _ _ _ _ _ hA hB).2)

/-! Concrete evaluation facts for witnesses. -/

lemma c4h_total : eps12 < ([("x", (2 : ℚ)), ("y", 3)].map (fun kv => max kv.2 0)).sum := by
  norm_num [eps12]

lemma c4h_u0 : 0 < (Rng.mk (fun _ => 1/2) (fun _ => 0) 0 0).u 0 := by
  show (0 : ℚ) < 1/2
  norm_num

lemma c4h_u1 : (Rng.mk (fun _ => 1/2) (fun _ => 0) 0 0).u 0 < 1 := by
  show (1/2 : ℚ) < 1
  norm_num

/-- The witness team carries the all-zero counters, which satisfy the
counter invariant. -/
lemma wTeam_inv (nm : String) : TeamCountersInv (wTeam nm) := by
  refine ⟨⟨?_, ?_, ?_, ?_, ?_, ?_⟩, ?_⟩ <;> first | exact Nat.le_refl 0 | rfl

set_option maxHeartbeats 2000000 in
/-- A SHOT_POST resolution books a field-goal attempt but no shot-zone entry:
the attempt and zone counters of the concrete instance evaluate to 1 and 0. -/
lemma c7h_shot :
    (resolveShotBranch defaultEra {} wRng0 "SHOT_POST" (wTeam "H") (wTeam "A") wGs wP
      50 50 1 0 0).offense.fga = 1 ∧
    zoneSum (resolveShotBranch defaultEra {} wRng0 "SHOT_POST" (wTeam "H") (wTeam "A")
      wGs wP 50 50 1 0 0).offense = 0 := by
  unfold resolveShotBranch
  dsimp only
  rw [show shot_zone_from_outcome "SHOT_POST" = none by decide]
  split_ifs <;> exact ⟨rfl, rfl⟩

/-! Claim theorems. -/

/-- C10: for every player and ability key, the fatigue-sensitive getter
Player.get returns the stored derived value multiplied by the factor
clamp(1 − fatigue/560, 0.82, 1.0), so for any fatigue in [0, 100] the reading
is never below 82% of the raw rating and never above it (raw ratings being
non-negative). -/
theorem c10_player_get_bounded_fatigue_penalty (p : Player) (key : String)
    (hv : 0 ≤ p.get key false) (h0 : 0 ≤ p.fatigue) (h1 : p.fatigue ≤ 100) :
    p.get key true = p.get key false * clamp (1 - p.fatigue / 560) (82/100) 1 ∧
    (82/100) * p.get key false ≤ p.get key true ∧
    p.get key true ≤ p.get key false := by
  have heq : p.get key true = p.get key false * clamp (1 - p.fatigue / 560) (82/100) 1 := by
    unfold Player.get
    simp
  refine ⟨heq, ?_, ?_⟩
  · rw [heq]
    have hf1 : (82/100 : ℚ) ≤ clamp (1 - p.fatigue / 560) (82/100) 1 :=
      le_clamp (by norm_num)
    have h2 := mul_le_mul_of_nonneg_left hf1 hv
    linarith
  · rw [heq]
    have hf2 : clamp (1 - p.fatigue / 560) (82/100) 1 ≤ (1 : ℚ) :=
      clamp_le (by norm_num)
    have h2 := mul_le_mul_of_nonneg_left hf2 hv
    linarith

/-- Witness for C10 at a concrete player with rating 70 and fatigue 50. -/
theorem c10_witness :
    (0 ≤ Player.get ⟨"p1", "P One", "G", [("SHOT_3_CS", 70)], 50⟩ "SHOT_3_CS" false ∧
     0 ≤ (⟨"p1", "P One", "G", [("SHOT_3_CS", 70)], 50⟩ : Player).fatigue ∧
     (⟨"p1", "P One", "G", [("SHOT_3_CS", 70)], 50⟩ : Player).fatigue ≤ 100) ∧
    Player.get ⟨"p1", "P One", "G", [("SHOT_3_CS", 70)], 50⟩ "SHOT_3_CS" true ≤
      Player.get ⟨"p1", "P One", "G", [("SHOT_3_CS", 70)], 50⟩ "SHOT_3_CS" false :=
  ⟨⟨by decide, by decide, by decide⟩,
   (c10_player_get_bounded_fatigue_penalty _ "SHOT_3_CS" (by decide) (by decide) (by decide)).2.2⟩

/-- C4 counterexample: with the uniform draw exactly 0, weighted_choice
returns the first key even when its weight is 0, refuting the claim that no
outcome of weight ≤ 0 is ever returned by the sampler. -/
theorem c4_counterexample :
    (weighted_choice ⟨fun _ => 0, fun _ => 0, 0, 0⟩
      [("a", (0 : ℚ)), ("b", 1)]).1 = "a" ∧
    dictGet [("a", (0 : ℚ)), ("b", 1)] "a" 1 ≤ 0 := by
  constructor
  · unfold weighted_choice
    norm_num [eps12, wcScan, Rng.random, headKey]
  · decide

/-- C4 (amended): every weight distribution the engine samples from
(offense/defense action distributions, outcome priors, and the role-fit
distorted priors) is normalized to sum to 1 before sampling (when nonempty);
a zero-sum weight map is replaced by the uniform distribution over its keys;
and the weighted-choice sampler returns an outcome of weight ≤ 0 only when
the uniform draw is exactly 0 — whenever the draw lies strictly in (0,1) and
the clipped weight total exceeds the 1e-12 guard, the returned outcome has
strictly positive weight. -/
theorem c4_sampling_normalization_amended :
    (∀ (α : Type) [inst : LinearOrderedField α] (d : List (String × α)), d ≠ [] →
       dictValsSum (normalize_weights d) = 1) ∧
    (∀ (α : Type) [inst : LinearOrderedField α] (d : List (String × α)),
       (d.map (fun kv => max kv.2 0)).sum ≤ eps12 → d ≠ [] →
       normalize_weights d = d.map (fun kv => (kv.1, 1 / (d.length : α)))) ∧
    (∀ (α : Type) [inst : LinearOrderedField α] (rng : Rng) (d : List (String × α)),
       eps12 < (d.map (fun kv => max kv.2 0)).sum →
       0 < rng.u rng.iu → rng.u rng.iu < 1 →
       ∃ kv ∈ d, kv.1 = (weighted_choice rng d).1 ∧ 0 < kv.2) ∧
    (∀ (era : EraTables) (action : String) (ot dt : TacticsConfig) (tags : Tags),
       build_outcome_priors era action ot dt tags = [] ∨
       dictValsSum (build_outcome_priors era action ot dt tags) = 1) ∧
    (∀ (era : EraTables) (ot : TacticsConfig) (dt : Option TacticsConfig),
       build_offense_action_probs era ot dt = [] ∨
       dictValsSum (build_offense_action_probs era ot dt) = 1) ∧
    (∀ (era : EraTables) (tac : TacticsConfig),
       build_defense_action_probs era tac = [] ∨
       dictValsSum (build_defense_action_probs era tac) = 1) ∧
    (∀ (era : EraTables) (pri : List (String × ℚ)) (fam : String) (off : TeamState)
       (tags : Tags), pri ≠ [] → dictValsSum pri = 1 →
       dictValsSum (apply_role_fit_to_priors_and_tags era pri fam off tags).1 = 1) := by
  refine ⟨?_, ?_, ?_, ?_, ?_, ?_, ?_⟩
  · intro α _ d hd
    exact normalize_weights_sum_one d hd
  · intro α _ d hs hd
    unfold normalize_weights
    rw [if_pos hs, if_neg hd]
  · intro α _ rng d ht hu0 hu1
    exact weighted_choice_pos_weight rng d ht hu0 hu1
  · intro era action ot dt tags
    exact build_outcome_priors_sum era action ot dt tags
  · intro era ot dt
    exact build_offense_action_probs_sum era ot dt
  · intro era tac
    exact build_defense_action_probs_sum era tac
  · intro era pri fam off tags hne hsum
    exact apply_role_fit_sum era pri fam off tags hne hsum

/-- Witness for C4 (amended) at a concrete two-entry weight map and a draw of
one half. -/
theorem c4_witness :
    ([("x", (2 : ℚ)), ("y", 3)] ≠ [] ∧
     eps12 < ([("x", (2 : ℚ)), ("y", 3)].map (fun kv => max kv.2 0)).sum ∧
     0 < (Rng.mk (fun _ => 1/2) (fun _ => 0) 0 0).u 0 ∧
     (Rng.mk (fun _ => 1/2) (fun _ => 0) 0 0).u 0 < 1) ∧
    dictValsSum (normalize_weights [("x", (2 : ℚ)), ("y", 3)]) = 1 ∧
    (∃ kv ∈ [("x", (2 : ℚ)), ("y", 3)],
      kv.1 = (weighted_choice (Rng.mk (fun _ => 1/2) (fun _ => 0) 0 0)
        [("x", (2 : ℚ)), ("y", 3)]).1 ∧ 0 < kv.2) :=
  ⟨⟨by simp, c4h_total, c4h_u0, c4h_u1⟩,
   c4_sampling_normalization_amended.1 ℚ [("x", (2 : ℚ)), ("y", 3)] (by simp),
   c4_sampling_normalization_amended.2.2.1 ℚ (Rng.mk (fun _ => 1/2) (fun _ => 0) 0 0)
     [("x", (2 : ℚ)), ("y", 3)] c4h_total c4h_u0 c4h_u1⟩

/-- C2: resolving a PASS_* outcome returns CONTINUE on success or RESET on
failure and never touches the offense turnover counter or the per-player
boxes; TURNOVER terms can only arise from sampled TO_* outcomes (including the
injected TO_SHOTCLOCK). -/
theorem c2_pass_failure_not_turnover :
    (∀ (era : EraTables) (tun : Tunables) (rng : Rng) (outcome action : String)
      (offense defense : TeamState) (tags : Tags) (pass_chain : ℕ) (ctx : Ctx)
      (gs : GameState), is_pass outcome = true →
      ((resolve_outcome era tun rng outcome action offense defense tags pass_chain ctx
          gs).term = "CONTINUE" ∨
        (resolve_outcome era tun rng outcome action offense defense tags pass_chain ctx
          gs).term = "RESET") ∧
      (resolve_outcome era tun rng outcome action offense defense tags pass_chain ctx
        gs).offense.tov = offense.tov ∧
      (resolve_outcome era tun rng outcome action offense defense tags pass_chain ctx
        gs).offense.player_stats = offense.player_stats) ∧
    (∀ (era : EraTables) (tun : Tunables) (rng : Rng) (outcome action : String)
      (offense defense : TeamState) (tags : Tags) (pass_chain : ℕ) (ctx : Ctx)
      (gs : GameState), is_to outcome = false →
      (resolve_outcome era tun rng outcome action offense defense tags pass_chain ctx
        gs).term ≠ "TURNOVER") :=
  ⟨fun era tun rng outcome action offense defense tags pass_chain ctx gs h =>
      resolve_outcome_pass_spec era tun rng outcome action offense defense tags
        pass_chain ctx gs h,
    fun era tun rng outcome action offense defense tags pass_chain ctx gs h =>
      resolve_outcome_no_to era tun rng outcome action offense defense tags
        pass_chain ctx gs h⟩

/-- Witness for C2 at a concrete kickout pass with the default era. -/
theorem c2_witness :
    (is_pass "PASS_KICKOUT" = true ∧ is_to "PASS_KICKOUT" = false) ∧
    (((resolve_outcome defaultEra {} wRng "PASS_KICKOUT" "Kickout" (wTeam "H")
        (wTeam "A") {} 0 {} wGs).term = "CONTINUE" ∨
      (resolve_outcome defaultEra {} wRng "PASS_KICKOUT" "Kickout" (wTeam "H")
        (wTeam "A") {} 0 {} wGs).term = "RESET") ∧
     (resolve_outcome defaultEra {} wRng "PASS_KICKOUT" "Kickout" (wTeam "H")
       (wTeam "A") {} 0 {} wGs).offense.tov = (wTeam "H").tov ∧
     (resolve_outcome defaultEra {} wRng "PASS_KICKOUT" "Kickout" (wTeam "H")
       (wTeam "A") {} 0 {} wGs).offense.player_stats = (wTeam "H").player_stats) ∧
    (resolve_outcome defaultEra {} wRng "PASS_KICKOUT" "Kickout" (wTeam "H")
      (wTeam "A") {} 0 {} wGs).term ≠ "TURNOVER" :=
  ⟨⟨by decide, by decide⟩,
    c2_pass_failure_not_turnover.1 defaultEra {} wRng "PASS_KICKOUT" "Kickout"
      (wTeam "H") (wTeam "A") {} 0 {} wGs (by decide),
    c2_pass_failure_not_turnover.2 defaultEra {} wRng "PASS_KICKOUT" "Kickout"
      (wTeam "H") (wTeam "A") {} 0 {} wGs (by decide)⟩

/-- C9: simulate_possession performs at most max_steps outcome resolutions and
ends at one of the loop return sites: a terminal SCORE/TURNOVER/FOUL
resolution, a defensive rebound, a clock expiry, or a shot-clock turnover
(from shot-clock expiry or from exhausting max_steps), the latter booking a
team turnover, a TOV on the ball handler and a TO_SHOTCLOCK outcome count. -/
theorem c9_possession_termination (era : EraTables) (tun : Tunables) (rules : Rules)
    (rng : Rng) (offense defense : TeamState) (gs : GameState) (ctx : Ctx)
    (max_steps : ℕ) :
    (simulate_possession era tun rules rng offense defense gs ctx max_steps).resolves
      ≤ max_steps ∧
    ((simulate_possession era tun rules rng offense defense gs ctx max_steps).endTag
        = .drbEnd ∨
      (simulate_possession era tun rules rng offense defense gs ctx max_steps).endTag
        = .shotClock ∨
      (simulate_possession era tun rules rng offense defense gs ctx max_steps).endTag
        = .clockOut ∨
      (simulate_possession era tun rules rng offense defense gs ctx max_steps).endTag
        = .loopExit ∨
      ∃ t, (t = "SCORE" ∨ t = "TURNOVER" ∨ t = "FOUL") ∧
        (simulate_possession era tun rules rng offense defense gs ctx max_steps).endTag
          = .terminal t) ∧
    ((simulate_possession era tun rules rng offense defense gs ctx max_steps).endTag
        = .loopExit ∨
      (simulate_possession era tun rules rng offense defense gs ctx max_steps).endTag
        = .shotClock →
      ∃ off0,
        (simulate_possession era tun rules rng offense defense gs ctx
          max_steps).offense = commit_shot_clock_turnover off0 ∧
        (simulate_possession era tun rules rng offense defense gs ctx
          max_steps).offense.tov = off0.tov + 1 ∧
        dictGet (simulate_possession era tun rules rng offense defense gs ctx
          max_steps).offense.outcome_counts "TO_SHOTCLOCK" 0 =
          dictGet off0.outcome_counts "TO_SHOTCLOCK" 0 + 1) := by
  unfold simulate_possession
  dsimp only
  refine ⟨?_, ?_, ?_⟩
  · exact le_trans (possessionLoop_spec _ _ _ _ _ _ _ _ _ _ _ _ _ _).1
      (le_of_eq (Nat.zero_add _))
  · exact (possessionLoop_spec _ _ _ _ _ _ _ _ _ _ _ _ _ _).2.1
  · intro hend
    obtain ⟨off0, ho⟩ := (possessionLoop_spec _ _ _ _ _ _ _ _ _ _ _ _ _ _).2.2 hend
    exact ⟨off0, ho, by rw [ho]; exact (commit_shot_clock_turnover_spec off0).1,
      by rw [ho]; exact (commit_shot_clock_turnover_spec off0).2⟩

/-- Witness for C9 at a zero step budget: the fall-through return site fires
and its offense is a booked shot-clock turnover. -/
theorem c9_witness :
    ((simulate_possession defaultEra {} MVP_RULES wRng (wTeam "H") (wTeam "A") wGs {} 0).endTag
        = .loopExit ∨
      (simulate_possession defaultEra {} MVP_RULES wRng (wTeam "H") (wTeam "A") wGs {} 0).endTag
        = .shotClock) ∧
    (simulate_possession defaultEra {} MVP_RULES wRng (wTeam "H") (wTeam "A") wGs {} 0).resolves
      ≤ 0 ∧
    ∃ off0,
      (simulate_possession defaultEra {} MVP_RULES wRng (wTeam "H") (wTeam "A") wGs {}
        0).offense = commit_shot_clock_turnover off0 ∧
      (simulate_possession defaultEra {} MVP_RULES wRng (wTeam "H") (wTeam "A") wGs {}
        0).offense.tov = off0.tov + 1 ∧
      dictGet (simulate_possession defaultEra {} MVP_RULES wRng (wTeam "H") (wTeam "A") wGs {}
        0).offense.outcome_counts "TO_SHOTCLOCK" 0 =
        dictGet off0.outcome_counts "TO_SHOTCLOCK" 0 + 1 :=
  ⟨Or.inl rfl,
   (c9_possession_termination defaultEra {} MVP_RULES wRng (wTeam "H") (wTeam "A") wGs {} 0).1,
   (c9_possession_termination defaultEra {} MVP_RULES wRng (wTeam "H") (wTeam "A") wGs {}
     0).2.2 (Or.inl rfl)⟩

/-- C6 counterexample: with every uniform draw 0 the paired dunk of a
FOUL_DRAW_RIM always lands (the made probability is clamped to at least
prob_min = 0.03 > 0), so the and-one grants a third free throw: the rim foul
attempts 3 free throws, not the 2 the claim states. -/
theorem c6_counterexample :
    ("FOUL_DRAW_RIM" : String) ≠ "FOUL_DRAW_JUMPER" ∧
    (resolveFoulBranch defaultEra {} wRng0 "FOUL_DRAW_RIM" (wTeam "H") (wTeam "A") wGs
      {} wP 50 50 1 0 0).payload.fts = some 3 ∧
    (resolveFoulBranch defaultEra {} wRng0 "FOUL_DRAW_RIM" (wTeam "H") (wTeam "A") wGs
      {} wP 50 50 1 0 0).offense.fta = (wTeam "H").fta + 3 := by
  obtain ⟨a, ha1, ha2, ha3⟩ := foulBranch_fts defaultEra {} wRng0 "FOUL_DRAW_RIM"
    (wTeam "H") (wTeam "A") wGs {} wP 50 50 1 0 0
  have hao := foulBranch_and_one_u0 defaultEra {} wRng0 "FOUL_DRAW_RIM" (wTeam "H")
    (wTeam "A") wGs {} wP 50 50 1 0 0 (fun _ => rfl) c6h_pm_pos c6h_pm_le
  rw [ha1] at hao
  injection hao with ha
  subst ha
  refine ⟨by decide, ?_, ?_⟩
  · rw [ha2]
    decide
  · rw [ha3]
    decide

/-- C8 counterexample: with the lone on-court player already at the foul-out
limit and no eligible bench candidate, the rotation cannot remove the player,
so a fouled-out player remains on court for subsequent steps, refuting the
claimed invariant. -/
theorem c8_counterexample :
    MVP_RULES.foul_out ≤ dictGet wGs8.player_fouls "p1" 0 ∧
    "p1" ∈ wGs8.on_court_home ∧
    "p1" ∈ (perform_rotation (wTeam "H") true wGs8 MVP_RULES false).on_court_home := by
  refine ⟨by decide, by decide, ?_⟩
  rw [c8h_rot]
  exact List.mem_singleton.mpr rfl

/-- C8 (amended): the rotation never brings a fouled-out player onto the
court — every player on court after _perform_rotation either was already on
court or has a personal-foul count strictly below the foul-out limit (the
bench filter excludes fouled-out players). -/
theorem c8_rotation_foul_out_amended :
    ∀ (team : TeamState) (gs : GameState) (rules : Rules) (g : Bool) (pid : String),
      (pid ∈ (perform_rotation team true gs rules g).on_court_home →
        pid ∈ gs.on_court_home ∨ dictGet gs.player_fouls pid 0 < rules.foul_out) ∧
      (pid ∈ (perform_rotation team false gs rules g).on_court_away →
        pid ∈ gs.on_court_away ∨ dictGet gs.player_fouls pid 0 < rules.foul_out) := by
  intro team gs rules g pid
  constructor
  · intro h
    simp only [perform_rotation] at h
    have h2 := List.take_subset _ _ h
    rcases rotationSwaps_mem _ _ _ _ _ _ _ h2 with h3 | h3
    · exact Or.inl h3
    · have h4 := List.mem_filter.mp h3
      have h5 := List.mem_filter.mp h4.1
      exact Or.inr (of_decide_eq_true h5.2).2
  · intro h
    simp only [perform_rotation] at h
    have h2 := List.take_subset _ _ h
    rcases rotationSwaps_mem _ _ _ _ _ _ _ h2 with h3 | h3
    · exact Or.inl h3
    · have h4 := List.mem_filter.mp h3
      have h5 := List.mem_filter.mp h4.1
      exact Or.inr (of_decide_eq_true h5.2).2

/-- Witness for C8 (amended) at the fouled-out concrete state on both sides. -/
theorem c8_witness :
    ("p1" ∈ (perform_rotation (wTeam "H") true wGs8 MVP_RULES false).on_court_home ∧
     "p1" ∈ (perform_rotation (wTeam "H") false wGs8 MVP_RULES false).on_court_away) ∧
    ("p1" ∈ wGs8.on_court_home ∨ dictGet wGs8.player_fouls "p1" 0 < MVP_RULES.foul_out) ∧
    ("p1" ∈ wGs8.on_court_away ∨ dictGet wGs8.player_fouls "p1" 0 < MVP_RULES.foul_out) := by
  have hm : "p1" ∈ (perform_rotation (wTeam "H") true wGs8 MVP_RULES false).on_court_home := by
    rw [c8h_rot]
    exact List.mem_singleton.mpr rfl
  have hma : "p1" ∈ (perform_rotation (wTeam "H") false wGs8 MVP_RULES false).on_court_away := by
    rw [c8h_rot_away]
    exact List.mem_singleton.mpr rfl
  exact ⟨⟨hm, hma⟩,
    (c8_rotation_foul_out_amended (wTeam "H") wGs8 MVP_RULES false "p1").1 hm,
    (c8_rotation_foul_out_amended (wTeam "H") wGs8 MVP_RULES false "p1").2 hma⟩

/-- C5 counterexample: in an era whose logit noise std is positive but below
the 1e-9 guard, the code suppresses the Gaussian noise even though an rng is
present, so the kernel's output differs from the spec formula (whose noise is
omitted exactly when the rng is absent): the noise term is 0 with an rng
present. -/
theorem c5_counterexample :
    (prob_from_scores era5 (some wRngG) (1/2) 0 0 "shot_rim" 1 0 0).1 ≠
      prob_from_scores_spec era5 (some wRngG) (1/2) 0 0 "shot_rim" 1 0 0 ∧
    (noiseTerm era5 (some wRngG) "shot_rim" 1).1 = 0 ∧
    (some wRngG ≠ (none : Option Rng)) ∧ 0 < noiseStd era5 "shot_rim" 1 := by
  refine ⟨?_, ?_, fun h => Option.noConfusion h, c5h_std_pos⟩
  · intro he
    have h1 := c5h_spec
    rw [← he, c5h_code] at h1
    exact lt_irrefl _ h1
  · unfold noiseTerm
    dsimp only
    rw [if_neg (not_lt.mpr c5h_std)]

/-- C5 (amended): under the default probability-model constants the kernel
equals the spec formula with the amended noise rule — the Gaussian noise is
omitted when the rng is absent AND when the effective std is within the 1e-9
guard; the sensitivity is the per-kind configured one, falling back to
1/scale when only a scale above the guard is configured. -/
theorem c5_prob_kernel_amended :
    (∀ (era : EraTables) (rng : Option Rng) (bp os ds : ℚ) (kind : String)
      (vm rd fd : ℚ), era.prob_model = {} →
      (prob_from_scores era rng bp os ds kind vm rd fd).1 =
        prob_from_scores_spec_amended era rng bp os ds kind vm rd fd) ∧
    (∀ (era : EraTables) (kind : String) (vm : ℚ),
      (noiseTerm era none kind vm).1 = 0) ∧
    (∀ (era : EraTables) (r : Rng) (kind : String) (vm : ℚ),
      noiseStd era kind vm ≤ eps9 → (noiseTerm era (some r) kind vm).1 = 0) ∧
    (∀ (era : EraTables) (kind : String) (s : ℚ),
      dictFind (logisticSpecFor era kind) "sensitivity" = some s →
      probSensitivity era kind = s) ∧
    (∀ (era : EraTables) (kind : String) (sc : ℚ),
      dictFind (logisticSpecFor era kind) "sensitivity" = none →
      dictFind (logisticSpecFor era kind) "scale" = some sc → eps9 < sc →
      probSensitivity era kind = 1 / sc) := by
  refine ⟨?_, ?_, ?_, ?_, ?_⟩
  · intro era rng bp os ds kind vm rd fd hpm
    unfold prob_from_scores prob_from_scores_spec_amended
    dsimp only
    rw [hpm]
    dsimp only
    congr 1
    congr 1
    ring
  · intro era kind vm
    rfl
  · intro era r kind vm h
    unfold noiseTerm
    dsimp only
    rw [if_neg (not_lt.mpr h)]
  · intro era kind s h
    unfold logisticSpecFor at h
    unfold probSensitivity
    dsimp only at h ⊢
    rw [h]
  · intro era kind sc h1 h2 h3
    unfold logisticSpecFor at h1 h2
    unfold probSensitivity
    dsimp only at h1 h2 ⊢
    rw [h1, h2]
    dsimp only
    rw [if_pos h3]

/-- Witness for C5 (amended) at the default era (configured sensitivity), the
tiny-noise era (guard suppression with an rng present) and the scale-only era
(1/scale fallback). -/
theorem c5_witness :
    (defaultEra.prob_model = ({} : ProbModel) ∧
     noiseStd era5 "shot_rim" 1 ≤ eps9 ∧
     dictFind (logisticSpecFor defaultEra "shot_rim") "sensitivity" = some (1/18) ∧
     dictFind (logisticSpecFor eraScale "shot_rim") "sensitivity" = none ∧
     dictFind (logisticSpecFor eraScale "shot_rim") "scale" = some 20 ∧
     (eps9 : ℚ) < 20) ∧
    (prob_from_scores defaultEra none (1/2) 50 40 "shot_rim" 1 0 0).1 =
      prob_from_scores_spec_amended defaultEra none (1/2) 50 40 "shot_rim" 1 0 0 ∧
    (noiseTerm defaultEra none "shot_rim" 1).1 = 0 ∧
    (noiseTerm era5 (some wRng) "shot_rim" 1).1 = 0 ∧
    probSensitivity defaultEra "shot_rim" = 1/18 ∧
    probSensitivity eraScale "shot_rim" = 1 / 20 :=
  ⟨⟨rfl, c5h_std, rfl, rfl, rfl, c5h_scale⟩,
   c5_prob_kernel_amended.1 defaultEra none (1/2) 50 40 "shot_rim" 1 0 0 rfl,
   c5_prob_kernel_amended.2.1 defaultEra "shot_rim" 1,
   c5_prob_kernel_amended.2.2.1 era5 wRng "shot_rim" 1 c5h_std,
   c5_prob_kernel_amended.2.2.2.1 defaultEra "shot_rim" (1/18) rfl,
   c5_prob_kernel_amended.2.2.2.2 eraScale "shot_rim" 20 rfl rfl c5h_scale⟩

/-- C6 (amended): a FOUL_* outcome with a profile resolves with term FOUL; the
foul block charges one team foul to the defense and one personal foul to the
fouler drawn from the defense on-court list; the paired shot determines the
and-one, and the shooter attempts 3 free throws for FOUL_DRAW_JUMPER and 2
otherwise PLUS one extra on an and-one; each free throw books one FTA and
converts (1 FTM, 1 PT) exactly when the draw is below
clamp(ft_base + SHOT_FT/100·ft_range, ft_min, ft_max); a fouler at the
foul-out limit has freshness wiped to 0. -/
theorem c6_foul_resolution_amended :
    (∀ (era : EraTables) (tun : Tunables) (rng : Rng) (outcome action : String)
      (offense defense : TeamState) (tags : Tags) (pass_chain : ℕ) (ctx : Ctx)
      (gs : GameState) (prof : OutcomeProfile), is_foul outcome = true →
      dictFind OUTCOME_PROFILES outcome = some prof →
      (resolve_outcome era tun rng outcome action offense defense tags pass_chain ctx
        gs).term = "FOUL") ∧
    (∀ (era : EraTables) (tun : Tunables) (rng1 : Rng) (outcome : String)
      (off3 def1 : TeamState) (gs : GameState) (ctx : Ctx) (actor : Player)
      (os ds vm rd fd : ℚ),
      dictGet (resolveFoulBranch era tun rng1 outcome off3 def1 gs ctx actor os ds vm rd
        fd).gs.team_fouls def1.name 0 = dictGet gs.team_fouls def1.name 0 + 1) ∧
    (∀ (era : EraTables) (tun : Tunables) (rng1 : Rng) (outcome : String)
      (off3 def1 : TeamState) (gs : GameState) (ctx : Ctx) (actor : Player)
      (os ds vm rd fd : ℚ),
      ∀ fp, (resolveFoulBranch era tun rng1 outcome off3 def1 gs ctx actor os ds vm rd
          fd).payload.fouler = some fp →
        dictGet (resolveFoulBranch era tun rng1 outcome off3 def1 gs ctx actor os ds vm
          rd fd).gs.player_fouls fp 0 = dictGet gs.player_fouls fp 0 + 1 ∧
        (fp ∈ (if (ctx.def_on_court.getD []) = [] then def1.lineup.map (fun p => p.pid)
          else ctx.def_on_court.getD []) ∨ fp = "")) ∧
    (∀ (era : EraTables) (tun : Tunables) (rng1 : Rng) (outcome : String)
      (off3 def1 : TeamState) (gs : GameState) (ctx : Ctx) (actor : Player)
      (os ds vm rd fd : ℚ),
      ∃ a : Bool,
        (resolveFoulBranch era tun rng1 outcome off3 def1 gs ctx actor os ds vm rd
          fd).payload.and_one = some a ∧
        (resolveFoulBranch era tun rng1 outcome off3 def1 gs ctx actor os ds vm rd
          fd).payload.fts = some ((if outcome = "FOUL_DRAW_JUMPER" then 3 else 2) +
            (if a then 1 else 0)) ∧
        (resolveFoulBranch era tun rng1 outcome off3 def1 gs ctx actor os ds vm rd
          fd).offense.fta = off3.fta + ((if outcome = "FOUL_DRAW_JUMPER" then 3 else 2) +
            (if a then 1 else 0))) ∧
    (∀ (era : EraTables) (actor : Player) (rng0 : Rng) (team0 : TeamState),
      (resolve_free_throws era rng0 actor 1 team0).1.fta = team0.fta + 1 ∧
      (resolve_free_throws era rng0 actor 1 team0).1.ftm = team0.ftm +
        (if rng0.u rng0.iu < clamp (era.prob_model.ft_base +
            actor.get "SHOT_FT" true / 100 * era.prob_model.ft_range)
            era.prob_model.ft_min era.prob_model.ft_max then 1 else 0) ∧
      (resolve_free_throws era rng0 actor 1 team0).1.pts = team0.pts +
        (if rng0.u rng0.iu < clamp (era.prob_model.ft_base +
            actor.get "SHOT_FT" true / 100 * era.prob_model.ft_range)
            era.prob_model.ft_min era.prob_model.ft_max then 1 else 0)) ∧
    (∀ (era : EraTables) (tun : Tunables) (rng1 : Rng) (outcome : String)
      (off3 def1 : TeamState) (gs : GameState) (ctx : Ctx) (actor : Player)
      (os ds vm rd fd : ℚ),
      ∀ fp, (resolveFoulBranch era tun rng1 outcome off3 def1 gs ctx actor os ds vm rd
          fd).payload.fouler = some fp →
        ctx.foul_out ≤ dictGet (resolveFoulBranch era tun rng1 outcome off3 def1 gs ctx
          actor os ds vm rd fd).gs.player_fouls fp 0 →
        fp ≠ "" →
        dictGet (resolveFoulBranch era tun rng1 outcome off3 def1 gs ctx actor os ds vm
          rd fd).gs.fatigue fp 0 = 0) :=
  ⟨resolve_outcome_foul_term, foulBranch_team_foul, foulBranch_personal_foul,
    foulBranch_fts, resolve_free_throw_one, foulBranch_foul_out⟩

/-- Witness for C6 (amended) at a concrete rim foul with a foul-out limit of
1, so the single personal foul trips the freshness wipe. -/
theorem c6_witness :
    (is_foul "FOUL_DRAW_RIM" = true ∧
     (resolveFoulBranch defaultEra {} wRng0 "FOUL_DRAW_RIM" (wTeam "H") (wTeam "A") wGs
       ({ foul_out := 1 } : Ctx) wP 50 50 1 0 0).payload.fouler = some "p1") ∧
    (resolve_outcome defaultEra {} wRng0 "FOUL_DRAW_RIM" "PostUp" (wTeam "H")
      (wTeam "A") {} 0 {} wGs).term = "FOUL" ∧
    dictGet (resolveFoulBranch defaultEra {} wRng0 "FOUL_DRAW_RIM" (wTeam "H")
      (wTeam "A") wGs ({ foul_out := 1 } : Ctx) wP 50 50 1 0 0).gs.team_fouls
      (wTeam "A").name 0 = dictGet wGs.team_fouls (wTeam "A").name 0 + 1 ∧
    (dictGet (resolveFoulBranch defaultEra {} wRng0 "FOUL_DRAW_RIM" (wTeam "H")
      (wTeam "A") wGs ({ foul_out := 1 } : Ctx) wP 50 50 1 0 0).gs.player_fouls "p1" 0 =
      dictGet wGs.player_fouls "p1" 0 + 1 ∧
     ("p1" ∈ (if ((({ foul_out := 1 } : Ctx)).def_on_court.getD []) = [] then
        (wTeam "A").lineup.map (fun p => p.pid)
        else (({ foul_out := 1 } : Ctx)).def_on_court.getD []) ∨ ("p1" : String) = "")) ∧
    (resolve_free_throws defaultEra wRng wP 1 (wTeam "H")).1.fta = (wTeam "H").fta + 1 ∧
    dictGet (resolveFoulBranch defaultEra {} wRng0 "FOUL_DRAW_RIM" (wTeam "H")
      (wTeam "A") wGs ({ foul_out := 1 } : Ctx) wP 50 50 1 0 0).gs.fatigue "p1" 0 = 0 :=
  by
  have hfp := c6h_fouler
  have hpf := (c6_foul_resolution_amended.2.2.1 defaultEra {} wRng0 "FOUL_DRAW_RIM"
    (wTeam "H") (wTeam "A") wGs ({ foul_out := 1 } : Ctx) wP 50 50 1 0 0) "p1" hfp
  have hlim : ({ foul_out := 1 } : Ctx).foul_out ≤
      dictGet (resolveFoulBranch defaultEra {} wRng0 "FOUL_DRAW_RIM" (wTeam "H")
        (wTeam "A") wGs ({ foul_out := 1 } : Ctx) wP 50 50 1 0 0).gs.player_fouls
        "p1" 0 := by
    rw [hpf.1]
    decide
  exact ⟨⟨by decide, hfp⟩,
    c6_foul_resolution_amended.1 defaultEra {} wRng0 "FOUL_DRAW_RIM" "PostUp" (wTeam "H")
      (wTeam "A") {} 0 {} wGs ((dictFind OUTCOME_PROFILES "FOUL_DRAW_RIM").getD ⟨[], []⟩)
      (by decide) rfl,
    c6_foul_resolution_amended.2.1 defaultEra {} wRng0 "FOUL_DRAW_RIM" (wTeam "H")
      (wTeam "A") wGs ({ foul_out := 1 } : Ctx) wP 50 50 1 0 0,
    hpf,
    (c6_foul_resolution_amended.2.2.2.2.1 defaultEra wP wRng (wTeam "H")).1,
    (c6_foul_resolution_amended.2.2.2.2.2 defaultEra {} wRng0 "FOUL_DRAW_RIM" (wTeam "H")
      (wTeam "A") wGs ({ foul_out := 1 } : Ctx) wP 50 50 1 0 0) "p1" hfp hlim
      (by decide)⟩

/-- C3: box-score accounting — teams whose counters satisfy the box-score
invariant keep satisfying it through every outcome resolution, and a full
simulated game starting from such teams ends with both final team states
satisfying FGM ≤ FGA, 3PM ≤ 3PA, FTM ≤ FTA, 3PA ≤ FGA and the points identity
PTS = 2·(FGM−3PM) + 3·3PM + FTM; moreover every made free throw adds exactly
one point and one FTM, SHOT_3_CS and SHOT_3_OD score 3 points, and every
other shot outcome scores 2 points (all counters being ℕ-valued, hence
non-negative integers). -/
theorem c3_box_score_invariant (era : EraTables) (tun : Tunables) (rng : Rng)
    (teamA teamB : TeamState) (eraName : String) (fuel : ℕ)
    (hA : TeamCountersInv teamA) (hB : TeamCountersInv teamB) :
    TeamBoxInv (simulate_game era tun rng teamA teamB eraName fuel).finalTeamA ∧
    TeamBoxInv (simulate_game era tun rng teamA teamB eraName fuel).finalTeamB ∧
    (∀ (tun2 : Tunables) (rng2 : Rng) (outcome action : String) (off d : TeamState)
       (tags : Tags) (pc : ℕ) (ctx : Ctx) (gs : GameState),
       TeamCountersInv off → TeamCountersInv d →
       TeamBoxInv (resolve_outcome era tun2 rng2 outcome action off d tags pc ctx
         gs).offense ∧
       TeamBoxInv (resolve_outcome era tun2 rng2 outcome action off d tags pc ctx
         gs).defense) ∧
    (∀ (rng3 : Rng) (shooter : Player) (team : TeamState),
       rng3.u rng3.iu < clamp (era.prob_model.ft_base +
           shooter.get "SHOT_FT" true / 100 * era.prob_model.ft_range)
           era.prob_model.ft_min era.prob_model.ft_max →
       (resolve_free_throws era rng3 shooter 1 team).1.pts = team.pts + 1 ∧
       (resolve_free_throws era rng3 shooter 1 team).1.ftm = team.ftm + 1) ∧
    outcome_points "SHOT_3_CS" = 3 ∧ outcome_points "SHOT_3_OD" = 3 ∧
    (∀ o : String, is_shot o = true → o ≠ "SHOT_3_CS" → o ≠ "SHOT_3_OD" →
       outcome_points o = 2) := by
  refine ⟨?_, ?_, ?_, ?_, rfl, rfl, ?_⟩
  · unfold simulate_game
    dsimp only
    refine ((runQuarters_inv _ _ _ _ _ _ _ _ _ _ _ _ ?_ ?_).1).1 <;>
      first
      | exact countersInv_of_eq ⟨rfl, rfl, rfl, rfl, rfl, rfl, rfl, rfl⟩ hA
      | exact countersInv_of_eq ⟨rfl, rfl, rfl, rfl, rfl, rfl, rfl, rfl⟩ hB
  · unfold simulate_game
    dsimp only
    refine ((runQuarters_inv _ _ _ _ _ _ _ _ _ _ _ _ ?_ ?_).2).1 <;>
      first
      | exact countersInv_of_eq ⟨rfl, rfl, rfl, rfl, rfl, rfl, rfl, rfl⟩ hA
      | exact countersInv_of_eq ⟨rfl, rfl, rfl, rfl, rfl, rfl, rfl, rfl⟩ hB
  · intro tun2 rng2 outcome action off d tags pc ctx gs ho hd
    exact ⟨((resolve_outcome_inv era tun2 rng2 outcome action off d tags pc ctx gs
        ho hd).1).1,
      ((resolve_outcome_inv era tun2 rng2 outcome action off d tags pc ctx gs
        ho hd).2).1⟩
  · intro rng3 shooter team hmk
    constructor
    · have h := (resolve_free_throw_one era shooter rng3 team).2.2
      rw [if_pos hmk] at h
      exact h
    · have h := (resolve_free_throw_one era shooter rng3 team).2.1
      rw [if_pos hmk] at h
      exact h
  · intro o hs h1 h2
    have hne : ¬(o = "SHOT_3_CS" ∨ o = "SHOT_3_OD") := by
      rintro (h | h)
      · exact h1 h
      · exact h2 h
    have hs2 : pyStartsWith o "SHOT_" = true := hs
    unfold outcome_points
    rw [if_neg hne, if_pos hs2]

/-- Witness for C3 at the zero-counter teams: the hypotheses hold and a
concrete game run satisfies the final box-score invariant. -/
theorem c3_witness :
    TeamCountersInv (wTeam "H") ∧ TeamCountersInv (wTeam "A") ∧
    TeamBoxInv (simulate_game defaultEra {} wRng (wTeam "H") (wTeam "A") "modern"
      0).finalTeamA :=
  ⟨wTeam_inv "H", wTeam_inv "A",
    (c3_box_score_invariant defaultEra {} wRng (wTeam "H") (wTeam "A") "modern" 0
      (wTeam_inv "H") (wTeam_inv "A")).1⟩

/-- C7 counterexample: SHOT_POST is a shot outcome whose zone mapping is
none, so its resolution books a field-goal attempt without any shot-zone
entry — on the concrete instance the attempt counter becomes 1 while the
zone mass stays 0, refuting Σ ShotZones = FGA. -/
theorem c7_counterexample :
    is_shot "SHOT_POST" = true ∧
    shot_zone_from_outcome "SHOT_POST" = none ∧
    (resolveShotBranch defaultEra {} wRng0 "SHOT_POST" (wTeam "H") (wTeam "A") wGs wP
      50 50 1 0 0).offense.fga = 1 ∧
    zoneSum (resolveShotBranch defaultEra {} wRng0 "SHOT_POST" (wTeam "H") (wTeam "A")
      wGs wP 50 50 1 0 0).offense = 0 :=
  ⟨by decide, by decide, c7h_shot.1, c7h_shot.2⟩

/-- C7 (amended): the shot-zone histogram mass never exceeds the field-goal
attempts — the bound is preserved by every outcome resolution and holds for
both final team states of a full simulated game started from teams
satisfying the counter invariant. -/
theorem c7_shot_zone_mass_amended (era : EraTables) (tun : Tunables) (rng : Rng)
    (teamA teamB : TeamState) (eraName : String) (fuel : ℕ)
    (hA : TeamCountersInv teamA) (hB : TeamCountersInv teamB) :
    zoneSum (simulate_game era tun rng teamA teamB eraName fuel).finalTeamA ≤
      (simulate_game era tun rng teamA teamB eraName fuel).finalTeamA.fga ∧
    zoneSum (simulate_game era tun rng teamA teamB eraName fuel).finalTeamB ≤
      (simulate_game era tun rng teamA teamB eraName fuel).finalTeamB.fga ∧
    ∀ (tun2 : Tunables) (rng2 : Rng) (outcome action : String) (off d : TeamState)
      (tags : Tags) (pc : ℕ) (ctx : Ctx) (gs : GameState),
      TeamCountersInv off → TeamCountersInv d →
      zoneSum (resolve_outcome era tun2 rng2 outcome action off d tags pc ctx
        gs).offense ≤
        (resolve_outcome era tun2 rng2 outcome action off d tags pc ctx gs).offense.fga := by
  refine ⟨?_, ?_, ?_⟩
  · unfold simulate_game
    dsimp only
    refine ((runQuarters_inv _ _ _ _ _ _ _ _ _ _ _ _ ?_ ?_).1).2 <;>
      first
      | exact countersInv_of_eq ⟨rfl, rfl, rfl, rfl, rfl, rfl, rfl, rfl⟩ hA
      | exact countersInv_of_eq ⟨rfl, rfl, rfl, rfl, rfl, rfl, rfl, rfl⟩ hB
  · unfold simulate_game
    dsimp only
    refine ((runQuarters_inv _ _ _ _ _ _ _ _ _ _ _ _ ?_ ?_).2).2 <;>
      first
      | exact countersInv_of_eq ⟨rfl, rfl, rfl, rfl, rfl, rfl, rfl, rfl⟩ hA
      | exact countersInv_of_eq ⟨rfl, rfl, rfl, rfl, rfl, rfl, rfl, rfl⟩ hB
  · intro tun2 rng2 outcome action off d tags pc ctx gs ho hd
    exact ((resolve_outcome_inv era tun2 rng2 outcome action off d tags pc ctx gs
      ho hd).1).2

/-- Witness for the amended C7 at the zero-counter teams. -/
theorem c7_witness :
    TeamCountersInv (wTeam "H") ∧ TeamCountersInv (wTeam "A") ∧
    zoneSum (simulate_game defaultEra {} wRng (wTeam "H") (wTeam "A") "modern"
        0).finalTeamA ≤
      (simulate_game defaultEra {} wRng (wTeam "H") (wTeam "A") "modern"
        0).finalTeamA.fga :=
  ⟨wTeam_inv "H", wTeam_inv "A",
    (c7_shot_zone_mass_amended defaultEra {} wRng (wTeam "H") (wTeam "A") "modern" 0
      (wTeam_inv "H") (wTeam_inv "A")).1⟩

/-- C1: determinism — two runs of simulate_game with pointwise-identical RNG
streams and positions (the same seed) and equal era, tunables and team inputs
produce the same full result, and in particular the same per-team summaries
and the same replay token. -/
theorem c1_determinism (era : EraTables) (tun : Tunables) (r1 r2 : Rng)
    (teamA teamB : TeamState) (eraName : String) (fuel : ℕ)
    (hu : ∀ i, r1.u i = r2.u i) (hg : ∀ i, r1.g i = r2.g i)
    (hiu : r1.iu = r2.iu) (hig : r1.ig = r2.ig) :
    simulate_game era tun r1 teamA teamB eraName fuel =
      simulate_game era tun r2 teamA teamB eraName fuel ∧
    (simulate_game era tun r1 teamA teamB eraName fuel).teamASummary =
      (simulate_game era tun r2 teamA teamB eraName fuel).teamASummary ∧
    (simulate_game era tun r1 teamA teamB eraName fuel).teamBSummary =
      (simulate_game era tun r2 teamA teamB eraName fuel).teamBSummary ∧
    (simulate_game era tun r1 teamA teamB eraName fuel).replay_token =
      (simulate_game era tun r2 teamA teamB eraName fuel).replay_token := by
  have hr : r1 = r2 := by
    obtain ⟨u1, g1, iu1, ig1⟩ := r1
    obtain ⟨u2, g2, iu2, ig2⟩ := r2
    have hu' : u1 = u2 := funext fun i => hu i
    have hg' : g1 = g2 := funext fun i => hg i
    have hiu' : iu1 = iu2 := hiu
    have hig' : ig1 = ig2 := hig
    rw [hu', hg', hiu', hig']
  rw [hr]
  exact ⟨rfl, rfl, rfl, rfl⟩

/-- Witness for C1: two syntactically distinct but pointwise-equal RNG values
drive a concrete game to the same result. -/
theorem c1_witness :
    simulate_game defaultEra {} wRng (wTeam "H") (wTeam "A") "modern" 1 =
      simulate_game defaultEra {} (Rng.mk (fun i => ((1 : ℚ)/2) + 0 * i)
        (fun _ => 0) 0 0) (wTeam "H") (wTeam "A") "modern" 1 :=
  (c1_determinism defaultEra {} wRng (Rng.mk (fun i => ((1 : ℚ)/2) + 0 * i)
      (fun _ => 0) 0 0) (wTeam "H") (wTeam "A") "modern" 1
    (fun i => by show (1 : ℚ)/2 = (1 : ℚ)/2 + 0 * (i : ℚ); ring)
    (fun i => rfl) rfl rfl).1

end MatchEngine
